import Mathlib

/-!
Verification development for a minimal restart-based incremental evaluator
(source: src/python/skyframe.py).  The Python classes `Graph`, `Environment`
and `Executor` are embedded as pure state-passing Lean functions; the Python
dictionaries and sets are modelled as association lists / membership lists
(Python dicts preserve insertion order; `reverse_deps` sets are modelled in
insertion order, which is the only mutation order the code performs).
A `SkyFunction`'s `compute(key, env)` body is modelled as an inductive
program (`FProg`) that can call `env.get_value`, query `env.nodes_missing`,
and return; the executor interprets such programs against the shared state.
The `print` statements of the source are mirrored as an event trace.
-/

namespace Skyframe

/-- Association-list lookup, mirroring Python `d[k]` / `k in d` access. -/
def dictGet {Key α : Type} [DecidableEq Key] : List (Key × α) → Key → Option α
  | [], _ => none
  | (k', v) :: rest, k => if k = k' then some v else dictGet rest k

/-- Association-list assignment, mirroring Python `d[k] = v`: overwrite in
place when the key is present (first occurrence), append otherwise. -/
def dictSet {Key α : Type} [DecidableEq Key] : List (Key × α) → Key → α → List (Key × α)
  | [], k, v => [(k, v)]
  | (k', v') :: rest, k, v =>
      if k = k' then (k, v) :: rest else (k', v') :: dictSet rest k v

/-- The mutable evaluation state: the four collections of the Python `Graph`
(`nodes`, `reverse_deps`, `waiting_on`, `in_flight`, lines 9-14) together
with the `Executor`'s work queue (line 64). -/
structure SkyState (Key Value : Type) where
  nodes : List (Key × Option Value)
  reverseDeps : List (Key × List Key)
  waitingOn : List (Key × Int)
  inFlight : List Key
  queue : List Key
deriving DecidableEq

/-- The per-invocation fields of the Python `Environment` (lines 33-34):
the `_missing` flag and the `_new_deps` list. -/
structure EnvData (Key : Type) where
  missing : Bool
  newDeps : List Key
deriving DecidableEq

variable {Key Value : Type} [DecidableEq Key]

/-- `reverse_deps[k]` (a set, modelled in insertion order). -/
def reverseDepsOf (s : SkyState Key Value) (k : Key) : List Key :=
  (dictGet s.reverseDeps k).getD []

/-- `waiting_on[k]`. -/
def waitingOf (s : SkyState Key Value) (k : Key) : Int :=
  (dictGet s.waitingOn k).getD 0

/-- `Graph.is_done` (lines 23-24): `key in nodes and nodes[key] is not None`. -/
def isDone (s : SkyState Key Value) (k : Key) : Bool :=
  match dictGet s.nodes k with
  | some (some _) => true
  | _ => false

/-- `Graph.nodes.get(key)` (line 102): `None` when absent or stored `None`. -/
def valueOf (s : SkyState Key Value) (k : Key) : Option Value :=
  (dictGet s.nodes k).getD none

/-- `Graph.get_or_create` (lines 16-21): create a PENDING node with empty
edge set and zero waiting count when absent. -/
def getOrCreate (s : SkyState Key Value) (k : Key) : SkyState Key Value :=
  if (dictGet s.nodes k).isSome then s
  else { s with nodes := s.nodes ++ [(k, none)],
                reverseDeps := dictSet s.reverseDeps k [],
                waitingOn := dictSet s.waitingOn k 0 }

/-- `Environment.get_value` (lines 36-54): ensure the dep's node exists;
return its value when DONE; otherwise record the reverse edge and the new
dep once per parent, enqueue the dep unless in flight, and flag `missing`. -/
def getValue (cur dep : Key) (s : SkyState Key Value) (e : EnvData Key) :
    Option Value × SkyState Key Value × EnvData Key :=
  let s1 := getOrCreate s dep
  if isDone s1 dep then (valueOf s1 dep, s1, e)
  else if cur ∈ reverseDepsOf s1 dep then (none, s1, { e with missing := true })
  else
    let s2 := { s1 with
      reverseDeps := dictSet s1.reverseDeps dep (reverseDepsOf s1 dep ++ [cur]) }
    let e2 := { e with newDeps := e.newDeps ++ [dep] }
    if dep ∈ s2.inFlight then (none, s2, { e2 with missing := true })
    else (none, { s2 with inFlight := s2.inFlight ++ [dep],
                          queue := s2.queue ++ [dep] },
          { e2 with missing := true })

/-- The body of a `SkyFunction.compute(key, env)`: a sequence of
`env.get_value` calls and `env.nodes_missing` queries, with control flow
depending on their results, ending in a returned value or `None`. -/
inductive FProg (Key Value : Type) where
  | getValue (dep : Key) (k : Option Value → FProg Key Value)
  | nodesMissing (k : Bool → FProg Key Value)
  | ret (r : Option Value)

/-- Interpret a `compute` body against the shared state, threading the
`Environment` data exactly as the Python methods do. -/
def runCompute (cur : Key) : FProg Key Value → SkyState Key Value → EnvData Key →
    Option Value × SkyState Key Value × EnvData Key
  | .ret r, s, e => (r, s, e)
  | .getValue dep k, s, e =>
      match getValue cur dep s e with
      | (v, s', e') => runCompute cur (k v) s' e'
  | .nodesMissing k, s, e => runCompute cur (k e.missing) s e

/-- One entry of the evaluation trace, mirroring the `print` calls of
`Executor.evaluate` (lines 77, 80, 89, 94, 96, 100). -/
inductive Event (Key Value : Type) where
  | cached (k : Key)
  | invoked (k : Key)
  | completed (k : Key) (v : Value)
  | signal (parent : Key) (remaining : Int)
  | reenqueue (parent : Key)
  | postponed (k : Key) (newDeps : List Key)
deriving DecidableEq

/-- The signal loop (lines 91-97): decrement each parent's waiting count and
re-enqueue it exactly when the decremented count is zero. -/
def signalParents (parents : List Key) (s : SkyState Key Value) :
    SkyState Key Value × List (Event Key Value) :=
  match parents with
  | [] => (s, [])
  | p :: rest =>
      let w : Int := waitingOf s p - 1
      let s1 := { s with waitingOn := dictSet s.waitingOn p w }
      let s2 := if w = 0 then { s1 with queue := s1.queue ++ [p] } else s1
      let evs : List (Event Key Value) :=
        if w = 0 then [.signal p w, .reenqueue p] else [.signal p w]
      match signalParents rest s2 with
      | (s3, evs') => (s3, evs ++ evs')

/-- Outcome of processing one dequeued key. -/
inductive StepOut (Key Value : Type) where
  | ok (s : SkyState Key Value) (evs : List (Event Key Value))
  | fault (k : Key) (evs : List (Event Key Value))

/-- The body of the scheduling loop for one dequeued key (lines 76-100):
skip when DONE; abort when no function is registered for the key's kind;
otherwise run `compute` with a fresh `Environment` and either mark DONE and
signal parents, or store the new waiting count. -/
def processKey (kindOf : Key → String)
    (fns : String → Option (Key → FProg Key Value))
    (k : Key) (s : SkyState Key Value) : StepOut Key Value :=
  if isDone s k then .ok s [.cached k]
  else
    match fns (kindOf k) with
    | none => .fault k [.invoked k]
    | some f =>
        match runCompute k (f k) s { missing := false, newDeps := [] } with
        | (some v, s', _) =>
            let s2 := { s' with nodes := dictSet s'.nodes k (some v),
                                inFlight := s'.inFlight.erase k }
            match signalParents (reverseDepsOf s2 k) s2 with
            | (s3, evs) => .ok s3 ([.invoked k, .completed k v] ++ evs)
        | (none, s', e) =>
            .ok { s' with waitingOn := dictSet s'.waitingOn k (Int.ofNat e.newDeps.length) }
              [.invoked k, .postponed k e.newDeps]

/-- Outcome of the whole loop: normal return, a fault (unregistered key
kind), or fuel exhausted (the loop would still be running). -/
inductive RunOut (Key Value : Type) where
  | halt (s : SkyState Key Value) (ret : Option Value) (evs : List (Event Key Value))
  | fault (k : Key) (s : SkyState Key Value) (evs : List (Event Key Value))
  | spent (s : SkyState Key Value) (evs : List (Event Key Value))

/-- The `while self.queue` loop of `Executor.evaluate` (lines 72-102),
fuel-indexed.  `last` tracks the Python loop variable `key`, which after the
loop names the most recently dequeued key (line 102 returns its value). -/
def run (kindOf : Key → String) (fns : String → Option (Key → FProg Key Value)) :
    Nat → SkyState Key Value → Key → RunOut Key Value
  | fuel, s, last =>
    match s.queue with
    | [] => .halt s (valueOf s last) []
    | k :: rest =>
      match fuel with
      | 0 => .spent s []
      | f + 1 =>
        match processKey kindOf fns k { s with queue := rest } with
        | .ok s' evs =>
            match run kindOf fns f s' k with
            | .halt s2 r evs2 => .halt s2 r (evs ++ evs2)
            | .fault k2 s2 evs2 => .fault k2 s2 (evs ++ evs2)
            | .spent s2 evs2 => .spent s2 (evs ++ evs2)
        | .fault k2 evs => .fault k2 { s with queue := rest } evs

/-- The empty graph and queue a fresh `Executor` starts from (lines 62-64). -/
def initState (Key Value : Type) : SkyState Key Value :=
  { nodes := [], reverseDeps := [], waitingOn := [], inFlight := [], queue := [] }

/-- `Executor.evaluate(key)` (lines 66-102): create the root node, mark it
in flight, enqueue it, and run the loop. -/
def evaluate (kindOf : Key → String) (fns : String → Option (Key → FProg Key Value))
    (fuel : Nat) (root : Key) : RunOut Key Value :=
  let s0 := getOrCreate (initState Key Value) root
  let s1 := { s0 with inFlight := s0.inFlight ++ [root], queue := s0.queue ++ [root] }
  run kindOf fns fuel s1 root

/-- Returned value of a run, `none` on fault or exhausted fuel. -/
def retOf : RunOut Key Value → Option Value
  | .halt _ r _ => r
  | _ => none

/-- Final state of a run. -/
def stateOf : RunOut Key Value → SkyState Key Value
  | .halt s _ _ => s
  | .fault _ s _ => s
  | .spent s _ => s

/-- Event trace of a run. -/
def evsOf : RunOut Key Value → List (Event Key Value)
  | .halt _ _ evs => evs
  | .fault _ _ evs => evs
  | .spent _ evs => evs

/-- Whether a run returned normally (queue drained). -/
def isHalt : RunOut Key Value → Bool
  | .halt _ _ _ => true
  | _ => false

end Skyframe

namespace Skyframe

/-! The concrete key types of the repository (lines 108-161): each carries
its payload; the discriminant is the Python class name. -/

/-- The four key classes: `FileStateKey`, `FileKey`, `ArtifactKey`,
`ArtifactNestedSetKey`. -/
inductive SkyKey where
  | fileState (path : String)
  | file (path : String)
  | artifact (path : String)
  | nestedSet (n : Nat)
deriving DecidableEq

/-- `type(key).__name__` (line 83). -/
def typeName : SkyKey → String
  | .fileState _ => "FileStateKey"
  | .file _ => "FileKey"
  | .artifact _ => "ArtifactKey"
  | .nestedSet _ => "ArtifactNestedSetKey"

/-- The `.path` attribute (defined for the three path-carrying key classes;
an `ArtifactNestedSetKey` has no such attribute and the registered functions
never read one from it). -/
def pathOf : SkyKey → String
  | .fileState p => p
  | .file p => p
  | .artifact p => p
  | .nestedSet _ => ""

/-- Python `str(x)` for an optional value: `None` prints as `"None"`.
Reachable only with `some` in the demo evaluation. -/
def optStr (o : Option String) : String := o.getD "None"

/-- Python `s.split("/")` on character lists (single-character separator):
`""` splits to `[""]`, separators at the ends produce empty fields. -/
def splitSlash : List Char → List (List Char)
  | [] => [[]]
  | ch :: rest =>
      match splitSlash rest with
      | [] => [[ch]]
      | g :: gs => if ch = '/' then [] :: g :: gs else (ch :: g) :: gs

/-- Python `"/".join(parts)` on character lists. -/
def joinSlash : List (List Char) → List Char
  | [] => []
  | [g] => g
  | g :: gs => g ++ '/' :: joinSlash gs

/-- Python `s.endswith("/")`: the last character is `'/'`. -/
def endsSlash (p : String) : Bool :=
  match p.data.getLast? with
  | some c => c = '/'
  | none => false

/-- Line 180: `"/".join(key.path.split("/")[:-1]) + "/"`. -/
def parentPath (p : String) : String :=
  ⟨joinSlash (splitSlash p.data).dropLast ++ ['/']⟩

/-- `FileStateFunction.compute` (lines 168-172): a leaf, returns
`content(<path>)` with no dependency requests. -/
def fileStateCompute (k : SkyKey) : FProg SkyKey String :=
  .ret (some ("content(" ++ pathOf k ++ ")"))

/-- `FileFunction.compute` (lines 175-189): for a non-directory path first
depend on the parent directory, then on the file state. -/
def fileCompute (k : SkyKey) : FProg SkyKey String :=
  let p := pathOf k
  let rest : FProg SkyKey String :=
    .getValue (.fileState p) fun state =>
      .nodesMissing fun m =>
        if m then .ret none
        else .ret (some ("File[" ++ optStr state ++ "]"))
  if endsSlash p then rest
  else .getValue (.file (parentPath p)) fun _ => rest

/-- `ArtifactFunction.compute` (lines 192-200). -/
def artifactCompute (k : SkyKey) : FProg SkyKey String :=
  .getValue (.file ("/workspace/" ++ pathOf k)) fun fileVal =>
    .nodesMissing fun m =>
      if m then .ret none
      else .ret (some ("Artifact(" ++ optStr fileVal ++ ")"))

/-- `ArtifactNestedSetFunction.compute` (lines 203-213). -/
def nestedSetCompute (_k : SkyKey) : FProg SkyKey String :=
  .getValue (.artifact "hello.py") fun a1 =>
    .getValue (.artifact "lib.py") fun a2 =>
      .nodesMissing fun m =>
        if m then .ret none
        else .ret (some ("NestedSet\x7b" ++ optStr a1 ++ ", " ++ optStr a2 ++ "\x7d"))

/-- The registration table of the demo (lines 222-227). -/
def demoFns : String → Option (SkyKey → FProg SkyKey String) := fun kind =>
  if kind = "FileStateKey" then some fileStateCompute
  else if kind = "FileKey" then some fileCompute
  else if kind = "ArtifactKey" then some artifactCompute
  else if kind = "ArtifactNestedSetKey" then some nestedSetCompute
  else none

end Skyframe

namespace Skyframe

variable {Key Value : Type} [DecidableEq Key]

/-! Auxiliary definitions used to state the verified properties. -/

/-- A key has a node in the graph (`key in graph.nodes`). -/
def keyKnown (s : SkyState Key Value) (k : Key) : Bool :=
  (dictGet s.nodes k).isSome

/-- Structural well-formedness that the Python object maintains by
construction: every key mentioned in the queue, the in-flight set, the
`reverse_deps` table (table keys and parents in the sets), or the
`waiting_on` table has a node in `nodes`.  All three dicts are populated
together by `get_or_create`, so the real object never leaves this set. -/
def wf (s : SkyState Key Value) : Bool :=
  s.queue.all (keyKnown s) &&
  s.inFlight.all (keyKnown s) &&
  s.reverseDeps.all (fun p => keyKnown s p.1 && p.2.all (keyKnown s)) &&
  s.waitingOn.all (fun p => keyKnown s p.1)

/-- The keys whose recorded reverse-dependency sets contain `p`: these are
exactly the direct-dependency edges the engine has persistently recorded
for parent `p` (the engine stores the direct-dependency relation only in
this reversed form). -/
def recordedDeps (s : SkyState Key Value) (p : Key) : List Key :=
  (s.nodes.map Prod.fst).filter (fun d => decide (p ∈ reverseDepsOf s d))

/-- Number of recorded direct dependencies of `p` that are not yet DONE. -/
def unfinishedDeps (s : SkyState Key Value) (p : Key) : Nat :=
  ((recordedDeps s p).filter (fun d => !isDone s d)).length

/-- Count of successful completions of `k` in a trace. -/
def completedCount (evs : List (Event Key Value)) (k : Key) : Nat :=
  evs.countP (fun e => match e with | .completed k' _ => decide (k' = k) | _ => false)

/-- Count of invocations of `k`'s function in a trace. -/
def invokedCount (evs : List (Event Key Value)) (k : Key) : Nat :=
  evs.countP (fun e => match e with | .invoked k' => decide (k' = k) | _ => false)

/-- Prepend the events of one loop iteration to the rest of a run. -/
def withEvents (evs : List (Event Key Value)) : RunOut Key Value → RunOut Key Value
  | .halt s r evs2 => .halt s r (evs ++ evs2)
  | .fault k s evs2 => .fault k s (evs ++ evs2)
  | .spent s evs2 => .spent s (evs ++ evs2)

/-- The keys that currently have a node (`graph.nodes.keys()`). -/
def nodeKeys (s : SkyState Key Value) : List Key := s.nodes.map Prod.fst

/-- Per-node readiness bookkeeping: a DONE node waits on nothing and has no
unfinished recorded dependency; a pending node is in flight, its
`waiting_on` counter equals its live number of unfinished recorded
dependencies, and while it sits in the queue that number is zero. -/
def invKey (s : SkyState Key Value) (pv : Key × Option Value) : Bool :=
  match pv.2 with
  | some _ => decide (waitingOf s pv.1 = 0) && decide (unfinishedDeps s pv.1 = 0)
  | none =>
      decide (pv.1 ∈ s.inFlight) &&
      decide (waitingOf s pv.1 = (unfinishedDeps s pv.1 : Int)) &&
      (!decide (pv.1 ∈ s.queue) || decide (unfinishedDeps s pv.1 = 0))

/-- The readiness invariant maintained between loop iterations: structural
well-formedness, duplicate-freeness of the bookkeeping collections, and the
per-node counter correspondence of `invKey`. -/
def inv (s : SkyState Key Value) : Bool :=
  wf s && decide (nodeKeys s).Nodup && decide s.queue.Nodup &&
  s.reverseDeps.all (fun pr => decide pr.2.Nodup) &&
  s.nodes.all (invKey s)

/-- Contract compliance of a registration table: a `compute` that reports a
finished value has seen no missing dependency on its final pass. -/
def Compliant (fns : String → Option (Key → FProg Key Value)) : Prop :=
  ∀ kind f, fns kind = some f →
    ∀ (k : Key) (s : SkyState Key Value) (v : Value)
      (s' : SkyState Key Value) (e' : EnvData Key),
      runCompute k (f k) s { missing := false, newDeps := [] } = (some v, s', e') →
      e'.missing = false

/-- The state `evaluate` seeds the loop with (lines 67-69): the root node
created, marked in flight, and enqueued. -/
def seedState (root : Key) : SkyState Key Value :=
  let s0 := getOrCreate (initState Key Value) root
  { s0 with inFlight := s0.inFlight ++ [root], queue := s0.queue ++ [root] }

/-- The invariant carried through a single `compute` invocation for the
running key `cur`: the graph bookkeeping of `inv` for every other node,
the status of `cur` itself, and the correspondence between the
`Environment`'s `_new_deps` list and `cur`'s live unfinished recorded
dependencies. -/
def MidInv (cur : Key) (s : SkyState Key Value) (e : EnvData Key) : Prop :=
  wf s = true ∧ (nodeKeys s).Nodup ∧ s.queue.Nodup ∧
  (∀ pr ∈ s.reverseDeps, pr.2.Nodup) ∧
  dictGet s.nodes cur = some none ∧ cur ∈ s.inFlight ∧ cur ∉ s.queue ∧
  (∀ p v, p ≠ cur → dictGet s.nodes p = some v → invKey s (p, v) = true) ∧
  e.newDeps.Nodup ∧
  (∀ d, d ∈ e.newDeps ↔
    (d ∈ nodeKeys s ∧ cur ∈ reverseDepsOf s d ∧ isDone s d = false))

/-- How one `Environment.get_value` call (and hence a whole `compute`
invocation) may move the shared state: node entries are preserved, waiting
counters are untouched, done-ness of every key is unchanged, and the
unfinished-dependency count of every key other than the running one is
unchanged. -/
def StepRel (cur : Key) (s s' : SkyState Key Value) : Prop :=
  (∀ p v, dictGet s.nodes p = some v → dictGet s'.nodes p = some v) ∧
  (∀ p, waitingOf s' p = waitingOf s p) ∧
  (∀ d, isDone s' d = isDone s d) ∧
  (∀ p, p ≠ cur → unfinishedDeps s' p = unfinishedDeps s p)

end Skyframe

namespace Skyframe

variable {Key Value α : Type} [DecidableEq Key]

/-! Basic lemmas about the association-list dictionary operations. -/

theorem dictGet_dictSet (l : List (Key × α)) (k k' : Key) (v : α) :
    dictGet (dictSet l k v) k' = if k' = k then some v else dictGet l k' := by
  induction l with
  | nil => simp [dictGet, dictSet]
  | cons p rest ih =>
      obtain ⟨k1, v1⟩ := p
      by_cases h : k = k1
      · subst h
        by_cases h' : k' = k <;> simp [dictSet, dictGet, h']
      · by_cases h' : k' = k1
        · subst h'
          simp [dictSet, h, dictGet, Ne.symm h]
        · simp [dictSet, h, dictGet, h', ih]

theorem dictGet_append_left {l m : List (Key × α)} {k : Key} {v : α}
    (h : dictGet l k = some v) : dictGet (l ++ m) k = some v := by
  induction l with
  | nil => simp [dictGet] at h
  | cons p rest ih =>
      obtain ⟨k1, v1⟩ := p
      by_cases h' : k = k1 <;> simp_all [dictGet]

theorem dictGet_append_right {l m : List (Key × α)} {k : Key}
    (h : dictGet l k = none) : dictGet (l ++ m) k = dictGet m k := by
  induction l with
  | nil => simp [dictGet]
  | cons p rest ih =>
      obtain ⟨k1, v1⟩ := p
      by_cases h' : k = k1 <;> simp_all [dictGet]

theorem dictGet_single (k k' : Key) (v : α) :
    dictGet [(k, v)] k' = if k' = k then some v else none := by
  simp [dictGet]

end Skyframe

namespace Skyframe

variable {Key Value α : Type} [DecidableEq Key]

theorem dictGet_some_mem {l : List (Key × α)} {k : Key} {v : α}
    (h : dictGet l k = some v) : (k, v) ∈ l := by
  induction l with
  | nil => simp [dictGet] at h
  | cons p rest ih =>
      obtain ⟨k1, v1⟩ := p
      by_cases h' : k = k1
      · subst h'
        simp [dictGet] at h
        simp [h]
      · simp [dictGet, h'] at h
        exact List.mem_cons_of_mem _ (ih h)

theorem dictSet_all {l : List (Key × α)} {P : Key × α → Bool} {k : Key} {v : α}
    (h : l.all P = true) (hp : P (k, v) = true) : (dictSet l k v).all P = true := by
  induction l with
  | nil => simp [dictSet, hp]
  | cons p rest ih =>
      obtain ⟨k1, v1⟩ := p
      simp at h
      by_cases h' : k = k1 <;> simp_all [dictSet]

theorem isDone_known {s : SkyState Key Value} {k : Key}
    (h : isDone s k = true) : keyKnown s k = true := by
  unfold isDone at h
  unfold keyKnown
  cases hg : dictGet s.nodes k with
  | none => rw [hg] at h; simp at h
  | some o => simp

/-! Consequences of well-formedness. -/

theorem wf_rev_none {s : SkyState Key Value} {k : Key}
    (hwf : wf s = true) (h : keyKnown s k = false) : dictGet s.reverseDeps k = none := by
  cases hg : dictGet s.reverseDeps k with
  | none => rfl
  | some l =>
      have hmem := dictGet_some_mem hg
      simp [wf, List.all_eq_true] at hwf
      have := (hwf.1.2 k l hmem).1
      rw [h] at this
      simp at this

theorem wf_waiting_none {s : SkyState Key Value} {k : Key}
    (hwf : wf s = true) (h : keyKnown s k = false) : dictGet s.waitingOn k = none := by
  cases hg : dictGet s.waitingOn k with
  | none => rfl
  | some l =>
      have hmem := dictGet_some_mem hg
      simp [wf, List.all_eq_true] at hwf
      have := hwf.2 k l hmem
      rw [h] at this
      simp at this

theorem wf_rev_parent {s : SkyState Key Value} {d p : Key}
    (hwf : wf s = true) (h : p ∈ reverseDepsOf s d) :
    keyKnown s p = true ∧ keyKnown s d = true := by
  unfold reverseDepsOf at h
  cases hg : dictGet s.reverseDeps d with
  | none => rw [hg] at h; simp at h
  | some l =>
      rw [hg] at h
      simp at h
      have hmem := dictGet_some_mem hg
      simp [wf, List.all_eq_true] at hwf
      obtain ⟨hd, hall⟩ := hwf.1.2 d l hmem
      exact ⟨hall p h, hd⟩

theorem wf_queue_mem {s : SkyState Key Value} {k : Key}
    (hwf : wf s = true) (h : k ∈ s.queue) : keyKnown s k = true := by
  simp [wf, List.all_eq_true] at hwf
  exact hwf.1.1.1 k h

/-! Effect of `getOrCreate`. -/

theorem getOrCreate_nodes_some {s : SkyState Key Value} {k' : Key} {x : Option Value}
    (k : Key) (h : dictGet s.nodes k' = some x) :
    dictGet (getOrCreate s k).nodes k' = some x := by
  unfold getOrCreate
  split
  · exact h
  · exact dictGet_append_left h

theorem keyKnown_getOrCreate (s : SkyState Key Value) (k k' : Key) :
    keyKnown (getOrCreate s k) k' = (keyKnown s k' || decide (k' = k)) := by
  unfold getOrCreate keyKnown
  split
  · rename_i hk
    by_cases h' : k' = k
    · subst h'
      simp_all
    · simp [h']
  · cases hg : dictGet s.nodes k' with
    | some x => rw [dictGet_append_left hg]; simp
    | none => rw [dictGet_append_right hg, dictGet_single]; by_cases h' : k' = k <;> simp [h']

theorem isDone_getOrCreate (s : SkyState Key Value) (k k' : Key) :
    isDone (getOrCreate s k) k' = isDone s k' := by
  unfold getOrCreate
  split
  · rfl
  · unfold isDone
    cases hg : dictGet s.nodes k' with
    | some x => rw [dictGet_append_left hg]
    | none =>
        rw [dictGet_append_right hg, dictGet_single]
        by_cases h' : k' = k <;> simp [h']

theorem getOrCreate_queue (s : SkyState Key Value) (k : Key) :
    (getOrCreate s k).queue = s.queue := by
  unfold getOrCreate; split <;> rfl

theorem getOrCreate_inFlight (s : SkyState Key Value) (k : Key) :
    (getOrCreate s k).inFlight = s.inFlight := by
  unfold getOrCreate; split <;> rfl

theorem reverseDepsOf_getOrCreate {s : SkyState Key Value} (hwf : wf s = true)
    (k k' : Key) : reverseDepsOf (getOrCreate s k) k' = reverseDepsOf s k' := by
  unfold getOrCreate
  split
  · rfl
  · rename_i hk
    unfold reverseDepsOf
    simp only [dictGet_dictSet]
    by_cases h' : k' = k
    · subst h'
      rw [wf_rev_none hwf (by simpa [keyKnown] using hk)]
      simp
    · simp [h']

theorem waitingOf_getOrCreate {s : SkyState Key Value} (hwf : wf s = true)
    (k k' : Key) : waitingOf (getOrCreate s k) k' = waitingOf s k' := by
  unfold getOrCreate
  split
  · rfl
  · rename_i hk
    unfold waitingOf
    simp only [dictGet_dictSet]
    by_cases h' : k' = k
    · subst h'
      rw [wf_waiting_none hwf (by simpa [keyKnown] using hk)]
      simp
    · simp [h']

theorem wf_getOrCreate {s : SkyState Key Value} (hwf : wf s = true) (k : Key) :
    wf (getOrCreate s k) = true := by
  by_cases hk : keyKnown s k = true
  · unfold getOrCreate
    rw [if_pos (by simpa [keyKnown] using hk)]
    exact hwf
  · have hk' : ¬ (dictGet s.nodes k).isSome = true := by simpa [keyKnown] using hk
    unfold getOrCreate
    rw [if_neg hk']
    simp [wf, List.all_eq_true] at hwf ⊢
    obtain ⟨⟨⟨hq, hf⟩, hr⟩, hw⟩ := hwf
    have hknew : ∀ k', keyKnown s k' = true →
        (dictGet (s.nodes ++ [(k, (none : Option Value))]) k').isSome = true := by
      intro k' h
      unfold keyKnown at h
      cases hg : dictGet s.nodes k' with
      | some x => rw [dictGet_append_left hg]; simp
      | none => rw [hg] at h; simp at h
    have hkk : (dictGet (s.nodes ++ [(k, (none : Option Value))]) k).isSome = true := by
      rw [dictGet_append_right (by simpa using hk'), dictGet_single]
      simp
    refine ⟨⟨⟨fun k' h => hknew k' (hq k' h), fun k' h => hknew k' (hf k' h)⟩, ?_⟩, ?_⟩
    · intro k' l hmem
      have : (dictSet s.reverseDeps k ([] : List Key)).all
          (fun p => (dictGet (s.nodes ++ [(k, (none : Option Value))]) p.1).isSome &&
            p.2.all (fun q => (dictGet (s.nodes ++ [(k, (none : Option Value))]) q).isSome)) = true := by
        apply dictSet_all
        · simp only [List.all_eq_true]
          intro p hp
          obtain ⟨h1, h2⟩ := hr p.1 p.2 hp
          simp only [Bool.and_eq_true, List.all_eq_true]
          exact ⟨hknew p.1 h1, fun q hq' => hknew q (h2 q hq')⟩
        · simp [hkk]
      simp only [List.all_eq_true] at this
      have := this (k', l) hmem
      simp only [Bool.and_eq_true, List.all_eq_true] at this
      exact ⟨this.1, fun q hq' => this.2 q hq'⟩
    · intro k' l hmem
      have : (dictSet s.waitingOn k (0 : Int)).all
          (fun p => (dictGet (s.nodes ++ [(k, (none : Option Value))]) p.1).isSome) = true := by
        apply dictSet_all
        · simp only [List.all_eq_true]
          intro p hp
          exact hknew p.1 (hw p.1 p.2 hp)
        · simp [hkk]
      simp only [List.all_eq_true] at this
      exact this (k', l) hmem

end Skyframe

namespace Skyframe

variable {Key Value : Type} [DecidableEq Key]

theorem wf_addEdge {s : SkyState Key Value} {dep cur : Key}
    (hwf : wf s = true) (hdep : keyKnown s dep = true) (hcur : keyKnown s cur = true) :
    wf { s with reverseDeps := dictSet s.reverseDeps dep (reverseDepsOf s dep ++ [cur]) } = true := by
  simp only [wf, List.all_eq_true, Bool.and_eq_true, keyKnown] at hwf ⊢
  obtain ⟨⟨⟨hq, hf⟩, hr⟩, hw⟩ := hwf
  refine ⟨⟨⟨hq, hf⟩, ?_⟩, hw⟩
  intro p hp
  have : (dictSet s.reverseDeps dep (reverseDepsOf s dep ++ [cur])).all
      (fun p => (dictGet s.nodes p.1).isSome &&
        p.2.all (fun q => (dictGet s.nodes q).isSome)) = true := by
    apply dictSet_all
    · simp only [List.all_eq_true, Bool.and_eq_true]
      intro p hp
      exact hr p hp
    · simp only [Bool.and_eq_true, List.all_eq_true]
      refine ⟨hdep, ?_⟩
      intro q hq'
      simp at hq'
      rcases hq' with hq' | hq'
      · exact ((wf_rev_parent (by
          simp only [wf, List.all_eq_true, Bool.and_eq_true, keyKnown]
          exact ⟨⟨⟨hq, hf⟩, hr⟩, hw⟩) hq').1 : _)
      · subst hq'; exact hcur
  simp only [List.all_eq_true] at this
  simpa using this p hp

theorem wf_enqueue {s : SkyState Key Value} {dep : Key}
    (hwf : wf s = true) (hdep : keyKnown s dep = true) :
    wf { s with inFlight := s.inFlight ++ [dep], queue := s.queue ++ [dep] } = true := by
  simp only [wf, List.all_eq_true, Bool.and_eq_true, keyKnown] at hwf ⊢
  obtain ⟨⟨⟨hq, hf⟩, hr⟩, hw⟩ := hwf
  refine ⟨⟨⟨?_, ?_⟩, hr⟩, hw⟩
  · intro x hx
    simp at hx
    rcases hx with hx | hx
    · exact hq x hx
    · subst hx; exact hdep
  · intro x hx
    simp at hx
    rcases hx with hx | hx
    · exact hf x hx
    · subst hx; exact hdep

theorem reverseDepsOf_set (s : SkyState Key Value) (d : Key) (l : List Key) (k : Key) :
    reverseDepsOf { s with reverseDeps := dictSet s.reverseDeps d l } k =
      if k = d then l else reverseDepsOf s k := by
  show (dictGet (dictSet s.reverseDeps d l) k).getD [] = _
  rw [dictGet_dictSet]
  split <;> rfl

theorem getValue_spec (cur dep : Key) (s : SkyState Key Value) (e : EnvData Key)
    (hwf : wf s = true) (hcur : keyKnown s cur = true) :
    wf (getValue cur dep s e).2.1 = true ∧
    (∀ k x, dictGet s.nodes k = some x → dictGet (getValue cur dep s e).2.1.nodes k = some x) ∧
    (∀ k, isDone (getValue cur dep s e).2.1 k = isDone s k) ∧
    (∀ k, waitingOf (getValue cur dep s e).2.1 k = waitingOf s k) ∧
    (∃ t, (getValue cur dep s e).2.1.inFlight = s.inFlight ++ t ∧
          (getValue cur dep s e).2.1.queue = s.queue ++ t) ∧
    (∀ k, reverseDepsOf (getValue cur dep s e).2.1 k = reverseDepsOf s k ∨
          (cur ∉ reverseDepsOf s k ∧
           reverseDepsOf (getValue cur dep s e).2.1 k = reverseDepsOf s k ++ [cur])) ∧
    (∃ d, (getValue cur dep s e).2.2.newDeps = e.newDeps ++ d) ∧
    (e.missing = true → (getValue cur dep s e).2.2.missing = true) ∧
    keyKnown (getValue cur dep s e).2.1 cur = true := by
  have hwf1 : wf (getOrCreate s dep) = true := wf_getOrCreate hwf dep
  have hcur1 : keyKnown (getOrCreate s dep) cur = true := by
    simp [keyKnown_getOrCreate, hcur]
  have hdep1 : keyKnown (getOrCreate s dep) dep = true := by
    rw [keyKnown_getOrCreate]; simp
  by_cases hd : isDone (getOrCreate s dep) dep = true
  · simp only [getValue, hd, if_true]
    refine ⟨hwf1, fun k x h => getOrCreate_nodes_some dep h,
      fun k => isDone_getOrCreate s dep k,
      fun k => waitingOf_getOrCreate hwf dep k,
      ⟨[], by simp [getOrCreate_inFlight, getOrCreate_queue]⟩,
      fun k => Or.inl (reverseDepsOf_getOrCreate hwf dep k),
      ⟨[], by simp⟩, fun h => h, hcur1⟩
  · by_cases hm : cur ∈ reverseDepsOf (getOrCreate s dep) dep
    · simp only [getValue, hd, if_false, hm, if_true, Bool.false_eq_true]
      refine ⟨hwf1, fun k x h => getOrCreate_nodes_some dep h,
        fun k => isDone_getOrCreate s dep k,
        fun k => waitingOf_getOrCreate hwf dep k,
        ⟨[], by simp [getOrCreate_inFlight, getOrCreate_queue]⟩,
        fun k => Or.inl (reverseDepsOf_getOrCreate hwf dep k),
        ⟨[], by simp⟩, fun _ => trivial, hcur1⟩
    · have hwf2 : wf { getOrCreate s dep with
          reverseDeps := dictSet (getOrCreate s dep).reverseDeps dep
            (reverseDepsOf (getOrCreate s dep) dep ++ [cur]) } = true :=
        wf_addEdge hwf1 hdep1 hcur1
      have hrev2 : ∀ k, reverseDepsOf { getOrCreate s dep with
          reverseDeps := dictSet (getOrCreate s dep).reverseDeps dep
            (reverseDepsOf (getOrCreate s dep) dep ++ [cur]) } k =
          reverseDepsOf s k ∨
          (cur ∉ reverseDepsOf s k ∧
           reverseDepsOf { getOrCreate s dep with
            reverseDeps := dictSet (getOrCreate s dep).reverseDeps dep
              (reverseDepsOf (getOrCreate s dep) dep ++ [cur]) } k =
            reverseDepsOf s k ++ [cur]) := by
        intro k
        rw [reverseDepsOf_set]
        by_cases hk : k = dep
        · rw [if_pos hk, hk]
          right
          refine ⟨?_, ?_⟩
          · rw [← reverseDepsOf_getOrCreate hwf dep dep]; exact hm
          · rw [reverseDepsOf_getOrCreate hwf dep dep]
        · rw [if_neg hk]
          exact Or.inl (reverseDepsOf_getOrCreate hwf dep k)
      by_cases hq : dep ∈ ({ getOrCreate s dep with
          reverseDeps := dictSet (getOrCreate s dep).reverseDeps dep
            (reverseDepsOf (getOrCreate s dep) dep ++ [cur]) } : SkyState Key Value).inFlight
      · simp only [getValue, hd, if_false, hm, if_true, Bool.false_eq_true]
        rw [if_pos hq]
        refine ⟨hwf2, fun k x h => getOrCreate_nodes_some dep h,
          fun k => isDone_getOrCreate s dep k,
          fun k => waitingOf_getOrCreate hwf dep k,
          ⟨[], by simp [getOrCreate_inFlight, getOrCreate_queue]⟩,
          hrev2, ⟨[dep], rfl⟩, fun _ => rfl, hcur1⟩
      · simp only [getValue, hd, if_false, hm, if_true, Bool.false_eq_true]
        rw [if_neg hq]
        refine ⟨?_, fun k x h => getOrCreate_nodes_some dep h,
          fun k => isDone_getOrCreate s dep k,
          fun k => waitingOf_getOrCreate hwf dep k,
          ⟨[dep], by simp [getOrCreate_inFlight, getOrCreate_queue]⟩,
          hrev2, ⟨[dep], rfl⟩, fun _ => rfl, hcur1⟩
        exact wf_enqueue hwf2 hdep1

end Skyframe

namespace Skyframe

variable {Key Value : Type} [DecidableEq Key]

theorem runCompute_spec (cur : Key) (prog : FProg Key Value)
    (s : SkyState Key Value) (e : EnvData Key)
    (hwf : wf s = true) (hcur : keyKnown s cur = true) :
    wf (runCompute cur prog s e).2.1 = true ∧
    (∀ k x, dictGet s.nodes k = some x → dictGet (runCompute cur prog s e).2.1.nodes k = some x) ∧
    (∀ k, isDone (runCompute cur prog s e).2.1 k = isDone s k) ∧
    (∀ k, waitingOf (runCompute cur prog s e).2.1 k = waitingOf s k) ∧
    (∃ t, (runCompute cur prog s e).2.1.inFlight = s.inFlight ++ t ∧
          (runCompute cur prog s e).2.1.queue = s.queue ++ t) ∧
    (∀ k, reverseDepsOf (runCompute cur prog s e).2.1 k = reverseDepsOf s k ∨
          (cur ∉ reverseDepsOf s k ∧
           reverseDepsOf (runCompute cur prog s e).2.1 k = reverseDepsOf s k ++ [cur])) ∧
    (∃ d, (runCompute cur prog s e).2.2.newDeps = e.newDeps ++ d) ∧
    (e.missing = true → (runCompute cur prog s e).2.2.missing = true) ∧
    keyKnown (runCompute cur prog s e).2.1 cur = true := by
  induction prog generalizing s e with
  | ret r =>
      exact ⟨hwf, fun k x h => h, fun k => rfl, fun k => rfl, ⟨[], by simp [runCompute]⟩,
        fun k => Or.inl rfl, ⟨[], by simp [runCompute]⟩, fun h => h, hcur⟩
  | getValue dep k ih =>
      obtain ⟨h1, h2, h3, h4, ⟨t1, hf1, hq1⟩, h6, ⟨d1, hd1⟩, h8, h9⟩ :=
        getValue_spec cur dep s e hwf hcur
      obtain ⟨ih1, ih2, ih3, ih4, ⟨t2, hf2, hq2⟩, ih6, ⟨d2, hd2⟩, ih8, ih9⟩ :=
        ih ((getValue cur dep s e).1) ((getValue cur dep s e).2.1)
          ((getValue cur dep s e).2.2) h1 h9
      rw [show runCompute cur (FProg.getValue dep k) s e =
        runCompute cur (k (getValue cur dep s e).1) (getValue cur dep s e).2.1
          (getValue cur dep s e).2.2 from rfl]
      refine ⟨ih1, fun k' x h => ih2 k' x (h2 k' x h),
        fun k' => (ih3 k').trans (h3 k'),
        fun k' => (ih4 k').trans (h4 k'),
        ⟨t1 ++ t2, by rw [hf2, hf1, List.append_assoc], by rw [hq2, hq1, List.append_assoc]⟩,
        ?_, ⟨d1 ++ d2, by rw [hd2, hd1, List.append_assoc]⟩,
        fun h => ih8 (h8 h), ih9⟩
      intro k'
      rcases ih6 k' with hA | ⟨hn2, hA⟩ <;> rcases h6 k' with hB | ⟨hn1, hB⟩
      · exact Or.inl (hA.trans hB)
      · exact Or.inr ⟨hn1, hA.trans hB⟩
      · exact Or.inr ⟨hB ▸ hn2, by rw [hA, hB]⟩
      · exact absurd (hB ▸ List.mem_append_right _ (List.mem_singleton.mpr rfl)) hn2
  | nodesMissing k ih =>
      rw [show runCompute cur (FProg.nodesMissing k) s e =
        runCompute cur (k e.missing) s e from rfl]
      exact ih e.missing s e hwf hcur

end Skyframe

namespace Skyframe

variable {Key Value : Type} [DecidableEq Key]

theorem wf_setWaiting {s : SkyState Key Value} {p : Key} {w : Int}
    (hwf : wf s = true) (hp : keyKnown s p = true) :
    wf { s with waitingOn := dictSet s.waitingOn p w } = true := by
  simp only [wf, List.all_eq_true, Bool.and_eq_true, keyKnown] at hwf ⊢
  obtain ⟨⟨⟨hq, hf⟩, hr⟩, hww⟩ := hwf
  refine ⟨⟨⟨hq, hf⟩, hr⟩, ?_⟩
  intro x hx
  have : (dictSet s.waitingOn p w).all (fun q => (dictGet s.nodes q.1).isSome) = true := by
    apply dictSet_all
    · simp only [List.all_eq_true]
      intro q hq'
      exact hww q hq'
    · simpa [keyKnown] using hp
  simp only [List.all_eq_true] at this
  exact this x hx

theorem wf_queueAppend {s : SkyState Key Value} {p : Key}
    (hwf : wf s = true) (hp : keyKnown s p = true) :
    wf { s with queue := s.queue ++ [p] } = true := by
  simp only [wf, List.all_eq_true, Bool.and_eq_true, keyKnown] at hwf ⊢
  obtain ⟨⟨⟨hq, hf⟩, hr⟩, hww⟩ := hwf
  refine ⟨⟨⟨?_, hf⟩, hr⟩, hww⟩
  intro x hx
  simp at hx
  rcases hx with hx | hx
  · exact hq x hx
  · subst hx; simpa [keyKnown] using hp

theorem signalParents_spec (parents : List Key) (s : SkyState Key Value) :
    (signalParents parents s).1.nodes = s.nodes ∧
    (signalParents parents s).1.reverseDeps = s.reverseDeps ∧
    (signalParents parents s).1.inFlight = s.inFlight ∧
    (∃ t, (signalParents parents s).1.queue = s.queue ++ t ∧ ∀ p ∈ t, p ∈ parents) ∧
    ((∀ p ∈ parents, keyKnown s p = true) → wf s = true →
      wf (signalParents parents s).1 = true) ∧
    (∀ ev ∈ (signalParents parents s).2,
      (∃ p w, ev = Event.signal p w) ∨ (∃ p, ev = Event.reenqueue p)) := by
  induction parents generalizing s with
  | nil =>
      exact ⟨rfl, rfl, rfl, ⟨[], by simp [signalParents], by simp [signalParents]⟩,
        fun _ h => h, by simp [signalParents]⟩
  | cons p rest ih =>
      by_cases hw : (waitingOf s p - 1 : Int) = 0
      · have hdef : signalParents (p :: rest) s =
            ((signalParents rest { s with
                waitingOn := dictSet s.waitingOn p (waitingOf s p - 1),
                queue := s.queue ++ [p] }).1,
             [Event.signal p (waitingOf s p - 1), Event.reenqueue p] ++
              (signalParents rest { s with
                waitingOn := dictSet s.waitingOn p (waitingOf s p - 1),
                queue := s.queue ++ [p] }).2) := by
          simp only [signalParents, if_pos hw]
        set s2 : SkyState Key Value := { s with
          waitingOn := dictSet s.waitingOn p (waitingOf s p - 1),
          queue := s.queue ++ [p] } with hs2
        obtain ⟨ih1, ih2, ih3, ⟨t, ht, htm⟩, ih5, ih6⟩ := ih s2
        rw [hdef]
        refine ⟨ih1, ih2, ih3, ⟨p :: t, ?_, ?_⟩, ?_, ?_⟩
        · rw [ht]; simp [hs2]
        · intro q hq
          simp only [List.mem_cons] at hq ⊢
          rcases hq with hq | hq
          · exact Or.inl hq
          · exact Or.inr (htm q hq)
        · intro hall hwf
          apply ih5
          · intro q hq'
            have : keyKnown s2 q = keyKnown s q := rfl
            rw [this]
            exact hall q (List.mem_cons_of_mem _ hq')
          · exact wf_queueAppend
              (wf_setWaiting hwf (hall p (List.mem_cons_self p rest)))
              (hall p (List.mem_cons_self p rest))
        · intro ev hev
          simp at hev
          rcases hev with hev | hev | hev
          · exact Or.inl ⟨p, waitingOf s p - 1, hev⟩
          · exact Or.inr ⟨p, hev⟩
          · exact ih6 ev hev
      · have hdef : signalParents (p :: rest) s =
            ((signalParents rest { s with
                waitingOn := dictSet s.waitingOn p (waitingOf s p - 1) }).1,
             [Event.signal p (waitingOf s p - 1)] ++
              (signalParents rest { s with
                waitingOn := dictSet s.waitingOn p (waitingOf s p - 1) }).2) := by
          simp only [signalParents, if_neg hw]
        set s2 : SkyState Key Value := { s with
          waitingOn := dictSet s.waitingOn p (waitingOf s p - 1) } with hs2
        obtain ⟨ih1, ih2, ih3, ⟨t, ht, htm⟩, ih5, ih6⟩ := ih s2
        rw [hdef]
        refine ⟨ih1, ih2, ih3, ⟨t, ?_, ?_⟩, ?_, ?_⟩
        · rw [ht]
        · intro q hq
          simp [htm q hq]
        · intro hall hwf
          apply ih5
          · intro q hq'
            have : keyKnown s2 q = keyKnown s q := rfl
            rw [this]
            exact hall q (List.mem_cons_of_mem _ hq')
          · exact wf_setWaiting hwf (hall p (List.mem_cons_self p rest))
        · intro ev hev
          simp at hev
          rcases hev with hev | hev
          · exact Or.inl ⟨p, waitingOf s p - 1, hev⟩
          · exact ih6 ev hev

end Skyframe

namespace Skyframe

variable {Key Value : Type} [DecidableEq Key]

theorem isDone_of_get {s : SkyState Key Value} {d : Key} {v : Value}
    (h : dictGet s.nodes d = some (some v)) : isDone s d = true := by
  unfold isDone
  rw [h]

theorem get_of_isDone {s : SkyState Key Value} {d : Key}
    (h : isDone s d = true) : ∃ v, dictGet s.nodes d = some (some v) := by
  unfold isDone at h
  cases hg : dictGet s.nodes d with
  | none => rw [hg] at h; simp at h
  | some o =>
      cases o with
      | none => rw [hg] at h; simp at h
      | some v => exact ⟨v, rfl⟩

theorem keyKnown_of_dictSet_some {s : SkyState Key Value} {q k : Key} {v : Value}
    (h : keyKnown s q = true) :
    (dictGet (dictSet s.nodes k (some v)) q).isSome = true := by
  rw [dictGet_dictSet]
  by_cases hq : q = k
  · simp [hq]
  · simp only [hq, if_false]
    exact h

theorem wf_markDone {s : SkyState Key Value} {k : Key} {v : Value}
    (hwf : wf s = true) :
    wf { s with nodes := dictSet s.nodes k (some v),
                inFlight := s.inFlight.erase k } = true := by
  simp only [wf, List.all_eq_true, Bool.and_eq_true, keyKnown] at hwf ⊢
  obtain ⟨⟨⟨hq, hf⟩, hr⟩, hww⟩ := hwf
  refine ⟨⟨⟨?_, ?_⟩, ?_⟩, ?_⟩
  · intro x hx
    exact keyKnown_of_dictSet_some (hq x hx)
  · intro x hx
    exact keyKnown_of_dictSet_some (hf x (List.mem_of_mem_erase hx))
  · intro p hp
    obtain ⟨h1, h2⟩ := hr p hp
    exact ⟨keyKnown_of_dictSet_some h1, fun q hq' => keyKnown_of_dictSet_some (h2 q hq')⟩
  · intro p hp
    exact keyKnown_of_dictSet_some (hww p hp)

theorem processKey_spec {kindOf : Key → String}
    {fns : String → Option (Key → FProg Key Value)} {k : Key}
    {s s' : SkyState Key Value} {evs : List (Event Key Value)}
    (hwf : wf s = true) (hkk : keyKnown s k = true)
    (hok : processKey kindOf fns k s = .ok s' evs) :
    wf s' = true ∧
    (∀ d v, dictGet s.nodes d = some (some v) → dictGet s'.nodes d = some (some v)) ∧
    (∀ d, isDone s d = true → isDone s' d = true) ∧
    (∀ d, ∃ t, reverseDepsOf s' d = reverseDepsOf s d ++ t) ∧
    (∀ ev ∈ evs, ev = Event.cached k ∨ ev = Event.invoked k ∨
      (∃ v, ev = Event.completed k v) ∨ (∃ p w, ev = Event.signal p w) ∨
      (∃ p, ev = Event.reenqueue p) ∨ (∃ nd, ev = Event.postponed k nd)) ∧
    ((∃ v, Event.completed k v ∈ evs) → isDone s' k = true) ∧
    (isDone s k = true → s' = s ∧ evs = [Event.cached k]) ∧
    (∀ k', completedCount evs k' ≤ 1) ∧
    (∀ d, keyKnown s d = true → keyKnown s' d = true) := by
  by_cases hd : isDone s k = true
  · have hpk : processKey kindOf fns k s = .ok s [Event.cached k] := by
      unfold processKey
      rw [if_pos hd]
    rw [hpk] at hok
    injection hok with h1 h2
    subst h1
    subst h2
    refine ⟨hwf, fun d v h => h, fun d h => h, fun d => ⟨[], by simp⟩, ?_, ?_, ?_, ?_,
      fun d h => h⟩
    · intro ev hev
      simp at hev
      subst hev
      exact Or.inl rfl
    · intro ⟨v, hv⟩
      simp at hv
    · intro _
      exact ⟨rfl, rfl⟩
    · intro k'
      simp [completedCount]
  · cases hf : fns (kindOf k) with
    | none =>
        have hpk : processKey kindOf fns k s = .fault k [Event.invoked k] := by
          unfold processKey
          rw [if_neg hd]
          simp only [hf]
        rw [hpk] at hok
        simp at hok
    | some f =>
        rcases hrun : runCompute k (f k) s { missing := false, newDeps := [] } with ⟨r, s'', e''⟩
        obtain ⟨r1, r2, r3, r4, ⟨rt, rf, rq⟩, r6, ⟨rd, rnd⟩, r8, r9⟩ :=
          runCompute_spec k (f k) s { missing := false, newDeps := [] } hwf hkk
        rw [hrun] at r1 r2 r3 r4 r6 r9 rf rq
        cases r with
        | some v =>
            set s2 : SkyState Key Value := { s'' with
              nodes := dictSet s''.nodes k (some v),
              inFlight := s''.inFlight.erase k } with hs2
            have hpk : processKey kindOf fns k s =
                .ok (signalParents (reverseDepsOf s2 k) s2).1
                  ([Event.invoked k, Event.completed k v] ++
                    (signalParents (reverseDepsOf s2 k) s2).2) := by
              unfold processKey
              rw [if_neg hd]
              simp only [hf, hrun]
            rw [hpk] at hok
            obtain ⟨g1, g2, g3, ⟨gt, gq, gqm⟩, g5, g6⟩ :=
              signalParents_spec (reverseDepsOf s2 k) s2
            have hwf2 : wf s2 = true := wf_markDone r1
            have hwf3 : wf (signalParents (reverseDepsOf s2 k) s2).1 = true := by
              apply g5
              · intro p hp
                exact (wf_rev_parent hwf2 hp).1
              · exact hwf2
            injection hok with h1 h2
            subst h1
            subst h2
            have hnodes3 : (signalParents (reverseDepsOf s2 k) s2).1.nodes =
                dictSet s''.nodes k (some v) := g1
            have hrev3 : ∀ d, reverseDepsOf (signalParents (reverseDepsOf s2 k) s2).1 d =
                reverseDepsOf s'' d := by
              intro d
              show (dictGet (signalParents (reverseDepsOf s2 k) s2).1.reverseDeps d).getD [] = _
              rw [g2]
              rfl
            refine ⟨hwf3, ?_, ?_, ?_, ?_, ?_, ?_, ?_, ?_⟩
            · intro d w h
              have hne : d ≠ k := by
                intro he
                subst he
                exact hd (isDone_of_get h)
              rw [hnodes3, dictGet_dictSet]
              simp only [hne, if_false]
              exact r2 d (some w) h
            · intro d h
              obtain ⟨w, hw⟩ := get_of_isDone h
              have hne : d ≠ k := by
                intro he
                subst he
                exact hd (isDone_of_get hw)
              apply isDone_of_get
              rw [hnodes3, dictGet_dictSet]
              simp only [hne, if_false]
              exact r2 d (some w) hw
            · intro d
              rw [hrev3]
              rcases r6 d with h | ⟨_, h⟩
              · exact ⟨[], by simp [h]⟩
              · exact ⟨[k], h⟩
            · intro ev hev
              simp at hev
              rcases hev with hev | hev | hev
              · exact Or.inr (Or.inl hev)
              · exact Or.inr (Or.inr (Or.inl ⟨v, hev⟩))
              · rcases g6 ev hev with ⟨p, w, h⟩ | ⟨p, h⟩
                · exact Or.inr (Or.inr (Or.inr (Or.inl ⟨p, w, h⟩)))
                · exact Or.inr (Or.inr (Or.inr (Or.inr (Or.inl ⟨p, h⟩))))
            · intro _
              have hvk : dictGet (signalParents (reverseDepsOf s2 k) s2).1.nodes k =
                  some (some v) := by
                rw [hnodes3, dictGet_dictSet]
                simp
              exact isDone_of_get hvk
            · intro h
              exact absurd h hd
            · intro k'
              unfold completedCount
              rw [List.countP_append]
              have h2 : List.countP (fun ev => match ev with
                    | Event.completed k'' _ => decide (k'' = k')
                    | _ => false) (signalParents (reverseDepsOf s2 k) s2).2 = 0 := by
                apply List.countP_eq_zero.mpr
                intro ev hev
                rcases g6 ev hev with ⟨p, w, h⟩ | ⟨p, h⟩ <;> subst h <;> simp
              rw [h2]
              simp [List.countP_cons]
              split <;> simp
            · intro d h
              unfold keyKnown at h ⊢
              cases hx : dictGet s.nodes d with
              | none => rw [hx] at h; simp at h
              | some x =>
                  have hgx : dictGet s''.nodes d = some x := r2 d x hx
                  rw [hnodes3, dictGet_dictSet]
                  by_cases hdk : d = k
                  · simp [hdk]
                  · simp only [hdk, if_false]
                    rw [hgx]
                    rfl
        | none =>
            have hpk : processKey kindOf fns k s =
                .ok { s'' with waitingOn := dictSet s''.waitingOn k (Int.ofNat e''.newDeps.length) }
                  [Event.invoked k, Event.postponed k e''.newDeps] := by
              unfold processKey
              rw [if_neg hd]
              simp only [hf, hrun]
            rw [hpk] at hok
            injection hok with h1 h2
            subst h1
            subst h2
            have hk'' : keyKnown s'' k = true := by
              unfold keyKnown at hkk ⊢
              cases hx : dictGet s.nodes k with
              | none => rw [hx] at hkk; simp at hkk
              | some x => rw [r2 k x hx]; rfl
            refine ⟨wf_setWaiting r1 hk'', fun d w h => r2 d (some w) h, ?_, ?_, ?_, ?_, ?_, ?_, ?_⟩
            · intro d h
              obtain ⟨w, hw⟩ := get_of_isDone h
              exact isDone_of_get (r2 d (some w) hw)
            · intro d
              rcases r6 d with h | ⟨_, h⟩
              · exact ⟨[], by simpa using h⟩
              · exact ⟨[k], h⟩
            · intro ev hev
              simp at hev
              rcases hev with hev | hev
              · exact Or.inr (Or.inl hev)
              · exact Or.inr (Or.inr (Or.inr (Or.inr (Or.inr ⟨e''.newDeps, hev⟩))))
            · intro ⟨w, hw⟩
              simp at hw
            · intro h
              exact absurd h hd
            · intro k'
              simp [completedCount, List.countP_cons]
            · intro d h
              unfold keyKnown at h ⊢
              cases hx : dictGet s.nodes d with
              | none => rw [hx] at h; simp at h
              | some x => rw [r2 d x hx]; rfl

end Skyframe

namespace Skyframe

variable {Key Value : Type} [DecidableEq Key]

/-! Unfolding lemmas for the scheduling loop. -/

theorem run_nil {kindOf : Key → String} {fns : String → Option (Key → FProg Key Value)}
    {fuel : Nat} {s : SkyState Key Value} {last : Key} (h : s.queue = []) :
    run kindOf fns fuel s last = .halt s (valueOf s last) [] := by
  unfold run
  rw [h]

theorem run_zero {kindOf : Key → String} {fns : String → Option (Key → FProg Key Value)}
    {s : SkyState Key Value} {last k : Key} {rest : List Key} (h : s.queue = k :: rest) :
    run kindOf fns 0 s last = .spent s [] := by
  unfold run
  rw [h]

theorem run_cons {kindOf : Key → String} {fns : String → Option (Key → FProg Key Value)}
    {f : Nat} {n : List (Key × Option Value)} {rv : List (Key × List Key)}
    {wv : List (Key × Int)} {fl : List Key} {q : List Key} {last k : Key} :
    run kindOf fns (f + 1) ⟨n, rv, wv, fl, k :: q⟩ last =
      (match processKey kindOf fns k ⟨n, rv, wv, fl, q⟩ with
        | .ok s' evs => withEvents evs (run kindOf fns f s' k)
        | .fault k2 evs => .fault k2 ⟨n, rv, wv, fl, q⟩ evs) := by
  show (match processKey kindOf fns k ⟨n, rv, wv, fl, q⟩ with
      | StepOut.ok s' evs =>
          match run kindOf fns f s' k with
          | RunOut.halt s2 r2 evs2 => RunOut.halt s2 r2 (evs ++ evs2)
          | RunOut.fault k2 s2 evs2 => RunOut.fault k2 s2 (evs ++ evs2)
          | RunOut.spent s2 evs2 => RunOut.spent s2 (evs ++ evs2)
      | StepOut.fault k2 evs => RunOut.fault k2 ⟨n, rv, wv, fl, q⟩ evs) = _
  cases processKey kindOf fns k (⟨n, rv, wv, fl, q⟩ : SkyState Key Value) with
  | ok s' evs => cases run kindOf fns f s' k <;> rfl
  | fault k2 evs => rfl

theorem run_cons_ok {kindOf : Key → String} {fns : String → Option (Key → FProg Key Value)}
    {f : Nat} {s s' : SkyState Key Value} {last k : Key} {rest : List Key}
    {evs : List (Event Key Value)} (h : s.queue = k :: rest)
    (hpk : processKey kindOf fns k { s with queue := rest } = .ok s' evs) :
    run kindOf fns (f + 1) s last = withEvents evs (run kindOf fns f s' k) := by
  obtain ⟨n, rv, wv, fl, q⟩ := s
  simp only [] at h
  subst h
  rw [run_cons]
  simp only [] at hpk
  simp only [hpk]

theorem run_cons_fault {kindOf : Key → String} {fns : String → Option (Key → FProg Key Value)}
    {f : Nat} {s : SkyState Key Value} {last k k2 : Key} {rest : List Key}
    {evs : List (Event Key Value)} (h : s.queue = k :: rest)
    (hpk : processKey kindOf fns k { s with queue := rest } = .fault k2 evs) :
    run kindOf fns (f + 1) s last = .fault k2 { s with queue := rest } evs := by
  obtain ⟨n, rv, wv, fl, q⟩ := s
  simp only [] at h
  subst h
  rw [run_cons]
  simp only [] at hpk
  simp only [hpk]

theorem processKey_fault_shape {kindOf : Key → String}
    {fns : String → Option (Key → FProg Key Value)} {k k2 : Key}
    {s : SkyState Key Value} {evs : List (Event Key Value)}
    (h : processKey kindOf fns k s = .fault k2 evs) :
    k2 = k ∧ evs = [Event.invoked k] ∧ isDone s k = false ∧ fns (kindOf k) = none := by
  by_cases hd : isDone s k = true
  · have : processKey kindOf fns k s = .ok s [Event.cached k] := by
      unfold processKey
      rw [if_pos hd]
    rw [this] at h
    simp at h
  · cases hf : fns (kindOf k) with
    | none =>
        have : processKey kindOf fns k s = .fault k [Event.invoked k] := by
          unfold processKey
          rw [if_neg hd]
          simp only [hf]
        rw [this] at h
        injection h with h1 h2
        exact ⟨h1.symm, h2.symm, by simpa using hd, rfl⟩
    | some fc =>
        rcases hrun : runCompute k (fc k) s { missing := false, newDeps := [] } with ⟨r, s'', e''⟩
        cases r with
        | some v =>
            have : ∃ s3 evs3, processKey kindOf fns k s = .ok s3 evs3 := by
              unfold processKey
              rw [if_neg hd]
              simp only [hf, hrun]
              exact ⟨_, _, rfl⟩
            obtain ⟨s3, evs3, h3⟩ := this
            rw [h3] at h
            simp at h
        | none =>
            have : ∃ s3 evs3, processKey kindOf fns k s = .ok s3 evs3 := by
              unfold processKey
              rw [if_neg hd]
              simp only [hf, hrun]
              exact ⟨_, _, rfl⟩
            obtain ⟨s3, evs3, h3⟩ := this
            rw [h3] at h
            simp at h

theorem wf_pop {s : SkyState Key Value} {k : Key} {rest : List Key}
    (hwf : wf s = true) (h : s.queue = k :: rest) :
    wf { s with queue := rest } = true ∧ keyKnown s k = true := by
  constructor
  · simp only [wf, List.all_eq_true, Bool.and_eq_true, keyKnown] at hwf ⊢
    obtain ⟨⟨⟨hq, hf⟩, hr⟩, hww⟩ := hwf
    refine ⟨⟨⟨?_, hf⟩, hr⟩, hww⟩
    intro x hx
    exact hq x (by rw [h]; exact List.mem_cons_of_mem _ hx)
  · exact wf_queue_mem hwf (by rw [h]; exact List.mem_cons_self k rest)

end Skyframe

namespace Skyframe

variable {Key Value : Type} [DecidableEq Key]

theorem run_spec {kindOf : Key → String} {fns : String → Option (Key → FProg Key Value)} :
    ∀ (fuel : Nat) (s : SkyState Key Value) (last : Key), wf s = true →
    wf (stateOf (run kindOf fns fuel s last)) = true ∧
    (∀ d v, dictGet s.nodes d = some (some v) →
        dictGet (stateOf (run kindOf fns fuel s last)).nodes d = some (some v)) ∧
    (∀ d, ∃ t, reverseDepsOf (stateOf (run kindOf fns fuel s last)) d =
        reverseDepsOf s d ++ t) ∧
    (∀ d, isDone s d = true →
        completedCount (evsOf (run kindOf fns fuel s last)) d = 0 ∧
        invokedCount (evsOf (run kindOf fns fuel s last)) d = 0) ∧
    (∀ d, completedCount (evsOf (run kindOf fns fuel s last)) d ≤ 1) ∧
    (∀ d, keyKnown s d = true → keyKnown (stateOf (run kindOf fns fuel s last)) d = true) := by
  intro fuel
  induction fuel with
  | zero =>
      intro s last hwf
      cases hq : s.queue with
      | nil =>
          rw [run_nil hq]
          exact ⟨hwf, fun d v h => h, fun d => ⟨[], by simp [stateOf]⟩,
            fun d _ => ⟨rfl, rfl⟩, fun d => by simp [completedCount, evsOf], fun d h => h⟩
      | cons k rest =>
          rw [run_zero hq]
          exact ⟨hwf, fun d v h => h, fun d => ⟨[], by simp [stateOf]⟩,
            fun d _ => ⟨rfl, rfl⟩, fun d => by simp [completedCount, evsOf], fun d h => h⟩
  | succ f ih =>
      intro s last hwf
      cases hq : s.queue with
      | nil =>
          rw [run_nil hq]
          exact ⟨hwf, fun d v h => h, fun d => ⟨[], by simp [stateOf]⟩,
            fun d _ => ⟨rfl, rfl⟩, fun d => by simp [completedCount, evsOf], fun d h => h⟩
      | cons k rest =>
          obtain ⟨hwfp, hkk⟩ := wf_pop hwf hq
          have hkkp : keyKnown { s with queue := rest } k = true := hkk
          cases hpk : processKey kindOf fns k { s with queue := rest } with
          | fault k2 evs =>
              obtain ⟨hk2, hevs, hnd, _⟩ := processKey_fault_shape hpk
              rw [hk2, hevs] at hpk
              rw [run_cons_fault hq hpk]
              refine ⟨hwfp, fun d v h => h,
                fun d => ⟨[], by simp [stateOf, reverseDepsOf]⟩, ?_, ?_, fun d h => h⟩
              · intro d hd
                have hne : k ≠ d := by
                  intro he
                  subst he
                  have hsame : isDone { s with queue := rest } k = isDone s k := rfl
                  rw [hsame, hd] at hnd
                  simp at hnd
                constructor
                · simp [completedCount, evsOf, List.countP_cons]
                · simp [invokedCount, evsOf, List.countP_cons, hne]
              · intro d
                simp [completedCount, evsOf, List.countP_cons]
          | ok s' evs =>
              rw [run_cons_ok hq hpk]
              obtain ⟨p1, p2, p3, p4, p5, p6, p7, p8, p9⟩ := processKey_spec hwfp hkkp hpk
              obtain ⟨ih1, ih2, ih3, ih4, ih5, ih6⟩ := ih s' k p1
              have hst : stateOf (withEvents evs (run kindOf fns f s' k)) =
                  stateOf (run kindOf fns f s' k) := by
                cases run kindOf fns f s' k <;> rfl
              have hev : evsOf (withEvents evs (run kindOf fns f s' k)) =
                  evs ++ evsOf (run kindOf fns f s' k) := by
                cases run kindOf fns f s' k <;> rfl
              rw [hst, hev]
              have hsplitC : ∀ d, completedCount (evs ++ evsOf (run kindOf fns f s' k)) d =
                  completedCount evs d + completedCount (evsOf (run kindOf fns f s' k)) d := by
                intro d
                simp [completedCount, List.countP_append]
              have hsplitI : ∀ d, invokedCount (evs ++ evsOf (run kindOf fns f s' k)) d =
                  invokedCount evs d + invokedCount (evsOf (run kindOf fns f s' k)) d := by
                intro d
                simp [invokedCount, List.countP_append]
              refine ⟨ih1, ?_, ?_, ?_, ?_, ?_⟩
              · intro d v h
                exact ih2 d v (p2 d v h)
              · intro d
                obtain ⟨t1, ht1⟩ := p4 d
                obtain ⟨t2, ht2⟩ := ih3 d
                exact ⟨t1 ++ t2, by rw [ht2, ht1, List.append_assoc]; rfl⟩
              · intro d hd
                have hdp : isDone { s with queue := rest } d = true := hd
                by_cases hdk : d = k
                · subst hdk
                  obtain ⟨hs', hevs⟩ := p7 hdp
                  subst hs'
                  obtain ⟨c1, c2⟩ := ih4 d hdp
                  rw [hsplitC, hsplitI, c1, c2, hevs]
                  constructor
                  · simp [completedCount, List.countP_cons]
                  · simp [invokedCount, List.countP_cons]
                · have hz1 : completedCount evs d = 0 := by
                    apply List.countP_eq_zero.mpr
                    intro ev hevm
                    rcases p5 ev hevm with h | h | ⟨v, h⟩ | ⟨p, w, h⟩ | ⟨p, h⟩ | ⟨nd, h⟩ <;>
                      subst h <;> simp <;> exact fun h' => hdk h'.symm
                  have hz2 : invokedCount evs d = 0 := by
                    apply List.countP_eq_zero.mpr
                    intro ev hevm
                    rcases p5 ev hevm with h | h | ⟨v, h⟩ | ⟨p, w, h⟩ | ⟨p, h⟩ | ⟨nd, h⟩ <;>
                      subst h <;> simp <;> exact fun h' => hdk h'.symm
                  obtain ⟨c1, c2⟩ := ih4 d (p3 d hdp)
                  rw [hsplitC, hsplitI, c1, c2, hz1, hz2]
                  exact ⟨rfl, rfl⟩
              · intro d
                rw [hsplitC]
                by_cases hc : completedCount evs d = 0
                · rw [hc]
                  simpa using ih5 d
                · have hpos : 0 < completedCount evs d := Nat.pos_of_ne_zero hc
                  obtain ⟨ev, hevm, hevp⟩ := List.countP_pos.mp hpos
                  have hshape : (∃ v, ev = Event.completed k v) ∧ k = d := by
                    rcases p5 ev hevm with h | h | ⟨v, h⟩ | ⟨p, w, h⟩ | ⟨p, h⟩ | ⟨nd, h⟩ <;>
                      subst h <;> simp at hevp <;> exact ⟨⟨v, rfl⟩, hevp⟩
                  obtain ⟨⟨v, hv⟩, hkd⟩ := hshape
                  subst hkd
                  have hdone' : isDone s' k = true := p6 ⟨v, hv ▸ hevm⟩
                  have hrest := (ih4 k hdone').1
                  rw [hrest]
                  simpa using p8 k
              · intro d h
                exact ih6 d (p9 d h)

end Skyframe

namespace Skyframe

variable {Key Value : Type} [DecidableEq Key]

theorem run_mono {kindOf : Key → String} {fns : String → Option (Key → FProg Key Value)} :
    ∀ (f f' : Nat), f ≤ f' → ∀ (s : SkyState Key Value) (last : Key)
    (s2 : SkyState Key Value) (r : Option Value) (evs : List (Event Key Value)),
    run kindOf fns f s last = .halt s2 r evs →
    run kindOf fns f' s last = .halt s2 r evs := by
  intro f
  induction f with
  | zero =>
      intro f' hle s last s2 r evs hrun
      cases hq : s.queue with
      | nil =>
          rw [run_nil hq] at hrun
          rw [run_nil hq]
          exact hrun
      | cons k rest =>
          rw [run_zero hq] at hrun
          simp at hrun
  | succ g ihg =>
      intro f' hle s last s2 r evs hrun
      cases hq : s.queue with
      | nil =>
          rw [run_nil hq] at hrun
          rw [run_nil hq]
          exact hrun
      | cons k rest =>
          cases f' with
          | zero => omega
          | succ g' =>
              have hgg : g ≤ g' := by omega
              cases hpk : processKey kindOf fns k { s with queue := rest } with
              | ok s' evs1 =>
                  rw [run_cons_ok hq hpk] at hrun
                  rw [run_cons_ok hq hpk]
                  cases hres : run kindOf fns g s' k with
                  | halt s3 r3 evs3 =>
                      rw [hres] at hrun
                      simp only [withEvents] at hrun
                      rw [ihg g' hgg s' k s3 r3 evs3 hres]
                      simpa [withEvents] using hrun
                  | fault k3 s3 evs3 =>
                      rw [hres] at hrun
                      simp [withEvents] at hrun
                  | spent s3 evs3 =>
                      rw [hres] at hrun
                      simp [withEvents] at hrun
              | fault k2 evs1 =>
                  rw [run_cons_fault hq hpk] at hrun
                  simp at hrun

end Skyframe

namespace Skyframe

variable {Key Value : Type} [DecidableEq Key]

/-- Lines 40-41: a request for an already-DONE dependency returns the stored
value and leaves the graph, the queue and the environment untouched. -/
theorem getValue_done_eq (cur dep : Key) (s : SkyState Key Value) (e : EnvData Key)
    (hd : isDone s dep = true) :
    getValue cur dep s e = (valueOf s dep, s, e) := by
  have hoc : getOrCreate s dep = s := by
    unfold getOrCreate
    rw [if_pos (by simpa [keyKnown] using isDone_known hd)]
  unfold getValue
  simp only [hoc, hd, if_true]

/-- Lines 43-54 with the edge already recorded: a repeated request for a
still-pending dependency only re-flags `missing`; no edge is duplicated, no
`_new_deps` entry is appended, and nothing is enqueued. -/
theorem getValue_seen_eq (cur dep : Key) (s : SkyState Key Value) (e : EnvData Key)
    (hk : keyKnown s dep = true) (hd : isDone s dep = false)
    (hm : cur ∈ reverseDepsOf s dep) :
    getValue cur dep s e = (none, s, { e with missing := true }) := by
  have hoc : getOrCreate s dep = s := by
    unfold getOrCreate
    rw [if_pos (by simpa [keyKnown] using hk)]
  unfold getValue
  simp only [hoc, hd, hm, if_true, Bool.false_eq_true, if_false]

/-- Line 76-78: dequeuing an already-DONE key is a safe no-op — the state is
untouched and `compute` is not invoked (a cache-hit trace entry only). -/
theorem processKey_done {kindOf : Key → String}
    {fns : String → Option (Key → FProg Key Value)} {k : Key}
    {s : SkyState Key Value} (hd : isDone s k = true) :
    processKey kindOf fns k s = .ok s [Event.cached k] := by
  unfold processKey
  rw [if_pos hd]

end Skyframe

namespace Skyframe

variable {Key Value : Type} [DecidableEq Key]

theorem dictSet_dictSet (l : List (Key × α)) (k : Key) (v v' : α) :
    dictSet (dictSet l k v) k v' = dictSet l k v' := by
  induction l with
  | nil => simp [dictSet]
  | cons p rest ih =>
      obtain ⟨k1, v1⟩ := p
      by_cases h : k = k1 <;> simp [dictSet, h, ih]

/-- Branch equation: request for a fresh (never-created) dependency that is
not in flight — create it, record the edge, enqueue it. -/
theorem getValue_fresh_enqueue (cur dep : Key) (s : SkyState Key Value) (e : EnvData Key)
    (hk : keyKnown s dep = false) (hf : dep ∉ s.inFlight) :
    getValue cur dep s e =
      (none,
       { s with nodes := s.nodes ++ [(dep, none)],
                reverseDeps := dictSet s.reverseDeps dep [cur],
                waitingOn := dictSet s.waitingOn dep 0,
                inFlight := s.inFlight ++ [dep],
                queue := s.queue ++ [dep] },
       { missing := true, newDeps := e.newDeps ++ [dep] }) := by
  have hk' : ¬ (dictGet s.nodes dep).isSome = true := by simpa [keyKnown] using hk
  have hoc : getOrCreate s dep =
      { s with nodes := s.nodes ++ [(dep, none)],
               reverseDeps := dictSet s.reverseDeps dep [],
               waitingOn := dictSet s.waitingOn dep 0 } := by
    unfold getOrCreate
    rw [if_neg hk']
  have hd : isDone (getOrCreate s dep) dep = false := by
    rw [hoc]
    unfold isDone
    show (match dictGet (s.nodes ++ [(dep, none)]) dep with
      | some (some _) => true | _ => false) = false
    rw [dictGet_append_right (by simpa using hk'), dictGet_single]
    simp
  have hrv : reverseDepsOf (getOrCreate s dep) dep = [] := by
    rw [hoc]
    show (dictGet (dictSet s.reverseDeps dep []) dep).getD [] = []
    rw [dictGet_dictSet]
    simp
  rw [hoc] at hd hrv
  unfold getValue
  simp [hoc, hd, hrv, hf, dictSet_dictSet]

/-- Branch equation: request for a known, pending, not-yet-seen dependency
that is already in flight — record the edge, do not enqueue. -/
theorem getValue_pending_inflight (cur dep : Key) (s : SkyState Key Value) (e : EnvData Key)
    (hk : keyKnown s dep = true) (hd : isDone s dep = false)
    (hm : cur ∉ reverseDepsOf s dep) (hf : dep ∈ s.inFlight) :
    getValue cur dep s e =
      (none,
       { s with reverseDeps := dictSet s.reverseDeps dep (reverseDepsOf s dep ++ [cur]) },
       { missing := true, newDeps := e.newDeps ++ [dep] }) := by
  have hoc : getOrCreate s dep = s := by
    unfold getOrCreate
    rw [if_pos (by simpa [keyKnown] using hk)]
  unfold getValue
  simp only [hoc, hd, Bool.false_eq_true, if_false]
  rw [if_neg hm, if_pos hf]

/-- Branch equation: request for a known, pending, not-yet-seen dependency
that is not in flight — record the edge and enqueue. -/
theorem getValue_pending_enqueue (cur dep : Key) (s : SkyState Key Value) (e : EnvData Key)
    (hk : keyKnown s dep = true) (hd : isDone s dep = false)
    (hm : cur ∉ reverseDepsOf s dep) (hf : dep ∉ s.inFlight) :
    getValue cur dep s e =
      (none,
       { s with reverseDeps := dictSet s.reverseDeps dep (reverseDepsOf s dep ++ [cur]),
                inFlight := s.inFlight ++ [dep],
                queue := s.queue ++ [dep] },
       { missing := true, newDeps := e.newDeps ++ [dep] }) := by
  have hoc : getOrCreate s dep = s := by
    unfold getOrCreate
    rw [if_pos (by simpa [keyKnown] using hk)]
  unfold getValue
  simp only [hoc, hd, Bool.false_eq_true, if_false]
  rw [if_neg hm, if_neg hf]

theorem endsSlash_parentPath (p : String) : endsSlash (parentPath p) = true := by
  unfold parentPath endsSlash
  simp [List.getLast?_concat]

theorem ne_of_endsSlash {p q : String} (hp : endsSlash p = false) (hq : endsSlash q = true) :
    ¬ (p = q) := by
  intro h
  rw [h, hq] at hp
  simp at hp

end Skyframe

namespace Skyframe

variable {Key Value : Type} [DecidableEq Key]

theorem runCompute_getValue_eq (cur dep : Key) (k : Option Value → FProg Key Value)
    (s : SkyState Key Value) (e : EnvData Key) :
    runCompute cur (.getValue dep k) s e =
      runCompute cur (k (getValue cur dep s e).1)
        (getValue cur dep s e).2.1 (getValue cur dep s e).2.2 := rfl

theorem runCompute_nodesMissing_eq (cur : Key) (k : Bool → FProg Key Value)
    (s : SkyState Key Value) (e : EnvData Key) :
    runCompute cur (.nodesMissing k) s e = runCompute cur (k e.missing) s e := rfl

theorem runCompute_ret_eq (cur : Key) (r : Option Value)
    (s : SkyState Key Value) (e : EnvData Key) :
    runCompute cur (.ret r) s e = (r, s, e) := rfl

/-- Branch equation for a completed `compute` (lines 86-97). -/
theorem processKey_some_eq {kindOf : Key → String}
    {fns : String → Option (Key → FProg Key Value)} {k : Key}
    {s s' : SkyState Key Value} {e' : EnvData Key} {v : Value}
    {f : Key → FProg Key Value}
    (hd : isDone s k = false) (hf : fns (kindOf k) = some f)
    (hr : runCompute k (f k) s { missing := false, newDeps := [] } = (some v, s', e')) :
    processKey kindOf fns k s =
      .ok
        (signalParents
          (reverseDepsOf
            { s' with
              nodes := dictSet s'.nodes k (some v)
              inFlight := s'.inFlight.erase k }
            k)
          { s' with
            nodes := dictSet s'.nodes k (some v)
            inFlight := s'.inFlight.erase k }).1
        ([Event.invoked k, Event.completed k v] ++
          (signalParents
            (reverseDepsOf
              { s' with
                nodes := dictSet s'.nodes k (some v)
                inFlight := s'.inFlight.erase k }
              k)
            { s' with
              nodes := dictSet s'.nodes k (some v)
              inFlight := s'.inFlight.erase k }).2) := by
  unfold processKey
  rw [hd]
  simp only [Bool.false_eq_true, if_false, hf, hr]

/-- Branch equation for a `notFinished` `compute` (lines 98-100). -/
theorem processKey_none_eq {kindOf : Key → String}
    {fns : String → Option (Key → FProg Key Value)} {k : Key}
    {s s' : SkyState Key Value} {e' : EnvData Key}
    {f : Key → FProg Key Value}
    (hd : isDone s k = false) (hf : fns (kindOf k) = some f)
    (hr : runCompute k (f k) s { missing := false, newDeps := [] } = (none, s', e')) :
    processKey kindOf fns k s =
      .ok { s' with waitingOn := dictSet s'.waitingOn k (Int.ofNat e'.newDeps.length) }
        [Event.invoked k, Event.postponed k e'.newDeps] := by
  unfold processKey
  rw [hd]
  simp only [Bool.false_eq_true, if_false, hf, hr]

end Skyframe

namespace Skyframe

set_option maxHeartbeats 2000000 in
/-- Stepwise evaluation of a `FileKey` root whose path is not a directory:
the run terminates in six loop iterations with the queue drained, the root
DONE, and the root's value returned. -/
theorem evaluate_file_noslash (p : String) (he : endsSlash p = false) :
    isHalt (evaluate typeName demoFns 20 (SkyKey.file p)) = true ∧
    (stateOf (evaluate typeName demoFns 20 (SkyKey.file p))).queue = [] ∧
    isDone (stateOf (evaluate typeName demoFns 20 (SkyKey.file p))) (SkyKey.file p) = true ∧
    retOf (evaluate typeName demoFns 20 (SkyKey.file p)) =
      valueOf (stateOf (evaluate typeName demoFns 20 (SkyKey.file p))) (SkyKey.file p) ∧
    retOf (evaluate typeName demoFns 20 (SkyKey.file p)) =
      some ("File[" ++ ("content(" ++ p ++ ")") ++ "]") := by
  have h1 : ¬ (p = parentPath p) := ne_of_endsSlash he (endsSlash_parentPath p)
  have h2 : ¬ (parentPath p = p) := fun h => h1 h.symm
  have hfc : fileCompute (SkyKey.file p) =
      FProg.getValue (SkyKey.file (parentPath p)) (fun _ =>
        FProg.getValue (SkyKey.fileState p) (fun state =>
          FProg.nodesMissing (fun m =>
            if m then FProg.ret none
            else FProg.ret (some ("File[" ++ optStr state ++ "]"))))) := by
    simp [fileCompute, pathOf, he]
  have hfcD : fileCompute (SkyKey.file (parentPath p)) =
      FProg.getValue (SkyKey.fileState (parentPath p)) (fun state =>
        FProg.nodesMissing (fun m =>
          if m then FProg.ret none
          else FProg.ret (some ("File[" ++ optStr state ++ "]")))) := by
    simp [fileCompute, pathOf, endsSlash_parentPath]
  have hfF : demoFns (typeName (SkyKey.file p)) = some fileCompute := by
    simp [typeName, demoFns]
  have hfFS : demoFns (typeName (SkyKey.fileState p)) = some fileStateCompute := by
    simp [typeName, demoFns]
  have g1 : getValue (SkyKey.file p) (SkyKey.file (parentPath p)) (⟨[(.file p, none)],
        [(.file p, [])],
        [(.file p, 0)],
        [.file p],
        []⟩ : SkyState SkyKey String) ⟨false, []⟩ =
      (none, (⟨[(.file p, none), (.file (parentPath p), none)],
        [(.file p, []), (.file (parentPath p), [.file p])],
        [(.file p, 0), (.file (parentPath p), 0)],
        [.file p, .file (parentPath p)],
        [.file (parentPath p)]⟩ : SkyState SkyKey String), ⟨true, [.file (parentPath p)]⟩) := by
    rw [getValue_fresh_enqueue]
    · simp [dictSet, keyKnown, dictGet, h1, h2]
    · simp [keyKnown, dictGet, h1, h2]
    · simp [h1, h2]
  have g2 : getValue (SkyKey.file p) (SkyKey.fileState p) (⟨[(.file p, none), (.file (parentPath p), none)],
        [(.file p, []), (.file (parentPath p), [.file p])],
        [(.file p, 0), (.file (parentPath p), 0)],
        [.file p, .file (parentPath p)],
        [.file (parentPath p)]⟩ : SkyState SkyKey String) ⟨true, [.file (parentPath p)]⟩ =
      (none, (⟨[(.file p, none), (.file (parentPath p), none), (.fileState p, none)],
        [(.file p, []), (.file (parentPath p), [.file p]), (.fileState p, [.file p])],
        [(.file p, 0), (.file (parentPath p), 0), (.fileState p, 0)],
        [.file p, .file (parentPath p), .fileState p],
        [.file (parentPath p), .fileState p]⟩ : SkyState SkyKey String), ⟨true, [.file (parentPath p), .fileState p]⟩) := by
    rw [getValue_fresh_enqueue]
    · simp [dictSet, keyKnown, dictGet, h1, h2]
    · simp [keyKnown, dictGet, h1, h2]
    · simp [h1, h2]
  have g3 : getValue (SkyKey.file (parentPath p)) (SkyKey.fileState (parentPath p)) (⟨[(.file p, none), (.file (parentPath p), none), (.fileState p, none)],
        [(.file p, []), (.file (parentPath p), [.file p]), (.fileState p, [.file p])],
        [(.file p, 2), (.file (parentPath p), 0), (.fileState p, 0)],
        [.file p, .file (parentPath p), .fileState p],
        [.fileState p]⟩ : SkyState SkyKey String) ⟨false, []⟩ =
      (none, (⟨[(.file p, none), (.file (parentPath p), none), (.fileState p, none), (.fileState (parentPath p), none)],
        [(.file p, []), (.file (parentPath p), [.file p]), (.fileState p, [.file p]), (.fileState (parentPath p), [.file (parentPath p)])],
        [(.file p, 2), (.file (parentPath p), 0), (.fileState p, 0), (.fileState (parentPath p), 0)],
        [.file p, .file (parentPath p), .fileState p, .fileState (parentPath p)],
        [.fileState p, .fileState (parentPath p)]⟩ : SkyState SkyKey String), ⟨true, [.fileState (parentPath p)]⟩) := by
    rw [getValue_fresh_enqueue]
    · simp [dictSet, keyKnown, dictGet, h1, h2]
    · simp [keyKnown, dictGet, h1, h2]
    · simp [h1, h2]
  have g4 : getValue (SkyKey.file (parentPath p)) (SkyKey.fileState (parentPath p)) (⟨[(.file p, none), (.file (parentPath p), none), (.fileState p, some ("content(" ++ p ++ ")")), (.fileState (parentPath p), some ("content(" ++ parentPath p ++ ")"))],
        [(.file p, []), (.file (parentPath p), [.file p]), (.fileState p, [.file p]), (.fileState (parentPath p), [.file (parentPath p)])],
        [(.file p, 1), (.file (parentPath p), 0), (.fileState p, 0), (.fileState (parentPath p), 0)],
        [.file p, .file (parentPath p)],
        []⟩ : SkyState SkyKey String) ⟨false, []⟩ =
      (some ("content(" ++ parentPath p ++ ")"), (⟨[(.file p, none), (.file (parentPath p), none), (.fileState p, some ("content(" ++ p ++ ")")), (.fileState (parentPath p), some ("content(" ++ parentPath p ++ ")"))],
        [(.file p, []), (.file (parentPath p), [.file p]), (.fileState p, [.file p]), (.fileState (parentPath p), [.file (parentPath p)])],
        [(.file p, 1), (.file (parentPath p), 0), (.fileState p, 0), (.fileState (parentPath p), 0)],
        [.file p, .file (parentPath p)],
        []⟩ : SkyState SkyKey String), ⟨false, []⟩) := by
    rw [getValue_done_eq]
    · simp [valueOf, dictGet, h1, h2]
    · simp [isDone, dictGet, h1, h2]
  have g5 : getValue (SkyKey.file p) (SkyKey.file (parentPath p)) (⟨[(.file p, none), (.file (parentPath p), some ("File[" ++ ("content(" ++ parentPath p ++ ")") ++ "]")), (.fileState p, some ("content(" ++ p ++ ")")), (.fileState (parentPath p), some ("content(" ++ parentPath p ++ ")"))],
        [(.file p, []), (.file (parentPath p), [.file p]), (.fileState p, [.file p]), (.fileState (parentPath p), [.file (parentPath p)])],
        [(.file p, 0), (.file (parentPath p), 0), (.fileState p, 0), (.fileState (parentPath p), 0)],
        [.file p],
        []⟩ : SkyState SkyKey String) ⟨false, []⟩ =
      (some ("File[" ++ ("content(" ++ parentPath p ++ ")") ++ "]"), (⟨[(.file p, none), (.file (parentPath p), some ("File[" ++ ("content(" ++ parentPath p ++ ")") ++ "]")), (.fileState p, some ("content(" ++ p ++ ")")), (.fileState (parentPath p), some ("content(" ++ parentPath p ++ ")"))],
        [(.file p, []), (.file (parentPath p), [.file p]), (.fileState p, [.file p]), (.fileState (parentPath p), [.file (parentPath p)])],
        [(.file p, 0), (.file (parentPath p), 0), (.fileState p, 0), (.fileState (parentPath p), 0)],
        [.file p],
        []⟩ : SkyState SkyKey String), ⟨false, []⟩) := by
    rw [getValue_done_eq]
    · simp [valueOf, dictGet, h1, h2]
    · simp [isDone, dictGet, h1, h2]
  have g6 : getValue (SkyKey.file p) (SkyKey.fileState p) (⟨[(.file p, none), (.file (parentPath p), some ("File[" ++ ("content(" ++ parentPath p ++ ")") ++ "]")), (.fileState p, some ("content(" ++ p ++ ")")), (.fileState (parentPath p), some ("content(" ++ parentPath p ++ ")"))],
        [(.file p, []), (.file (parentPath p), [.file p]), (.fileState p, [.file p]), (.fileState (parentPath p), [.file (parentPath p)])],
        [(.file p, 0), (.file (parentPath p), 0), (.fileState p, 0), (.fileState (parentPath p), 0)],
        [.file p],
        []⟩ : SkyState SkyKey String) ⟨false, []⟩ =
      (some ("content(" ++ p ++ ")"), (⟨[(.file p, none), (.file (parentPath p), some ("File[" ++ ("content(" ++ parentPath p ++ ")") ++ "]")), (.fileState p, some ("content(" ++ p ++ ")")), (.fileState (parentPath p), some ("content(" ++ parentPath p ++ ")"))],
        [(.file p, []), (.file (parentPath p), [.file p]), (.fileState p, [.file p]), (.fileState (parentPath p), [.file (parentPath p)])],
        [(.file p, 0), (.file (parentPath p), 0), (.fileState p, 0), (.fileState (parentPath p), 0)],
        [.file p],
        []⟩ : SkyState SkyKey String), ⟨false, []⟩) := by
    rw [getValue_done_eq]
    · simp [valueOf, dictGet, h1, h2]
    · simp [isDone, dictGet, h1, h2]
  have hrc1 : runCompute (SkyKey.file p) (fileCompute (SkyKey.file p)) (⟨[(.file p, none)],
        [(.file p, [])],
        [(.file p, 0)],
        [.file p],
        []⟩ : SkyState SkyKey String) ⟨false, []⟩ =
      (none, (⟨[(.file p, none), (.file (parentPath p), none), (.fileState p, none)],
        [(.file p, []), (.file (parentPath p), [.file p]), (.fileState p, [.file p])],
        [(.file p, 0), (.file (parentPath p), 0), (.fileState p, 0)],
        [.file p, .file (parentPath p), .fileState p],
        [.file (parentPath p), .fileState p]⟩ : SkyState SkyKey String), ⟨true, [.file (parentPath p), .fileState p]⟩) := by
    rw [hfc, runCompute_getValue_eq, g1]
    dsimp only
    rw [runCompute_getValue_eq, g2]
    dsimp only
    rw [runCompute_nodesMissing_eq]
    dsimp only
    rw [if_pos rfl, runCompute_ret_eq]
  have hd1 : isDone (⟨[(.file p, none)],
        [(.file p, [])],
        [(.file p, 0)],
        [.file p],
        []⟩ : SkyState SkyKey String) (SkyKey.file p) = false := by
    simp [isDone, dictGet]
  have st1 : processKey typeName demoFns (SkyKey.file p) (⟨[(.file p, none)],
        [(.file p, [])],
        [(.file p, 0)],
        [.file p],
        []⟩ : SkyState SkyKey String) =
      .ok (⟨[(.file p, none), (.file (parentPath p), none), (.fileState p, none)],
        [(.file p, []), (.file (parentPath p), [.file p]), (.fileState p, [.file p])],
        [(.file p, 2), (.file (parentPath p), 0), (.fileState p, 0)],
        [.file p, .file (parentPath p), .fileState p],
        [.file (parentPath p), .fileState p]⟩ : SkyState SkyKey String) [.invoked (.file p), .postponed (.file p) [.file (parentPath p), .fileState p]] := by
    rw [processKey_none_eq hd1 hfF hrc1]
    simp [dictSet, h1, h2]
  have hrc2 : runCompute (SkyKey.file (parentPath p)) (fileCompute (SkyKey.file (parentPath p))) (⟨[(.file p, none), (.file (parentPath p), none), (.fileState p, none)],
        [(.file p, []), (.file (parentPath p), [.file p]), (.fileState p, [.file p])],
        [(.file p, 2), (.file (parentPath p), 0), (.fileState p, 0)],
        [.file p, .file (parentPath p), .fileState p],
        [.fileState p]⟩ : SkyState SkyKey String) ⟨false, []⟩ =
      (none, (⟨[(.file p, none), (.file (parentPath p), none), (.fileState p, none), (.fileState (parentPath p), none)],
        [(.file p, []), (.file (parentPath p), [.file p]), (.fileState p, [.file p]), (.fileState (parentPath p), [.file (parentPath p)])],
        [(.file p, 2), (.file (parentPath p), 0), (.fileState p, 0), (.fileState (parentPath p), 0)],
        [.file p, .file (parentPath p), .fileState p, .fileState (parentPath p)],
        [.fileState p, .fileState (parentPath p)]⟩ : SkyState SkyKey String), ⟨true, [.fileState (parentPath p)]⟩) := by
    rw [hfcD, runCompute_getValue_eq, g3]
    dsimp only
    rw [runCompute_nodesMissing_eq]
    dsimp only
    rw [if_pos rfl, runCompute_ret_eq]
  have hd2 : isDone (⟨[(.file p, none), (.file (parentPath p), none), (.fileState p, none)],
        [(.file p, []), (.file (parentPath p), [.file p]), (.fileState p, [.file p])],
        [(.file p, 2), (.file (parentPath p), 0), (.fileState p, 0)],
        [.file p, .file (parentPath p), .fileState p],
        [.fileState p]⟩ : SkyState SkyKey String) (SkyKey.file (parentPath p)) = false := by
    simp [isDone, dictGet, h1, h2]
  have st2 : processKey typeName demoFns (SkyKey.file (parentPath p)) (⟨[(.file p, none), (.file (parentPath p), none), (.fileState p, none)],
        [(.file p, []), (.file (parentPath p), [.file p]), (.fileState p, [.file p])],
        [(.file p, 2), (.file (parentPath p), 0), (.fileState p, 0)],
        [.file p, .file (parentPath p), .fileState p],
        [.fileState p]⟩ : SkyState SkyKey String) =
      .ok (⟨[(.file p, none), (.file (parentPath p), none), (.fileState p, none), (.fileState (parentPath p), none)],
        [(.file p, []), (.file (parentPath p), [.file p]), (.fileState p, [.file p]), (.fileState (parentPath p), [.file (parentPath p)])],
        [(.file p, 2), (.file (parentPath p), 1), (.fileState p, 0), (.fileState (parentPath p), 0)],
        [.file p, .file (parentPath p), .fileState p, .fileState (parentPath p)],
        [.fileState p, .fileState (parentPath p)]⟩ : SkyState SkyKey String) [.invoked (.file (parentPath p)), .postponed (.file (parentPath p)) [.fileState (parentPath p)]] := by
    rw [processKey_none_eq hd2 hfF hrc2]
    simp [dictSet, h1, h2]
  have hrc3 : runCompute (SkyKey.fileState p) (fileStateCompute (SkyKey.fileState p)) (⟨[(.file p, none), (.file (parentPath p), none), (.fileState p, none), (.fileState (parentPath p), none)],
        [(.file p, []), (.file (parentPath p), [.file p]), (.fileState p, [.file p]), (.fileState (parentPath p), [.file (parentPath p)])],
        [(.file p, 2), (.file (parentPath p), 1), (.fileState p, 0), (.fileState (parentPath p), 0)],
        [.file p, .file (parentPath p), .fileState p, .fileState (parentPath p)],
        [.fileState (parentPath p)]⟩ : SkyState SkyKey String) ⟨false, []⟩ =
      (some ("content(" ++ p ++ ")"), (⟨[(.file p, none), (.file (parentPath p), none), (.fileState p, none), (.fileState (parentPath p), none)],
        [(.file p, []), (.file (parentPath p), [.file p]), (.fileState p, [.file p]), (.fileState (parentPath p), [.file (parentPath p)])],
        [(.file p, 2), (.file (parentPath p), 1), (.fileState p, 0), (.fileState (parentPath p), 0)],
        [.file p, .file (parentPath p), .fileState p, .fileState (parentPath p)],
        [.fileState (parentPath p)]⟩ : SkyState SkyKey String), ⟨false, []⟩) := rfl
  have hd3 : isDone (⟨[(.file p, none), (.file (parentPath p), none), (.fileState p, none), (.fileState (parentPath p), none)],
        [(.file p, []), (.file (parentPath p), [.file p]), (.fileState p, [.file p]), (.fileState (parentPath p), [.file (parentPath p)])],
        [(.file p, 2), (.file (parentPath p), 1), (.fileState p, 0), (.fileState (parentPath p), 0)],
        [.file p, .file (parentPath p), .fileState p, .fileState (parentPath p)],
        [.fileState (parentPath p)]⟩ : SkyState SkyKey String) (SkyKey.fileState p) = false := by
    simp [isDone, dictGet, h1, h2]
  have st3 : processKey typeName demoFns (SkyKey.fileState p) (⟨[(.file p, none), (.file (parentPath p), none), (.fileState p, none), (.fileState (parentPath p), none)],
        [(.file p, []), (.file (parentPath p), [.file p]), (.fileState p, [.file p]), (.fileState (parentPath p), [.file (parentPath p)])],
        [(.file p, 2), (.file (parentPath p), 1), (.fileState p, 0), (.fileState (parentPath p), 0)],
        [.file p, .file (parentPath p), .fileState p, .fileState (parentPath p)],
        [.fileState (parentPath p)]⟩ : SkyState SkyKey String) =
      .ok (⟨[(.file p, none), (.file (parentPath p), none), (.fileState p, some ("content(" ++ p ++ ")")), (.fileState (parentPath p), none)],
        [(.file p, []), (.file (parentPath p), [.file p]), (.fileState p, [.file p]), (.fileState (parentPath p), [.file (parentPath p)])],
        [(.file p, 1), (.file (parentPath p), 1), (.fileState p, 0), (.fileState (parentPath p), 0)],
        [.file p, .file (parentPath p), .fileState (parentPath p)],
        [.fileState (parentPath p)]⟩ : SkyState SkyKey String) [.invoked (.fileState p), .completed (.fileState p) ("content(" ++ p ++ ")"), .signal (.file p) 1] := by
    rw [processKey_some_eq hd3 hfFS hrc3]
    simp [dictSet, dictGet, signalParents, reverseDepsOf, waitingOf, h1, h2]
  have hrc4 : runCompute (SkyKey.fileState (parentPath p)) (fileStateCompute (SkyKey.fileState (parentPath p))) (⟨[(.file p, none), (.file (parentPath p), none), (.fileState p, some ("content(" ++ p ++ ")")), (.fileState (parentPath p), none)],
        [(.file p, []), (.file (parentPath p), [.file p]), (.fileState p, [.file p]), (.fileState (parentPath p), [.file (parentPath p)])],
        [(.file p, 1), (.file (parentPath p), 1), (.fileState p, 0), (.fileState (parentPath p), 0)],
        [.file p, .file (parentPath p), .fileState (parentPath p)],
        []⟩ : SkyState SkyKey String) ⟨false, []⟩ =
      (some ("content(" ++ parentPath p ++ ")"), (⟨[(.file p, none), (.file (parentPath p), none), (.fileState p, some ("content(" ++ p ++ ")")), (.fileState (parentPath p), none)],
        [(.file p, []), (.file (parentPath p), [.file p]), (.fileState p, [.file p]), (.fileState (parentPath p), [.file (parentPath p)])],
        [(.file p, 1), (.file (parentPath p), 1), (.fileState p, 0), (.fileState (parentPath p), 0)],
        [.file p, .file (parentPath p), .fileState (parentPath p)],
        []⟩ : SkyState SkyKey String), ⟨false, []⟩) := rfl
  have hd4 : isDone (⟨[(.file p, none), (.file (parentPath p), none), (.fileState p, some ("content(" ++ p ++ ")")), (.fileState (parentPath p), none)],
        [(.file p, []), (.file (parentPath p), [.file p]), (.fileState p, [.file p]), (.fileState (parentPath p), [.file (parentPath p)])],
        [(.file p, 1), (.file (parentPath p), 1), (.fileState p, 0), (.fileState (parentPath p), 0)],
        [.file p, .file (parentPath p), .fileState (parentPath p)],
        []⟩ : SkyState SkyKey String) (SkyKey.fileState (parentPath p)) = false := by
    simp [isDone, dictGet, h1, h2]
  have st4 : processKey typeName demoFns (SkyKey.fileState (parentPath p)) (⟨[(.file p, none), (.file (parentPath p), none), (.fileState p, some ("content(" ++ p ++ ")")), (.fileState (parentPath p), none)],
        [(.file p, []), (.file (parentPath p), [.file p]), (.fileState p, [.file p]), (.fileState (parentPath p), [.file (parentPath p)])],
        [(.file p, 1), (.file (parentPath p), 1), (.fileState p, 0), (.fileState (parentPath p), 0)],
        [.file p, .file (parentPath p), .fileState (parentPath p)],
        []⟩ : SkyState SkyKey String) =
      .ok (⟨[(.file p, none), (.file (parentPath p), none), (.fileState p, some ("content(" ++ p ++ ")")), (.fileState (parentPath p), some ("content(" ++ parentPath p ++ ")"))],
        [(.file p, []), (.file (parentPath p), [.file p]), (.fileState p, [.file p]), (.fileState (parentPath p), [.file (parentPath p)])],
        [(.file p, 1), (.file (parentPath p), 0), (.fileState p, 0), (.fileState (parentPath p), 0)],
        [.file p, .file (parentPath p)],
        [.file (parentPath p)]⟩ : SkyState SkyKey String) [.invoked (.fileState (parentPath p)), .completed (.fileState (parentPath p)) ("content(" ++ parentPath p ++ ")"), .signal (.file (parentPath p)) 0, .reenqueue (.file (parentPath p))] := by
    rw [processKey_some_eq hd4 hfFS hrc4]
    simp [dictSet, dictGet, signalParents, reverseDepsOf, waitingOf, h1, h2]
  have hrc5 : runCompute (SkyKey.file (parentPath p)) (fileCompute (SkyKey.file (parentPath p))) (⟨[(.file p, none), (.file (parentPath p), none), (.fileState p, some ("content(" ++ p ++ ")")), (.fileState (parentPath p), some ("content(" ++ parentPath p ++ ")"))],
        [(.file p, []), (.file (parentPath p), [.file p]), (.fileState p, [.file p]), (.fileState (parentPath p), [.file (parentPath p)])],
        [(.file p, 1), (.file (parentPath p), 0), (.fileState p, 0), (.fileState (parentPath p), 0)],
        [.file p, .file (parentPath p)],
        []⟩ : SkyState SkyKey String) ⟨false, []⟩ =
      (some ("File[" ++ ("content(" ++ parentPath p ++ ")") ++ "]"), (⟨[(.file p, none), (.file (parentPath p), none), (.fileState p, some ("content(" ++ p ++ ")")), (.fileState (parentPath p), some ("content(" ++ parentPath p ++ ")"))],
        [(.file p, []), (.file (parentPath p), [.file p]), (.fileState p, [.file p]), (.fileState (parentPath p), [.file (parentPath p)])],
        [(.file p, 1), (.file (parentPath p), 0), (.fileState p, 0), (.fileState (parentPath p), 0)],
        [.file p, .file (parentPath p)],
        []⟩ : SkyState SkyKey String), ⟨false, []⟩) := by
    rw [hfcD, runCompute_getValue_eq, g4]
    dsimp only
    rw [runCompute_nodesMissing_eq]
    dsimp only
    rw [if_neg (by simp), runCompute_ret_eq]
    rfl
  have hd5 : isDone (⟨[(.file p, none), (.file (parentPath p), none), (.fileState p, some ("content(" ++ p ++ ")")), (.fileState (parentPath p), some ("content(" ++ parentPath p ++ ")"))],
        [(.file p, []), (.file (parentPath p), [.file p]), (.fileState p, [.file p]), (.fileState (parentPath p), [.file (parentPath p)])],
        [(.file p, 1), (.file (parentPath p), 0), (.fileState p, 0), (.fileState (parentPath p), 0)],
        [.file p, .file (parentPath p)],
        []⟩ : SkyState SkyKey String) (SkyKey.file (parentPath p)) = false := by
    simp [isDone, dictGet, h1, h2]
  have st5 : processKey typeName demoFns (SkyKey.file (parentPath p)) (⟨[(.file p, none), (.file (parentPath p), none), (.fileState p, some ("content(" ++ p ++ ")")), (.fileState (parentPath p), some ("content(" ++ parentPath p ++ ")"))],
        [(.file p, []), (.file (parentPath p), [.file p]), (.fileState p, [.file p]), (.fileState (parentPath p), [.file (parentPath p)])],
        [(.file p, 1), (.file (parentPath p), 0), (.fileState p, 0), (.fileState (parentPath p), 0)],
        [.file p, .file (parentPath p)],
        []⟩ : SkyState SkyKey String) =
      .ok (⟨[(.file p, none), (.file (parentPath p), some ("File[" ++ ("content(" ++ parentPath p ++ ")") ++ "]")), (.fileState p, some ("content(" ++ p ++ ")")), (.fileState (parentPath p), some ("content(" ++ parentPath p ++ ")"))],
        [(.file p, []), (.file (parentPath p), [.file p]), (.fileState p, [.file p]), (.fileState (parentPath p), [.file (parentPath p)])],
        [(.file p, 0), (.file (parentPath p), 0), (.fileState p, 0), (.fileState (parentPath p), 0)],
        [.file p],
        [.file p]⟩ : SkyState SkyKey String) [.invoked (.file (parentPath p)), .completed (.file (parentPath p)) ("File[" ++ ("content(" ++ parentPath p ++ ")") ++ "]"), .signal (.file p) 0, .reenqueue (.file p)] := by
    rw [processKey_some_eq hd5 hfF hrc5]
    simp [dictSet, dictGet, signalParents, reverseDepsOf, waitingOf, h1, h2]
  have hrc6 : runCompute (SkyKey.file p) (fileCompute (SkyKey.file p)) (⟨[(.file p, none), (.file (parentPath p), some ("File[" ++ ("content(" ++ parentPath p ++ ")") ++ "]")), (.fileState p, some ("content(" ++ p ++ ")")), (.fileState (parentPath p), some ("content(" ++ parentPath p ++ ")"))],
        [(.file p, []), (.file (parentPath p), [.file p]), (.fileState p, [.file p]), (.fileState (parentPath p), [.file (parentPath p)])],
        [(.file p, 0), (.file (parentPath p), 0), (.fileState p, 0), (.fileState (parentPath p), 0)],
        [.file p],
        []⟩ : SkyState SkyKey String) ⟨false, []⟩ =
      (some ("File[" ++ ("content(" ++ p ++ ")") ++ "]"), (⟨[(.file p, none), (.file (parentPath p), some ("File[" ++ ("content(" ++ parentPath p ++ ")") ++ "]")), (.fileState p, some ("content(" ++ p ++ ")")), (.fileState (parentPath p), some ("content(" ++ parentPath p ++ ")"))],
        [(.file p, []), (.file (parentPath p), [.file p]), (.fileState p, [.file p]), (.fileState (parentPath p), [.file (parentPath p)])],
        [(.file p, 0), (.file (parentPath p), 0), (.fileState p, 0), (.fileState (parentPath p), 0)],
        [.file p],
        []⟩ : SkyState SkyKey String), ⟨false, []⟩) := by
    rw [hfc, runCompute_getValue_eq, g5]
    dsimp only
    rw [runCompute_getValue_eq, g6]
    dsimp only
    rw [runCompute_nodesMissing_eq]
    dsimp only
    rw [if_neg (by simp), runCompute_ret_eq]
    rfl
  have hd6 : isDone (⟨[(.file p, none), (.file (parentPath p), some ("File[" ++ ("content(" ++ parentPath p ++ ")") ++ "]")), (.fileState p, some ("content(" ++ p ++ ")")), (.fileState (parentPath p), some ("content(" ++ parentPath p ++ ")"))],
        [(.file p, []), (.file (parentPath p), [.file p]), (.fileState p, [.file p]), (.fileState (parentPath p), [.file (parentPath p)])],
        [(.file p, 0), (.file (parentPath p), 0), (.fileState p, 0), (.fileState (parentPath p), 0)],
        [.file p],
        []⟩ : SkyState SkyKey String) (SkyKey.file p) = false := by
    simp [isDone, dictGet, h1, h2]
  have st6 : processKey typeName demoFns (SkyKey.file p) (⟨[(.file p, none), (.file (parentPath p), some ("File[" ++ ("content(" ++ parentPath p ++ ")") ++ "]")), (.fileState p, some ("content(" ++ p ++ ")")), (.fileState (parentPath p), some ("content(" ++ parentPath p ++ ")"))],
        [(.file p, []), (.file (parentPath p), [.file p]), (.fileState p, [.file p]), (.fileState (parentPath p), [.file (parentPath p)])],
        [(.file p, 0), (.file (parentPath p), 0), (.fileState p, 0), (.fileState (parentPath p), 0)],
        [.file p],
        []⟩ : SkyState SkyKey String) =
      .ok (⟨[(.file p, some ("File[" ++ ("content(" ++ p ++ ")") ++ "]")), (.file (parentPath p), some ("File[" ++ ("content(" ++ parentPath p ++ ")") ++ "]")), (.fileState p, some ("content(" ++ p ++ ")")), (.fileState (parentPath p), some ("content(" ++ parentPath p ++ ")"))],
        [(.file p, []), (.file (parentPath p), [.file p]), (.fileState p, [.file p]), (.fileState (parentPath p), [.file (parentPath p)])],
        [(.file p, 0), (.file (parentPath p), 0), (.fileState p, 0), (.fileState (parentPath p), 0)],
        [],
        []⟩ : SkyState SkyKey String) [.invoked (.file p), .completed (.file p) ("File[" ++ ("content(" ++ p ++ ")") ++ "]")] := by
    rw [processKey_some_eq hd6 hfF hrc6]
    simp [dictSet, dictGet, signalParents, reverseDepsOf, waitingOf, h1, h2]
  have he0 : evaluate typeName demoFns 20 (SkyKey.file p) =
      run typeName demoFns (19 + 1) (⟨[(.file p, none)],
        [(.file p, [])],
        [(.file p, 0)],
        [.file p],
        [.file p]⟩ : SkyState SkyKey String) (SkyKey.file p) := by
    simp [evaluate, initState, getOrCreate, dictGet, dictSet]
  have hfin : run typeName demoFns 14 (⟨[(.file p, some ("File[" ++ ("content(" ++ p ++ ")") ++ "]")), (.file (parentPath p), some ("File[" ++ ("content(" ++ parentPath p ++ ")") ++ "]")), (.fileState p, some ("content(" ++ p ++ ")")), (.fileState (parentPath p), some ("content(" ++ parentPath p ++ ")"))],
        [(.file p, []), (.file (parentPath p), [.file p]), (.fileState p, [.file p]), (.fileState (parentPath p), [.file (parentPath p)])],
        [(.file p, 0), (.file (parentPath p), 0), (.fileState p, 0), (.fileState (parentPath p), 0)],
        [],
        []⟩ : SkyState SkyKey String) (SkyKey.file p) =
      .halt (⟨[(.file p, some ("File[" ++ ("content(" ++ p ++ ")") ++ "]")), (.file (parentPath p), some ("File[" ++ ("content(" ++ parentPath p ++ ")") ++ "]")), (.fileState p, some ("content(" ++ p ++ ")")), (.fileState (parentPath p), some ("content(" ++ parentPath p ++ ")"))],
        [(.file p, []), (.file (parentPath p), [.file p]), (.fileState p, [.file p]), (.fileState (parentPath p), [.file (parentPath p)])],
        [(.file p, 0), (.file (parentPath p), 0), (.fileState p, 0), (.fileState (parentPath p), 0)],
        [],
        []⟩ : SkyState SkyKey String) (valueOf (⟨[(.file p, some ("File[" ++ ("content(" ++ p ++ ")") ++ "]")), (.file (parentPath p), some ("File[" ++ ("content(" ++ parentPath p ++ ")") ++ "]")), (.fileState p, some ("content(" ++ p ++ ")")), (.fileState (parentPath p), some ("content(" ++ parentPath p ++ ")"))],
        [(.file p, []), (.file (parentPath p), [.file p]), (.fileState p, [.file p]), (.fileState (parentPath p), [.file (parentPath p)])],
        [(.file p, 0), (.file (parentPath p), 0), (.fileState p, 0), (.fileState (parentPath p), 0)],
        [],
        []⟩ : SkyState SkyKey String) (SkyKey.file p)) [] := run_nil rfl
  rw [he0, run_cons, st1]
  dsimp only
  rw [show (19 : Nat) = 18 + 1 from rfl, run_cons, st2]
  dsimp only
  rw [show (18 : Nat) = 17 + 1 from rfl, run_cons, st3]
  dsimp only
  rw [show (17 : Nat) = 16 + 1 from rfl, run_cons, st4]
  dsimp only
  rw [show (16 : Nat) = 15 + 1 from rfl, run_cons, st5]
  dsimp only
  rw [show (15 : Nat) = 14 + 1 from rfl, run_cons, st6]
  dsimp only
  rw [hfin]
  refine ⟨rfl, rfl, by simp [isDone, dictGet, h1, h2, stateOf, withEvents], ?_, ?_⟩
  · simp [withEvents, stateOf, retOf, valueOf, dictGet, h1, h2]
  · simp [withEvents, retOf, valueOf, dictGet, h1, h2]

end Skyframe

namespace Skyframe

theorem data_ne_nil_of_ne_empty {p : String} (h : p ≠ "") : p.data ≠ [] := by
  intro hd
  apply h
  cases p with
  | mk l =>
      simp at hd
      subst hd
      rfl

theorem endsSlash_concat (s t : String) (h : t.data ≠ []) :
    endsSlash (s ++ t) = endsSlash t := by
  unfold endsSlash
  rw [show (s ++ t).data = s.data ++ t.data from String.data_append s t]
  rw [List.getLast?_append_of_ne_nil _ h]

theorem endsSlash_data_ne_nil {p : String} (h : endsSlash p = true) : p.data ≠ [] := by
  intro hd
  unfold endsSlash at h
  rw [hd] at h
  simp at h

set_option maxHeartbeats 1000000 in
theorem evaluate_fileState (p : String) :
    isHalt (evaluate typeName demoFns 20 (SkyKey.fileState p)) = true ∧
    (stateOf (evaluate typeName demoFns 20 (SkyKey.fileState p))).queue = [] ∧
    isDone (stateOf (evaluate typeName demoFns 20 (SkyKey.fileState p))) (SkyKey.fileState p) = true ∧
    retOf (evaluate typeName demoFns 20 (SkyKey.fileState p)) =
      valueOf (stateOf (evaluate typeName demoFns 20 (SkyKey.fileState p))) (SkyKey.fileState p) ∧
    retOf (evaluate typeName demoFns 20 (SkyKey.fileState p)) =
      some ("content(" ++ p ++ ")") := by
  simp [evaluate, run, processKey, runCompute, getOrCreate, dictGet, dictSet,
    isDone, valueOf, reverseDepsOf, waitingOf, signalParents, typeName, demoFns,
    fileStateCompute, pathOf, optStr, keyKnown, withEvents, initState,
    stateOf, evsOf, isHalt, retOf]

set_option maxHeartbeats 4000000 in
theorem evaluate_file_slash (p : String) (he : endsSlash p = true) :
    isHalt (evaluate typeName demoFns 20 (SkyKey.file p)) = true ∧
    (stateOf (evaluate typeName demoFns 20 (SkyKey.file p))).queue = [] ∧
    isDone (stateOf (evaluate typeName demoFns 20 (SkyKey.file p))) (SkyKey.file p) = true ∧
    retOf (evaluate typeName demoFns 20 (SkyKey.file p)) =
      valueOf (stateOf (evaluate typeName demoFns 20 (SkyKey.file p))) (SkyKey.file p) ∧
    retOf (evaluate typeName demoFns 20 (SkyKey.file p)) =
      some ("File[" ++ ("content(" ++ p ++ ")") ++ "]") := by
  simp [evaluate, run, processKey, runCompute, getValue_done_eq, getValue_seen_eq,
    getValue_fresh_enqueue, getValue_pending_inflight, getValue_pending_enqueue,
    getOrCreate, dictGet, dictSet,
    isDone, valueOf, reverseDepsOf, waitingOf, signalParents, typeName, demoFns,
    fileCompute, fileStateCompute, pathOf, optStr,
    keyKnown, withEvents, initState, stateOf, evsOf, isHalt, retOf, he]

end Skyframe

namespace Skyframe

set_option maxHeartbeats 2000000 in
/-- Stepwise evaluation of an `ArtifactKey` root whose path is a directory
path: five loop iterations, root DONE, value returned. -/
theorem evaluate_artifact_slash (p : String) (he : endsSlash p = true) :
    isHalt (evaluate typeName demoFns 20 (SkyKey.artifact p)) = true ∧
    (stateOf (evaluate typeName demoFns 20 (SkyKey.artifact p))).queue = [] ∧
    isDone (stateOf (evaluate typeName demoFns 20 (SkyKey.artifact p))) (SkyKey.artifact p) = true ∧
    retOf (evaluate typeName demoFns 20 (SkyKey.artifact p)) =
      valueOf (stateOf (evaluate typeName demoFns 20 (SkyKey.artifact p))) (SkyKey.artifact p) ∧
    retOf (evaluate typeName demoFns 20 (SkyKey.artifact p)) =
      some ("Artifact(" ++ ("File[" ++ ("content(" ++ ("/workspace/" ++ p) ++ ")") ++ "]") ++ ")") := by
  have hq : endsSlash ("/workspace/" ++ p) = true := by
    rw [endsSlash_concat _ _ (endsSlash_data_ne_nil he)]
    exact he
  have hac : artifactCompute (SkyKey.artifact p) =
      FProg.getValue (SkyKey.file ("/workspace/" ++ p)) (fun fileVal =>
        FProg.nodesMissing (fun m =>
          if m then FProg.ret none
          else FProg.ret (some ("Artifact(" ++ optStr fileVal ++ ")")))) := rfl
  have hfcq : fileCompute (SkyKey.file ("/workspace/" ++ p)) =
      FProg.getValue (SkyKey.fileState ("/workspace/" ++ p)) (fun state =>
        FProg.nodesMissing (fun m =>
          if m then FProg.ret none
          else FProg.ret (some ("File[" ++ optStr state ++ "]")))) := by
    simp [fileCompute, pathOf, hq]
  have hfA : demoFns (typeName (SkyKey.artifact p)) = some artifactCompute := by
    simp [typeName, demoFns]
  have hfF : demoFns (typeName (SkyKey.file ("/workspace/" ++ p))) = some fileCompute := by
    simp [typeName, demoFns]
  have hfFS : demoFns (typeName (SkyKey.fileState ("/workspace/" ++ p))) = some fileStateCompute := by
    simp [typeName, demoFns]
  have g1 : getValue (SkyKey.artifact p) (SkyKey.file ("/workspace/" ++ p)) (⟨[(.artifact p, none)],
        [(.artifact p, [])],
        [(.artifact p, 0)],
        [.artifact p],
        []⟩ : SkyState SkyKey String) ⟨false, []⟩ =
      (none, (⟨[(.artifact p, none), (.file ("/workspace/" ++ p), none)],
        [(.artifact p, []), (.file ("/workspace/" ++ p), [.artifact p])],
        [(.artifact p, 0), (.file ("/workspace/" ++ p), 0)],
        [.artifact p, .file ("/workspace/" ++ p)],
        [.file ("/workspace/" ++ p)]⟩ : SkyState SkyKey String), ⟨true, [.file ("/workspace/" ++ p)]⟩) := by
    rw [getValue_fresh_enqueue]
    · simp [dictSet, keyKnown, dictGet]
    · simp [keyKnown, dictGet]
    · simp
  have g2 : getValue (SkyKey.file ("/workspace/" ++ p)) (SkyKey.fileState ("/workspace/" ++ p)) (⟨[(.artifact p, none), (.file ("/workspace/" ++ p), none)],
        [(.artifact p, []), (.file ("/workspace/" ++ p), [.artifact p])],
        [(.artifact p, 1), (.file ("/workspace/" ++ p), 0)],
        [.artifact p, .file ("/workspace/" ++ p)],
        []⟩ : SkyState SkyKey String) ⟨false, []⟩ =
      (none, (⟨[(.artifact p, none), (.file ("/workspace/" ++ p), none), (.fileState ("/workspace/" ++ p), none)],
        [(.artifact p, []), (.file ("/workspace/" ++ p), [.artifact p]), (.fileState ("/workspace/" ++ p), [.file ("/workspace/" ++ p)])],
        [(.artifact p, 1), (.file ("/workspace/" ++ p), 0), (.fileState ("/workspace/" ++ p), 0)],
        [.artifact p, .file ("/workspace/" ++ p), .fileState ("/workspace/" ++ p)],
        [.fileState ("/workspace/" ++ p)]⟩ : SkyState SkyKey String), ⟨true, [.fileState ("/workspace/" ++ p)]⟩) := by
    rw [getValue_fresh_enqueue]
    · simp [dictSet, keyKnown, dictGet]
    · simp [keyKnown, dictGet]
    · simp
  have g3 : getValue (SkyKey.file ("/workspace/" ++ p)) (SkyKey.fileState ("/workspace/" ++ p)) (⟨[(.artifact p, none), (.file ("/workspace/" ++ p), none), (.fileState ("/workspace/" ++ p), some ("content(" ++ ("/workspace/" ++ p) ++ ")"))],
        [(.artifact p, []), (.file ("/workspace/" ++ p), [.artifact p]), (.fileState ("/workspace/" ++ p), [.file ("/workspace/" ++ p)])],
        [(.artifact p, 1), (.file ("/workspace/" ++ p), 0), (.fileState ("/workspace/" ++ p), 0)],
        [.artifact p, .file ("/workspace/" ++ p)],
        []⟩ : SkyState SkyKey String) ⟨false, []⟩ =
      (some ("content(" ++ ("/workspace/" ++ p) ++ ")"), (⟨[(.artifact p, none), (.file ("/workspace/" ++ p), none), (.fileState ("/workspace/" ++ p), some ("content(" ++ ("/workspace/" ++ p) ++ ")"))],
        [(.artifact p, []), (.file ("/workspace/" ++ p), [.artifact p]), (.fileState ("/workspace/" ++ p), [.file ("/workspace/" ++ p)])],
        [(.artifact p, 1), (.file ("/workspace/" ++ p), 0), (.fileState ("/workspace/" ++ p), 0)],
        [.artifact p, .file ("/workspace/" ++ p)],
        []⟩ : SkyState SkyKey String), ⟨false, []⟩) := by
    rw [getValue_done_eq]
    · simp [valueOf, dictGet]
    · simp [isDone, dictGet]
  have g4 : getValue (SkyKey.artifact p) (SkyKey.file ("/workspace/" ++ p)) (⟨[(.artifact p, none), (.file ("/workspace/" ++ p), some ("File[" ++ ("content(" ++ ("/workspace/" ++ p) ++ ")") ++ "]")), (.fileState ("/workspace/" ++ p), some ("content(" ++ ("/workspace/" ++ p) ++ ")"))],
        [(.artifact p, []), (.file ("/workspace/" ++ p), [.artifact p]), (.fileState ("/workspace/" ++ p), [.file ("/workspace/" ++ p)])],
        [(.artifact p, 0), (.file ("/workspace/" ++ p), 0), (.fileState ("/workspace/" ++ p), 0)],
        [.artifact p],
        []⟩ : SkyState SkyKey String) ⟨false, []⟩ =
      (some ("File[" ++ ("content(" ++ ("/workspace/" ++ p) ++ ")") ++ "]"), (⟨[(.artifact p, none), (.file ("/workspace/" ++ p), some ("File[" ++ ("content(" ++ ("/workspace/" ++ p) ++ ")") ++ "]")), (.fileState ("/workspace/" ++ p), some ("content(" ++ ("/workspace/" ++ p) ++ ")"))],
        [(.artifact p, []), (.file ("/workspace/" ++ p), [.artifact p]), (.fileState ("/workspace/" ++ p), [.file ("/workspace/" ++ p)])],
        [(.artifact p, 0), (.file ("/workspace/" ++ p), 0), (.fileState ("/workspace/" ++ p), 0)],
        [.artifact p],
        []⟩ : SkyState SkyKey String), ⟨false, []⟩) := by
    rw [getValue_done_eq]
    · simp [valueOf, dictGet]
    · simp [isDone, dictGet]
  have hrc1 : runCompute (SkyKey.artifact p) (artifactCompute (SkyKey.artifact p)) (⟨[(.artifact p, none)],
        [(.artifact p, [])],
        [(.artifact p, 0)],
        [.artifact p],
        []⟩ : SkyState SkyKey String) ⟨false, []⟩ =
      (none, (⟨[(.artifact p, none), (.file ("/workspace/" ++ p), none)],
        [(.artifact p, []), (.file ("/workspace/" ++ p), [.artifact p])],
        [(.artifact p, 0), (.file ("/workspace/" ++ p), 0)],
        [.artifact p, .file ("/workspace/" ++ p)],
        [.file ("/workspace/" ++ p)]⟩ : SkyState SkyKey String), ⟨true, [.file ("/workspace/" ++ p)]⟩) := by
    rw [hac, runCompute_getValue_eq, g1]
    dsimp only
    rw [runCompute_nodesMissing_eq]
    dsimp only
    rw [if_pos rfl, runCompute_ret_eq]
  have hd1 : isDone (⟨[(.artifact p, none)],
        [(.artifact p, [])],
        [(.artifact p, 0)],
        [.artifact p],
        []⟩ : SkyState SkyKey String) (SkyKey.artifact p) = false := by
    simp [isDone, dictGet]
  have st1 : processKey typeName demoFns (SkyKey.artifact p) (⟨[(.artifact p, none)],
        [(.artifact p, [])],
        [(.artifact p, 0)],
        [.artifact p],
        []⟩ : SkyState SkyKey String) =
      .ok (⟨[(.artifact p, none), (.file ("/workspace/" ++ p), none)],
        [(.artifact p, []), (.file ("/workspace/" ++ p), [.artifact p])],
        [(.artifact p, 1), (.file ("/workspace/" ++ p), 0)],
        [.artifact p, .file ("/workspace/" ++ p)],
        [.file ("/workspace/" ++ p)]⟩ : SkyState SkyKey String) [.invoked (.artifact p), .postponed (.artifact p) [.file ("/workspace/" ++ p)]] := by
    rw [processKey_none_eq hd1 hfA hrc1]
    simp [dictSet]
  have hrc2 : runCompute (SkyKey.file ("/workspace/" ++ p)) (fileCompute (SkyKey.file ("/workspace/" ++ p))) (⟨[(.artifact p, none), (.file ("/workspace/" ++ p), none)],
        [(.artifact p, []), (.file ("/workspace/" ++ p), [.artifact p])],
        [(.artifact p, 1), (.file ("/workspace/" ++ p), 0)],
        [.artifact p, .file ("/workspace/" ++ p)],
        []⟩ : SkyState SkyKey String) ⟨false, []⟩ =
      (none, (⟨[(.artifact p, none), (.file ("/workspace/" ++ p), none), (.fileState ("/workspace/" ++ p), none)],
        [(.artifact p, []), (.file ("/workspace/" ++ p), [.artifact p]), (.fileState ("/workspace/" ++ p), [.file ("/workspace/" ++ p)])],
        [(.artifact p, 1), (.file ("/workspace/" ++ p), 0), (.fileState ("/workspace/" ++ p), 0)],
        [.artifact p, .file ("/workspace/" ++ p), .fileState ("/workspace/" ++ p)],
        [.fileState ("/workspace/" ++ p)]⟩ : SkyState SkyKey String), ⟨true, [.fileState ("/workspace/" ++ p)]⟩) := by
    rw [hfcq, runCompute_getValue_eq, g2]
    dsimp only
    rw [runCompute_nodesMissing_eq]
    dsimp only
    rw [if_pos rfl, runCompute_ret_eq]
  have hd2 : isDone (⟨[(.artifact p, none), (.file ("/workspace/" ++ p), none)],
        [(.artifact p, []), (.file ("/workspace/" ++ p), [.artifact p])],
        [(.artifact p, 1), (.file ("/workspace/" ++ p), 0)],
        [.artifact p, .file ("/workspace/" ++ p)],
        []⟩ : SkyState SkyKey String) (SkyKey.file ("/workspace/" ++ p)) = false := by
    simp [isDone, dictGet]
  have st2 : processKey typeName demoFns (SkyKey.file ("/workspace/" ++ p)) (⟨[(.artifact p, none), (.file ("/workspace/" ++ p), none)],
        [(.artifact p, []), (.file ("/workspace/" ++ p), [.artifact p])],
        [(.artifact p, 1), (.file ("/workspace/" ++ p), 0)],
        [.artifact p, .file ("/workspace/" ++ p)],
        []⟩ : SkyState SkyKey String) =
      .ok (⟨[(.artifact p, none), (.file ("/workspace/" ++ p), none), (.fileState ("/workspace/" ++ p), none)],
        [(.artifact p, []), (.file ("/workspace/" ++ p), [.artifact p]), (.fileState ("/workspace/" ++ p), [.file ("/workspace/" ++ p)])],
        [(.artifact p, 1), (.file ("/workspace/" ++ p), 1), (.fileState ("/workspace/" ++ p), 0)],
        [.artifact p, .file ("/workspace/" ++ p), .fileState ("/workspace/" ++ p)],
        [.fileState ("/workspace/" ++ p)]⟩ : SkyState SkyKey String) [.invoked (.file ("/workspace/" ++ p)), .postponed (.file ("/workspace/" ++ p)) [.fileState ("/workspace/" ++ p)]] := by
    rw [processKey_none_eq hd2 hfF hrc2]
    simp [dictSet]
  have hrc3 : runCompute (SkyKey.fileState ("/workspace/" ++ p)) (fileStateCompute (SkyKey.fileState ("/workspace/" ++ p))) (⟨[(.artifact p, none), (.file ("/workspace/" ++ p), none), (.fileState ("/workspace/" ++ p), none)],
        [(.artifact p, []), (.file ("/workspace/" ++ p), [.artifact p]), (.fileState ("/workspace/" ++ p), [.file ("/workspace/" ++ p)])],
        [(.artifact p, 1), (.file ("/workspace/" ++ p), 1), (.fileState ("/workspace/" ++ p), 0)],
        [.artifact p, .file ("/workspace/" ++ p), .fileState ("/workspace/" ++ p)],
        []⟩ : SkyState SkyKey String) ⟨false, []⟩ =
      (some ("content(" ++ ("/workspace/" ++ p) ++ ")"), (⟨[(.artifact p, none), (.file ("/workspace/" ++ p), none), (.fileState ("/workspace/" ++ p), none)],
        [(.artifact p, []), (.file ("/workspace/" ++ p), [.artifact p]), (.fileState ("/workspace/" ++ p), [.file ("/workspace/" ++ p)])],
        [(.artifact p, 1), (.file ("/workspace/" ++ p), 1), (.fileState ("/workspace/" ++ p), 0)],
        [.artifact p, .file ("/workspace/" ++ p), .fileState ("/workspace/" ++ p)],
        []⟩ : SkyState SkyKey String), ⟨false, []⟩) := rfl
  have hd3 : isDone (⟨[(.artifact p, none), (.file ("/workspace/" ++ p), none), (.fileState ("/workspace/" ++ p), none)],
        [(.artifact p, []), (.file ("/workspace/" ++ p), [.artifact p]), (.fileState ("/workspace/" ++ p), [.file ("/workspace/" ++ p)])],
        [(.artifact p, 1), (.file ("/workspace/" ++ p), 1), (.fileState ("/workspace/" ++ p), 0)],
        [.artifact p, .file ("/workspace/" ++ p), .fileState ("/workspace/" ++ p)],
        []⟩ : SkyState SkyKey String) (SkyKey.fileState ("/workspace/" ++ p)) = false := by
    simp [isDone, dictGet]
  have st3 : processKey typeName demoFns (SkyKey.fileState ("/workspace/" ++ p)) (⟨[(.artifact p, none), (.file ("/workspace/" ++ p), none), (.fileState ("/workspace/" ++ p), none)],
        [(.artifact p, []), (.file ("/workspace/" ++ p), [.artifact p]), (.fileState ("/workspace/" ++ p), [.file ("/workspace/" ++ p)])],
        [(.artifact p, 1), (.file ("/workspace/" ++ p), 1), (.fileState ("/workspace/" ++ p), 0)],
        [.artifact p, .file ("/workspace/" ++ p), .fileState ("/workspace/" ++ p)],
        []⟩ : SkyState SkyKey String) =
      .ok (⟨[(.artifact p, none), (.file ("/workspace/" ++ p), none), (.fileState ("/workspace/" ++ p), some ("content(" ++ ("/workspace/" ++ p) ++ ")"))],
        [(.artifact p, []), (.file ("/workspace/" ++ p), [.artifact p]), (.fileState ("/workspace/" ++ p), [.file ("/workspace/" ++ p)])],
        [(.artifact p, 1), (.file ("/workspace/" ++ p), 0), (.fileState ("/workspace/" ++ p), 0)],
        [.artifact p, .file ("/workspace/" ++ p)],
        [.file ("/workspace/" ++ p)]⟩ : SkyState SkyKey String) [.invoked (.fileState ("/workspace/" ++ p)), .completed (.fileState ("/workspace/" ++ p)) ("content(" ++ ("/workspace/" ++ p) ++ ")"), .signal (.file ("/workspace/" ++ p)) 0, .reenqueue (.file ("/workspace/" ++ p))] := by
    rw [processKey_some_eq hd3 hfFS hrc3]
    simp [dictSet, dictGet, signalParents, reverseDepsOf, waitingOf]
  have hrc4 : runCompute (SkyKey.file ("/workspace/" ++ p)) (fileCompute (SkyKey.file ("/workspace/" ++ p))) (⟨[(.artifact p, none), (.file ("/workspace/" ++ p), none), (.fileState ("/workspace/" ++ p), some ("content(" ++ ("/workspace/" ++ p) ++ ")"))],
        [(.artifact p, []), (.file ("/workspace/" ++ p), [.artifact p]), (.fileState ("/workspace/" ++ p), [.file ("/workspace/" ++ p)])],
        [(.artifact p, 1), (.file ("/workspace/" ++ p), 0), (.fileState ("/workspace/" ++ p), 0)],
        [.artifact p, .file ("/workspace/" ++ p)],
        []⟩ : SkyState SkyKey String) ⟨false, []⟩ =
      (some ("File[" ++ ("content(" ++ ("/workspace/" ++ p) ++ ")") ++ "]"), (⟨[(.artifact p, none), (.file ("/workspace/" ++ p), none), (.fileState ("/workspace/" ++ p), some ("content(" ++ ("/workspace/" ++ p) ++ ")"))],
        [(.artifact p, []), (.file ("/workspace/" ++ p), [.artifact p]), (.fileState ("/workspace/" ++ p), [.file ("/workspace/" ++ p)])],
        [(.artifact p, 1), (.file ("/workspace/" ++ p), 0), (.fileState ("/workspace/" ++ p), 0)],
        [.artifact p, .file ("/workspace/" ++ p)],
        []⟩ : SkyState SkyKey String), ⟨false, []⟩) := by
    rw [hfcq, runCompute_getValue_eq, g3]
    dsimp only
    rw [runCompute_nodesMissing_eq]
    dsimp only
    rw [if_neg (by simp), runCompute_ret_eq]
    rfl
  have hd4 : isDone (⟨[(.artifact p, none), (.file ("/workspace/" ++ p), none), (.fileState ("/workspace/" ++ p), some ("content(" ++ ("/workspace/" ++ p) ++ ")"))],
        [(.artifact p, []), (.file ("/workspace/" ++ p), [.artifact p]), (.fileState ("/workspace/" ++ p), [.file ("/workspace/" ++ p)])],
        [(.artifact p, 1), (.file ("/workspace/" ++ p), 0), (.fileState ("/workspace/" ++ p), 0)],
        [.artifact p, .file ("/workspace/" ++ p)],
        []⟩ : SkyState SkyKey String) (SkyKey.file ("/workspace/" ++ p)) = false := by
    simp [isDone, dictGet]
  have st4 : processKey typeName demoFns (SkyKey.file ("/workspace/" ++ p)) (⟨[(.artifact p, none), (.file ("/workspace/" ++ p), none), (.fileState ("/workspace/" ++ p), some ("content(" ++ ("/workspace/" ++ p) ++ ")"))],
        [(.artifact p, []), (.file ("/workspace/" ++ p), [.artifact p]), (.fileState ("/workspace/" ++ p), [.file ("/workspace/" ++ p)])],
        [(.artifact p, 1), (.file ("/workspace/" ++ p), 0), (.fileState ("/workspace/" ++ p), 0)],
        [.artifact p, .file ("/workspace/" ++ p)],
        []⟩ : SkyState SkyKey String) =
      .ok (⟨[(.artifact p, none), (.file ("/workspace/" ++ p), some ("File[" ++ ("content(" ++ ("/workspace/" ++ p) ++ ")") ++ "]")), (.fileState ("/workspace/" ++ p), some ("content(" ++ ("/workspace/" ++ p) ++ ")"))],
        [(.artifact p, []), (.file ("/workspace/" ++ p), [.artifact p]), (.fileState ("/workspace/" ++ p), [.file ("/workspace/" ++ p)])],
        [(.artifact p, 0), (.file ("/workspace/" ++ p), 0), (.fileState ("/workspace/" ++ p), 0)],
        [.artifact p],
        [.artifact p]⟩ : SkyState SkyKey String) [.invoked (.file ("/workspace/" ++ p)), .completed (.file ("/workspace/" ++ p)) ("File[" ++ ("content(" ++ ("/workspace/" ++ p) ++ ")") ++ "]"), .signal (.artifact p) 0, .reenqueue (.artifact p)] := by
    rw [processKey_some_eq hd4 hfF hrc4]
    simp [dictSet, dictGet, signalParents, reverseDepsOf, waitingOf]
  have hrc5 : runCompute (SkyKey.artifact p) (artifactCompute (SkyKey.artifact p)) (⟨[(.artifact p, none), (.file ("/workspace/" ++ p), some ("File[" ++ ("content(" ++ ("/workspace/" ++ p) ++ ")") ++ "]")), (.fileState ("/workspace/" ++ p), some ("content(" ++ ("/workspace/" ++ p) ++ ")"))],
        [(.artifact p, []), (.file ("/workspace/" ++ p), [.artifact p]), (.fileState ("/workspace/" ++ p), [.file ("/workspace/" ++ p)])],
        [(.artifact p, 0), (.file ("/workspace/" ++ p), 0), (.fileState ("/workspace/" ++ p), 0)],
        [.artifact p],
        []⟩ : SkyState SkyKey String) ⟨false, []⟩ =
      (some ("Artifact(" ++ ("File[" ++ ("content(" ++ ("/workspace/" ++ p) ++ ")") ++ "]") ++ ")"), (⟨[(.artifact p, none), (.file ("/workspace/" ++ p), some ("File[" ++ ("content(" ++ ("/workspace/" ++ p) ++ ")") ++ "]")), (.fileState ("/workspace/" ++ p), some ("content(" ++ ("/workspace/" ++ p) ++ ")"))],
        [(.artifact p, []), (.file ("/workspace/" ++ p), [.artifact p]), (.fileState ("/workspace/" ++ p), [.file ("/workspace/" ++ p)])],
        [(.artifact p, 0), (.file ("/workspace/" ++ p), 0), (.fileState ("/workspace/" ++ p), 0)],
        [.artifact p],
        []⟩ : SkyState SkyKey String), ⟨false, []⟩) := by
    rw [hac, runCompute_getValue_eq, g4]
    dsimp only
    rw [runCompute_nodesMissing_eq]
    dsimp only
    rw [if_neg (by simp), runCompute_ret_eq]
    rfl
  have hd5 : isDone (⟨[(.artifact p, none), (.file ("/workspace/" ++ p), some ("File[" ++ ("content(" ++ ("/workspace/" ++ p) ++ ")") ++ "]")), (.fileState ("/workspace/" ++ p), some ("content(" ++ ("/workspace/" ++ p) ++ ")"))],
        [(.artifact p, []), (.file ("/workspace/" ++ p), [.artifact p]), (.fileState ("/workspace/" ++ p), [.file ("/workspace/" ++ p)])],
        [(.artifact p, 0), (.file ("/workspace/" ++ p), 0), (.fileState ("/workspace/" ++ p), 0)],
        [.artifact p],
        []⟩ : SkyState SkyKey String) (SkyKey.artifact p) = false := by
    simp [isDone, dictGet]
  have st5 : processKey typeName demoFns (SkyKey.artifact p) (⟨[(.artifact p, none), (.file ("/workspace/" ++ p), some ("File[" ++ ("content(" ++ ("/workspace/" ++ p) ++ ")") ++ "]")), (.fileState ("/workspace/" ++ p), some ("content(" ++ ("/workspace/" ++ p) ++ ")"))],
        [(.artifact p, []), (.file ("/workspace/" ++ p), [.artifact p]), (.fileState ("/workspace/" ++ p), [.file ("/workspace/" ++ p)])],
        [(.artifact p, 0), (.file ("/workspace/" ++ p), 0), (.fileState ("/workspace/" ++ p), 0)],
        [.artifact p],
        []⟩ : SkyState SkyKey String) =
      .ok (⟨[(.artifact p, some ("Artifact(" ++ ("File[" ++ ("content(" ++ ("/workspace/" ++ p) ++ ")") ++ "]") ++ ")")), (.file ("/workspace/" ++ p), some ("File[" ++ ("content(" ++ ("/workspace/" ++ p) ++ ")") ++ "]")), (.fileState ("/workspace/" ++ p), some ("content(" ++ ("/workspace/" ++ p) ++ ")"))],
        [(.artifact p, []), (.file ("/workspace/" ++ p), [.artifact p]), (.fileState ("/workspace/" ++ p), [.file ("/workspace/" ++ p)])],
        [(.artifact p, 0), (.file ("/workspace/" ++ p), 0), (.fileState ("/workspace/" ++ p), 0)],
        [],
        []⟩ : SkyState SkyKey String) [.invoked (.artifact p), .completed (.artifact p) ("Artifact(" ++ ("File[" ++ ("content(" ++ ("/workspace/" ++ p) ++ ")") ++ "]") ++ ")")] := by
    rw [processKey_some_eq hd5 hfA hrc5]
    simp [dictSet, dictGet, signalParents, reverseDepsOf, waitingOf]
  have he0 : evaluate typeName demoFns 20 (SkyKey.artifact p) =
      run typeName demoFns (19 + 1) (⟨[(.artifact p, none)],
        [(.artifact p, [])],
        [(.artifact p, 0)],
        [.artifact p],
        [.artifact p]⟩ : SkyState SkyKey String) (SkyKey.artifact p) := by
    simp [evaluate, initState, getOrCreate, dictGet, dictSet]
  have hfin : run typeName demoFns 15 (⟨[(.artifact p, some ("Artifact(" ++ ("File[" ++ ("content(" ++ ("/workspace/" ++ p) ++ ")") ++ "]") ++ ")")), (.file ("/workspace/" ++ p), some ("File[" ++ ("content(" ++ ("/workspace/" ++ p) ++ ")") ++ "]")), (.fileState ("/workspace/" ++ p), some ("content(" ++ ("/workspace/" ++ p) ++ ")"))],
        [(.artifact p, []), (.file ("/workspace/" ++ p), [.artifact p]), (.fileState ("/workspace/" ++ p), [.file ("/workspace/" ++ p)])],
        [(.artifact p, 0), (.file ("/workspace/" ++ p), 0), (.fileState ("/workspace/" ++ p), 0)],
        [],
        []⟩ : SkyState SkyKey String) (SkyKey.artifact p) =
      .halt (⟨[(.artifact p, some ("Artifact(" ++ ("File[" ++ ("content(" ++ ("/workspace/" ++ p) ++ ")") ++ "]") ++ ")")), (.file ("/workspace/" ++ p), some ("File[" ++ ("content(" ++ ("/workspace/" ++ p) ++ ")") ++ "]")), (.fileState ("/workspace/" ++ p), some ("content(" ++ ("/workspace/" ++ p) ++ ")"))],
        [(.artifact p, []), (.file ("/workspace/" ++ p), [.artifact p]), (.fileState ("/workspace/" ++ p), [.file ("/workspace/" ++ p)])],
        [(.artifact p, 0), (.file ("/workspace/" ++ p), 0), (.fileState ("/workspace/" ++ p), 0)],
        [],
        []⟩ : SkyState SkyKey String) (valueOf (⟨[(.artifact p, some ("Artifact(" ++ ("File[" ++ ("content(" ++ ("/workspace/" ++ p) ++ ")") ++ "]") ++ ")")), (.file ("/workspace/" ++ p), some ("File[" ++ ("content(" ++ ("/workspace/" ++ p) ++ ")") ++ "]")), (.fileState ("/workspace/" ++ p), some ("content(" ++ ("/workspace/" ++ p) ++ ")"))],
        [(.artifact p, []), (.file ("/workspace/" ++ p), [.artifact p]), (.fileState ("/workspace/" ++ p), [.file ("/workspace/" ++ p)])],
        [(.artifact p, 0), (.file ("/workspace/" ++ p), 0), (.fileState ("/workspace/" ++ p), 0)],
        [],
        []⟩ : SkyState SkyKey String) (SkyKey.artifact p)) [] := run_nil rfl
  rw [he0, run_cons, st1]
  dsimp only
  rw [show (19 : Nat) = 18 + 1 from rfl, run_cons, st2]
  dsimp only
  rw [show (18 : Nat) = 17 + 1 from rfl, run_cons, st3]
  dsimp only
  rw [show (17 : Nat) = 16 + 1 from rfl, run_cons, st4]
  dsimp only
  rw [show (16 : Nat) = 15 + 1 from rfl, run_cons, st5]
  dsimp only
  rw [hfin]
  refine ⟨rfl, rfl, by simp [isDone, dictGet, stateOf, withEvents], ?_, ?_⟩
  · simp [withEvents, stateOf, retOf, valueOf, dictGet]
  · simp [withEvents, retOf, valueOf, dictGet]

set_option maxHeartbeats 4000000 in
/-- Stepwise evaluation of an `ArtifactKey` root whose path is a nonempty
non-directory path: eight loop iterations, root DONE, value returned. -/
theorem evaluate_artifact_noslash (p : String) (he : endsSlash p = false)
    (hne : p ≠ "") :
    isHalt (evaluate typeName demoFns 20 (SkyKey.artifact p)) = true ∧
    (stateOf (evaluate typeName demoFns 20 (SkyKey.artifact p))).queue = [] ∧
    isDone (stateOf (evaluate typeName demoFns 20 (SkyKey.artifact p))) (SkyKey.artifact p) = true ∧
    retOf (evaluate typeName demoFns 20 (SkyKey.artifact p)) =
      valueOf (stateOf (evaluate typeName demoFns 20 (SkyKey.artifact p))) (SkyKey.artifact p) ∧
    retOf (evaluate typeName demoFns 20 (SkyKey.artifact p)) =
      some ("Artifact(" ++ ("File[" ++ ("content(" ++ ("/workspace/" ++ p) ++ ")") ++ "]") ++ ")") := by
  have hq : endsSlash ("/workspace/" ++ p) = false := by
    rw [endsSlash_concat _ _ (data_ne_nil_of_ne_empty hne)]
    exact he
  have h1 : ¬ (("/workspace/" ++ p) = parentPath ("/workspace/" ++ p)) :=
    ne_of_endsSlash hq (endsSlash_parentPath _)
  have h2 : ¬ (parentPath ("/workspace/" ++ p) = ("/workspace/" ++ p)) := fun h => h1 h.symm
  have hac : artifactCompute (SkyKey.artifact p) =
      FProg.getValue (SkyKey.file ("/workspace/" ++ p)) (fun fileVal =>
        FProg.nodesMissing (fun m =>
          if m then FProg.ret none
          else FProg.ret (some ("Artifact(" ++ optStr fileVal ++ ")")))) := rfl
  have hfcq : fileCompute (SkyKey.file ("/workspace/" ++ p)) =
      FProg.getValue (SkyKey.file (parentPath ("/workspace/" ++ p))) (fun _ =>
        FProg.getValue (SkyKey.fileState ("/workspace/" ++ p)) (fun state =>
          FProg.nodesMissing (fun m =>
            if m then FProg.ret none
            else FProg.ret (some ("File[" ++ optStr state ++ "]"))))) := by
    simp [fileCompute, pathOf, hq]
  have hfcpq : fileCompute (SkyKey.file (parentPath ("/workspace/" ++ p))) =
      FProg.getValue (SkyKey.fileState (parentPath ("/workspace/" ++ p))) (fun state =>
        FProg.nodesMissing (fun m =>
          if m then FProg.ret none
          else FProg.ret (some ("File[" ++ optStr state ++ "]")))) := by
    simp [fileCompute, pathOf, endsSlash_parentPath]
  have hfA : demoFns (typeName (SkyKey.artifact p)) = some artifactCompute := by
    simp [typeName, demoFns]
  have hfF : demoFns (typeName (SkyKey.file ("/workspace/" ++ p))) = some fileCompute := by
    simp [typeName, demoFns]
  have hfFS : demoFns (typeName (SkyKey.fileState ("/workspace/" ++ p))) = some fileStateCompute := by
    simp [typeName, demoFns]
  have g1 : getValue (SkyKey.artifact p) (SkyKey.file ("/workspace/" ++ p)) (⟨[(.artifact p, none)],
        [(.artifact p, [])],
        [(.artifact p, 0)],
        [.artifact p],
        []⟩ : SkyState SkyKey String) ⟨false, []⟩ =
      (none, (⟨[(.artifact p, none), (.file ("/workspace/" ++ p), none)],
        [(.artifact p, []), (.file ("/workspace/" ++ p), [.artifact p])],
        [(.artifact p, 0), (.file ("/workspace/" ++ p), 0)],
        [.artifact p, .file ("/workspace/" ++ p)],
        [.file ("/workspace/" ++ p)]⟩ : SkyState SkyKey String), ⟨true, [.file ("/workspace/" ++ p)]⟩) := by
    rw [getValue_fresh_enqueue]
    · simp [dictSet, keyKnown, dictGet, h1, h2]
    · simp [keyKnown, dictGet, h1, h2]
    · simp [h1, h2]
  have g2 : getValue (SkyKey.file ("/workspace/" ++ p)) (SkyKey.file (parentPath ("/workspace/" ++ p))) (⟨[(.artifact p, none), (.file ("/workspace/" ++ p), none)],
        [(.artifact p, []), (.file ("/workspace/" ++ p), [.artifact p])],
        [(.artifact p, 1), (.file ("/workspace/" ++ p), 0)],
        [.artifact p, .file ("/workspace/" ++ p)],
        []⟩ : SkyState SkyKey String) ⟨false, []⟩ =
      (none, (⟨[(.artifact p, none), (.file ("/workspace/" ++ p), none), (.file (parentPath ("/workspace/" ++ p)), none)],
        [(.artifact p, []), (.file ("/workspace/" ++ p), [.artifact p]), (.file (parentPath ("/workspace/" ++ p)), [.file ("/workspace/" ++ p)])],
        [(.artifact p, 1), (.file ("/workspace/" ++ p), 0), (.file (parentPath ("/workspace/" ++ p)), 0)],
        [.artifact p, .file ("/workspace/" ++ p), .file (parentPath ("/workspace/" ++ p))],
        [.file (parentPath ("/workspace/" ++ p))]⟩ : SkyState SkyKey String), ⟨true, [.file (parentPath ("/workspace/" ++ p))]⟩) := by
    rw [getValue_fresh_enqueue]
    · simp [dictSet, keyKnown, dictGet, h1, h2]
    · simp [keyKnown, dictGet, h1, h2]
    · simp [h1, h2]
  have g3 : getValue (SkyKey.file ("/workspace/" ++ p)) (SkyKey.fileState ("/workspace/" ++ p)) (⟨[(.artifact p, none), (.file ("/workspace/" ++ p), none), (.file (parentPath ("/workspace/" ++ p)), none)],
        [(.artifact p, []), (.file ("/workspace/" ++ p), [.artifact p]), (.file (parentPath ("/workspace/" ++ p)), [.file ("/workspace/" ++ p)])],
        [(.artifact p, 1), (.file ("/workspace/" ++ p), 0), (.file (parentPath ("/workspace/" ++ p)), 0)],
        [.artifact p, .file ("/workspace/" ++ p), .file (parentPath ("/workspace/" ++ p))],
        [.file (parentPath ("/workspace/" ++ p))]⟩ : SkyState SkyKey String) ⟨true, [.file (parentPath ("/workspace/" ++ p))]⟩ =
      (none, (⟨[(.artifact p, none), (.file ("/workspace/" ++ p), none), (.file (parentPath ("/workspace/" ++ p)), none), (.fileState ("/workspace/" ++ p), none)],
        [(.artifact p, []), (.file ("/workspace/" ++ p), [.artifact p]), (.file (parentPath ("/workspace/" ++ p)), [.file ("/workspace/" ++ p)]), (.fileState ("/workspace/" ++ p), [.file ("/workspace/" ++ p)])],
        [(.artifact p, 1), (.file ("/workspace/" ++ p), 0), (.file (parentPath ("/workspace/" ++ p)), 0), (.fileState ("/workspace/" ++ p), 0)],
        [.artifact p, .file ("/workspace/" ++ p), .file (parentPath ("/workspace/" ++ p)), .fileState ("/workspace/" ++ p)],
        [.file (parentPath ("/workspace/" ++ p)), .fileState ("/workspace/" ++ p)]⟩ : SkyState SkyKey String), ⟨true, [.file (parentPath ("/workspace/" ++ p)), .fileState ("/workspace/" ++ p)]⟩) := by
    rw [getValue_fresh_enqueue]
    · simp [dictSet, keyKnown, dictGet, h1, h2]
    · simp [keyKnown, dictGet, h1, h2]
    · simp [h1, h2]
  have g4 : getValue (SkyKey.file (parentPath ("/workspace/" ++ p))) (SkyKey.fileState (parentPath ("/workspace/" ++ p))) (⟨[(.artifact p, none), (.file ("/workspace/" ++ p), none), (.file (parentPath ("/workspace/" ++ p)), none), (.fileState ("/workspace/" ++ p), none)],
        [(.artifact p, []), (.file ("/workspace/" ++ p), [.artifact p]), (.file (parentPath ("/workspace/" ++ p)), [.file ("/workspace/" ++ p)]), (.fileState ("/workspace/" ++ p), [.file ("/workspace/" ++ p)])],
        [(.artifact p, 1), (.file ("/workspace/" ++ p), 2), (.file (parentPath ("/workspace/" ++ p)), 0), (.fileState ("/workspace/" ++ p), 0)],
        [.artifact p, .file ("/workspace/" ++ p), .file (parentPath ("/workspace/" ++ p)), .fileState ("/workspace/" ++ p)],
        [.fileState ("/workspace/" ++ p)]⟩ : SkyState SkyKey String) ⟨false, []⟩ =
      (none, (⟨[(.artifact p, none), (.file ("/workspace/" ++ p), none), (.file (parentPath ("/workspace/" ++ p)), none), (.fileState ("/workspace/" ++ p), none), (.fileState (parentPath ("/workspace/" ++ p)), none)],
        [(.artifact p, []), (.file ("/workspace/" ++ p), [.artifact p]), (.file (parentPath ("/workspace/" ++ p)), [.file ("/workspace/" ++ p)]), (.fileState ("/workspace/" ++ p), [.file ("/workspace/" ++ p)]), (.fileState (parentPath ("/workspace/" ++ p)), [.file (parentPath ("/workspace/" ++ p))])],
        [(.artifact p, 1), (.file ("/workspace/" ++ p), 2), (.file (parentPath ("/workspace/" ++ p)), 0), (.fileState ("/workspace/" ++ p), 0), (.fileState (parentPath ("/workspace/" ++ p)), 0)],
        [.artifact p, .file ("/workspace/" ++ p), .file (parentPath ("/workspace/" ++ p)), .fileState ("/workspace/" ++ p), .fileState (parentPath ("/workspace/" ++ p))],
        [.fileState ("/workspace/" ++ p), .fileState (parentPath ("/workspace/" ++ p))]⟩ : SkyState SkyKey String), ⟨true, [.fileState (parentPath ("/workspace/" ++ p))]⟩) := by
    rw [getValue_fresh_enqueue]
    · simp [dictSet, keyKnown, dictGet, h1, h2]
    · simp [keyKnown, dictGet, h1, h2]
    · simp [h1, h2]
  have g5 : getValue (SkyKey.file (parentPath ("/workspace/" ++ p))) (SkyKey.fileState (parentPath ("/workspace/" ++ p))) (⟨[(.artifact p, none), (.file ("/workspace/" ++ p), none), (.file (parentPath ("/workspace/" ++ p)), none), (.fileState ("/workspace/" ++ p), some ("content(" ++ ("/workspace/" ++ p) ++ ")")), (.fileState (parentPath ("/workspace/" ++ p)), some ("content(" ++ parentPath ("/workspace/" ++ p) ++ ")"))],
        [(.artifact p, []), (.file ("/workspace/" ++ p), [.artifact p]), (.file (parentPath ("/workspace/" ++ p)), [.file ("/workspace/" ++ p)]), (.fileState ("/workspace/" ++ p), [.file ("/workspace/" ++ p)]), (.fileState (parentPath ("/workspace/" ++ p)), [.file (parentPath ("/workspace/" ++ p))])],
        [(.artifact p, 1), (.file ("/workspace/" ++ p), 1), (.file (parentPath ("/workspace/" ++ p)), 0), (.fileState ("/workspace/" ++ p), 0), (.fileState (parentPath ("/workspace/" ++ p)), 0)],
        [.artifact p, .file ("/workspace/" ++ p), .file (parentPath ("/workspace/" ++ p))],
        []⟩ : SkyState SkyKey String) ⟨false, []⟩ =
      (some ("content(" ++ parentPath ("/workspace/" ++ p) ++ ")"), (⟨[(.artifact p, none), (.file ("/workspace/" ++ p), none), (.file (parentPath ("/workspace/" ++ p)), none), (.fileState ("/workspace/" ++ p), some ("content(" ++ ("/workspace/" ++ p) ++ ")")), (.fileState (parentPath ("/workspace/" ++ p)), some ("content(" ++ parentPath ("/workspace/" ++ p) ++ ")"))],
        [(.artifact p, []), (.file ("/workspace/" ++ p), [.artifact p]), (.file (parentPath ("/workspace/" ++ p)), [.file ("/workspace/" ++ p)]), (.fileState ("/workspace/" ++ p), [.file ("/workspace/" ++ p)]), (.fileState (parentPath ("/workspace/" ++ p)), [.file (parentPath ("/workspace/" ++ p))])],
        [(.artifact p, 1), (.file ("/workspace/" ++ p), 1), (.file (parentPath ("/workspace/" ++ p)), 0), (.fileState ("/workspace/" ++ p), 0), (.fileState (parentPath ("/workspace/" ++ p)), 0)],
        [.artifact p, .file ("/workspace/" ++ p), .file (parentPath ("/workspace/" ++ p))],
        []⟩ : SkyState SkyKey String), ⟨false, []⟩) := by
    rw [getValue_done_eq]
    · simp [valueOf, dictGet, h1, h2]
    · simp [isDone, dictGet, h1, h2]
  have g6 : getValue (SkyKey.file ("/workspace/" ++ p)) (SkyKey.file (parentPath ("/workspace/" ++ p))) (⟨[(.artifact p, none), (.file ("/workspace/" ++ p), none), (.file (parentPath ("/workspace/" ++ p)), some ("File[" ++ ("content(" ++ parentPath ("/workspace/" ++ p) ++ ")") ++ "]")), (.fileState ("/workspace/" ++ p), some ("content(" ++ ("/workspace/" ++ p) ++ ")")), (.fileState (parentPath ("/workspace/" ++ p)), some ("content(" ++ parentPath ("/workspace/" ++ p) ++ ")"))],
        [(.artifact p, []), (.file ("/workspace/" ++ p), [.artifact p]), (.file (parentPath ("/workspace/" ++ p)), [.file ("/workspace/" ++ p)]), (.fileState ("/workspace/" ++ p), [.file ("/workspace/" ++ p)]), (.fileState (parentPath ("/workspace/" ++ p)), [.file (parentPath ("/workspace/" ++ p))])],
        [(.artifact p, 1), (.file ("/workspace/" ++ p), 0), (.file (parentPath ("/workspace/" ++ p)), 0), (.fileState ("/workspace/" ++ p), 0), (.fileState (parentPath ("/workspace/" ++ p)), 0)],
        [.artifact p, .file ("/workspace/" ++ p)],
        []⟩ : SkyState SkyKey String) ⟨false, []⟩ =
      (some ("File[" ++ ("content(" ++ parentPath ("/workspace/" ++ p) ++ ")") ++ "]"), (⟨[(.artifact p, none), (.file ("/workspace/" ++ p), none), (.file (parentPath ("/workspace/" ++ p)), some ("File[" ++ ("content(" ++ parentPath ("/workspace/" ++ p) ++ ")") ++ "]")), (.fileState ("/workspace/" ++ p), some ("content(" ++ ("/workspace/" ++ p) ++ ")")), (.fileState (parentPath ("/workspace/" ++ p)), some ("content(" ++ parentPath ("/workspace/" ++ p) ++ ")"))],
        [(.artifact p, []), (.file ("/workspace/" ++ p), [.artifact p]), (.file (parentPath ("/workspace/" ++ p)), [.file ("/workspace/" ++ p)]), (.fileState ("/workspace/" ++ p), [.file ("/workspace/" ++ p)]), (.fileState (parentPath ("/workspace/" ++ p)), [.file (parentPath ("/workspace/" ++ p))])],
        [(.artifact p, 1), (.file ("/workspace/" ++ p), 0), (.file (parentPath ("/workspace/" ++ p)), 0), (.fileState ("/workspace/" ++ p), 0), (.fileState (parentPath ("/workspace/" ++ p)), 0)],
        [.artifact p, .file ("/workspace/" ++ p)],
        []⟩ : SkyState SkyKey String), ⟨false, []⟩) := by
    rw [getValue_done_eq]
    · simp [valueOf, dictGet, h1, h2]
    · simp [isDone, dictGet, h1, h2]
  have g7 : getValue (SkyKey.file ("/workspace/" ++ p)) (SkyKey.fileState ("/workspace/" ++ p)) (⟨[(.artifact p, none), (.file ("/workspace/" ++ p), none), (.file (parentPath ("/workspace/" ++ p)), some ("File[" ++ ("content(" ++ parentPath ("/workspace/" ++ p) ++ ")") ++ "]")), (.fileState ("/workspace/" ++ p), some ("content(" ++ ("/workspace/" ++ p) ++ ")")), (.fileState (parentPath ("/workspace/" ++ p)), some ("content(" ++ parentPath ("/workspace/" ++ p) ++ ")"))],
        [(.artifact p, []), (.file ("/workspace/" ++ p), [.artifact p]), (.file (parentPath ("/workspace/" ++ p)), [.file ("/workspace/" ++ p)]), (.fileState ("/workspace/" ++ p), [.file ("/workspace/" ++ p)]), (.fileState (parentPath ("/workspace/" ++ p)), [.file (parentPath ("/workspace/" ++ p))])],
        [(.artifact p, 1), (.file ("/workspace/" ++ p), 0), (.file (parentPath ("/workspace/" ++ p)), 0), (.fileState ("/workspace/" ++ p), 0), (.fileState (parentPath ("/workspace/" ++ p)), 0)],
        [.artifact p, .file ("/workspace/" ++ p)],
        []⟩ : SkyState SkyKey String) ⟨false, []⟩ =
      (some ("content(" ++ ("/workspace/" ++ p) ++ ")"), (⟨[(.artifact p, none), (.file ("/workspace/" ++ p), none), (.file (parentPath ("/workspace/" ++ p)), some ("File[" ++ ("content(" ++ parentPath ("/workspace/" ++ p) ++ ")") ++ "]")), (.fileState ("/workspace/" ++ p), some ("content(" ++ ("/workspace/" ++ p) ++ ")")), (.fileState (parentPath ("/workspace/" ++ p)), some ("content(" ++ parentPath ("/workspace/" ++ p) ++ ")"))],
        [(.artifact p, []), (.file ("/workspace/" ++ p), [.artifact p]), (.file (parentPath ("/workspace/" ++ p)), [.file ("/workspace/" ++ p)]), (.fileState ("/workspace/" ++ p), [.file ("/workspace/" ++ p)]), (.fileState (parentPath ("/workspace/" ++ p)), [.file (parentPath ("/workspace/" ++ p))])],
        [(.artifact p, 1), (.file ("/workspace/" ++ p), 0), (.file (parentPath ("/workspace/" ++ p)), 0), (.fileState ("/workspace/" ++ p), 0), (.fileState (parentPath ("/workspace/" ++ p)), 0)],
        [.artifact p, .file ("/workspace/" ++ p)],
        []⟩ : SkyState SkyKey String), ⟨false, []⟩) := by
    rw [getValue_done_eq]
    · simp [valueOf, dictGet, h1, h2]
    · simp [isDone, dictGet, h1, h2]
  have g8 : getValue (SkyKey.artifact p) (SkyKey.file ("/workspace/" ++ p)) (⟨[(.artifact p, none), (.file ("/workspace/" ++ p), some ("File[" ++ ("content(" ++ ("/workspace/" ++ p) ++ ")") ++ "]")), (.file (parentPath ("/workspace/" ++ p)), some ("File[" ++ ("content(" ++ parentPath ("/workspace/" ++ p) ++ ")") ++ "]")), (.fileState ("/workspace/" ++ p), some ("content(" ++ ("/workspace/" ++ p) ++ ")")), (.fileState (parentPath ("/workspace/" ++ p)), some ("content(" ++ parentPath ("/workspace/" ++ p) ++ ")"))],
        [(.artifact p, []), (.file ("/workspace/" ++ p), [.artifact p]), (.file (parentPath ("/workspace/" ++ p)), [.file ("/workspace/" ++ p)]), (.fileState ("/workspace/" ++ p), [.file ("/workspace/" ++ p)]), (.fileState (parentPath ("/workspace/" ++ p)), [.file (parentPath ("/workspace/" ++ p))])],
        [(.artifact p, 0), (.file ("/workspace/" ++ p), 0), (.file (parentPath ("/workspace/" ++ p)), 0), (.fileState ("/workspace/" ++ p), 0), (.fileState (parentPath ("/workspace/" ++ p)), 0)],
        [.artifact p],
        []⟩ : SkyState SkyKey String) ⟨false, []⟩ =
      (some ("File[" ++ ("content(" ++ ("/workspace/" ++ p) ++ ")") ++ "]"), (⟨[(.artifact p, none), (.file ("/workspace/" ++ p), some ("File[" ++ ("content(" ++ ("/workspace/" ++ p) ++ ")") ++ "]")), (.file (parentPath ("/workspace/" ++ p)), some ("File[" ++ ("content(" ++ parentPath ("/workspace/" ++ p) ++ ")") ++ "]")), (.fileState ("/workspace/" ++ p), some ("content(" ++ ("/workspace/" ++ p) ++ ")")), (.fileState (parentPath ("/workspace/" ++ p)), some ("content(" ++ parentPath ("/workspace/" ++ p) ++ ")"))],
        [(.artifact p, []), (.file ("/workspace/" ++ p), [.artifact p]), (.file (parentPath ("/workspace/" ++ p)), [.file ("/workspace/" ++ p)]), (.fileState ("/workspace/" ++ p), [.file ("/workspace/" ++ p)]), (.fileState (parentPath ("/workspace/" ++ p)), [.file (parentPath ("/workspace/" ++ p))])],
        [(.artifact p, 0), (.file ("/workspace/" ++ p), 0), (.file (parentPath ("/workspace/" ++ p)), 0), (.fileState ("/workspace/" ++ p), 0), (.fileState (parentPath ("/workspace/" ++ p)), 0)],
        [.artifact p],
        []⟩ : SkyState SkyKey String), ⟨false, []⟩) := by
    rw [getValue_done_eq]
    · simp [valueOf, dictGet, h1, h2]
    · simp [isDone, dictGet, h1, h2]
  have hrc1 : runCompute (SkyKey.artifact p) (artifactCompute (SkyKey.artifact p)) (⟨[(.artifact p, none)],
        [(.artifact p, [])],
        [(.artifact p, 0)],
        [.artifact p],
        []⟩ : SkyState SkyKey String) ⟨false, []⟩ =
      (none, (⟨[(.artifact p, none), (.file ("/workspace/" ++ p), none)],
        [(.artifact p, []), (.file ("/workspace/" ++ p), [.artifact p])],
        [(.artifact p, 0), (.file ("/workspace/" ++ p), 0)],
        [.artifact p, .file ("/workspace/" ++ p)],
        [.file ("/workspace/" ++ p)]⟩ : SkyState SkyKey String), ⟨true, [.file ("/workspace/" ++ p)]⟩) := by
    rw [hac, runCompute_getValue_eq, g1]
    dsimp only
    rw [runCompute_nodesMissing_eq]
    dsimp only
    rw [if_pos rfl, runCompute_ret_eq]
  have hd1 : isDone (⟨[(.artifact p, none)],
        [(.artifact p, [])],
        [(.artifact p, 0)],
        [.artifact p],
        []⟩ : SkyState SkyKey String) (SkyKey.artifact p) = false := by
    simp [isDone, dictGet]
  have st1 : processKey typeName demoFns (SkyKey.artifact p) (⟨[(.artifact p, none)],
        [(.artifact p, [])],
        [(.artifact p, 0)],
        [.artifact p],
        []⟩ : SkyState SkyKey String) =
      .ok (⟨[(.artifact p, none), (.file ("/workspace/" ++ p), none)],
        [(.artifact p, []), (.file ("/workspace/" ++ p), [.artifact p])],
        [(.artifact p, 1), (.file ("/workspace/" ++ p), 0)],
        [.artifact p, .file ("/workspace/" ++ p)],
        [.file ("/workspace/" ++ p)]⟩ : SkyState SkyKey String) [.invoked (.artifact p), .postponed (.artifact p) [.file ("/workspace/" ++ p)]] := by
    rw [processKey_none_eq hd1 hfA hrc1]
    simp [dictSet, h1, h2]
  have hrc2 : runCompute (SkyKey.file ("/workspace/" ++ p)) (fileCompute (SkyKey.file ("/workspace/" ++ p))) (⟨[(.artifact p, none), (.file ("/workspace/" ++ p), none)],
        [(.artifact p, []), (.file ("/workspace/" ++ p), [.artifact p])],
        [(.artifact p, 1), (.file ("/workspace/" ++ p), 0)],
        [.artifact p, .file ("/workspace/" ++ p)],
        []⟩ : SkyState SkyKey String) ⟨false, []⟩ =
      (none, (⟨[(.artifact p, none), (.file ("/workspace/" ++ p), none), (.file (parentPath ("/workspace/" ++ p)), none), (.fileState ("/workspace/" ++ p), none)],
        [(.artifact p, []), (.file ("/workspace/" ++ p), [.artifact p]), (.file (parentPath ("/workspace/" ++ p)), [.file ("/workspace/" ++ p)]), (.fileState ("/workspace/" ++ p), [.file ("/workspace/" ++ p)])],
        [(.artifact p, 1), (.file ("/workspace/" ++ p), 0), (.file (parentPath ("/workspace/" ++ p)), 0), (.fileState ("/workspace/" ++ p), 0)],
        [.artifact p, .file ("/workspace/" ++ p), .file (parentPath ("/workspace/" ++ p)), .fileState ("/workspace/" ++ p)],
        [.file (parentPath ("/workspace/" ++ p)), .fileState ("/workspace/" ++ p)]⟩ : SkyState SkyKey String), ⟨true, [.file (parentPath ("/workspace/" ++ p)), .fileState ("/workspace/" ++ p)]⟩) := by
    rw [hfcq, runCompute_getValue_eq, g2]
    dsimp only
    rw [runCompute_getValue_eq, g3]
    dsimp only
    rw [runCompute_nodesMissing_eq]
    dsimp only
    rw [if_pos rfl, runCompute_ret_eq]
  have hd2 : isDone (⟨[(.artifact p, none), (.file ("/workspace/" ++ p), none)],
        [(.artifact p, []), (.file ("/workspace/" ++ p), [.artifact p])],
        [(.artifact p, 1), (.file ("/workspace/" ++ p), 0)],
        [.artifact p, .file ("/workspace/" ++ p)],
        []⟩ : SkyState SkyKey String) (SkyKey.file ("/workspace/" ++ p)) = false := by
    simp [isDone, dictGet, h1, h2]
  have st2 : processKey typeName demoFns (SkyKey.file ("/workspace/" ++ p)) (⟨[(.artifact p, none), (.file ("/workspace/" ++ p), none)],
        [(.artifact p, []), (.file ("/workspace/" ++ p), [.artifact p])],
        [(.artifact p, 1), (.file ("/workspace/" ++ p), 0)],
        [.artifact p, .file ("/workspace/" ++ p)],
        []⟩ : SkyState SkyKey String) =
      .ok (⟨[(.artifact p, none), (.file ("/workspace/" ++ p), none), (.file (parentPath ("/workspace/" ++ p)), none), (.fileState ("/workspace/" ++ p), none)],
        [(.artifact p, []), (.file ("/workspace/" ++ p), [.artifact p]), (.file (parentPath ("/workspace/" ++ p)), [.file ("/workspace/" ++ p)]), (.fileState ("/workspace/" ++ p), [.file ("/workspace/" ++ p)])],
        [(.artifact p, 1), (.file ("/workspace/" ++ p), 2), (.file (parentPath ("/workspace/" ++ p)), 0), (.fileState ("/workspace/" ++ p), 0)],
        [.artifact p, .file ("/workspace/" ++ p), .file (parentPath ("/workspace/" ++ p)), .fileState ("/workspace/" ++ p)],
        [.file (parentPath ("/workspace/" ++ p)), .fileState ("/workspace/" ++ p)]⟩ : SkyState SkyKey String) [.invoked (.file ("/workspace/" ++ p)), .postponed (.file ("/workspace/" ++ p)) [.file (parentPath ("/workspace/" ++ p)), .fileState ("/workspace/" ++ p)]] := by
    rw [processKey_none_eq hd2 hfF hrc2]
    simp [dictSet, h1, h2]
  have hrc3 : runCompute (SkyKey.file (parentPath ("/workspace/" ++ p))) (fileCompute (SkyKey.file (parentPath ("/workspace/" ++ p)))) (⟨[(.artifact p, none), (.file ("/workspace/" ++ p), none), (.file (parentPath ("/workspace/" ++ p)), none), (.fileState ("/workspace/" ++ p), none)],
        [(.artifact p, []), (.file ("/workspace/" ++ p), [.artifact p]), (.file (parentPath ("/workspace/" ++ p)), [.file ("/workspace/" ++ p)]), (.fileState ("/workspace/" ++ p), [.file ("/workspace/" ++ p)])],
        [(.artifact p, 1), (.file ("/workspace/" ++ p), 2), (.file (parentPath ("/workspace/" ++ p)), 0), (.fileState ("/workspace/" ++ p), 0)],
        [.artifact p, .file ("/workspace/" ++ p), .file (parentPath ("/workspace/" ++ p)), .fileState ("/workspace/" ++ p)],
        [.fileState ("/workspace/" ++ p)]⟩ : SkyState SkyKey String) ⟨false, []⟩ =
      (none, (⟨[(.artifact p, none), (.file ("/workspace/" ++ p), none), (.file (parentPath ("/workspace/" ++ p)), none), (.fileState ("/workspace/" ++ p), none), (.fileState (parentPath ("/workspace/" ++ p)), none)],
        [(.artifact p, []), (.file ("/workspace/" ++ p), [.artifact p]), (.file (parentPath ("/workspace/" ++ p)), [.file ("/workspace/" ++ p)]), (.fileState ("/workspace/" ++ p), [.file ("/workspace/" ++ p)]), (.fileState (parentPath ("/workspace/" ++ p)), [.file (parentPath ("/workspace/" ++ p))])],
        [(.artifact p, 1), (.file ("/workspace/" ++ p), 2), (.file (parentPath ("/workspace/" ++ p)), 0), (.fileState ("/workspace/" ++ p), 0), (.fileState (parentPath ("/workspace/" ++ p)), 0)],
        [.artifact p, .file ("/workspace/" ++ p), .file (parentPath ("/workspace/" ++ p)), .fileState ("/workspace/" ++ p), .fileState (parentPath ("/workspace/" ++ p))],
        [.fileState ("/workspace/" ++ p), .fileState (parentPath ("/workspace/" ++ p))]⟩ : SkyState SkyKey String), ⟨true, [.fileState (parentPath ("/workspace/" ++ p))]⟩) := by
    rw [hfcpq, runCompute_getValue_eq, g4]
    dsimp only
    rw [runCompute_nodesMissing_eq]
    dsimp only
    rw [if_pos rfl, runCompute_ret_eq]
  have hd3 : isDone (⟨[(.artifact p, none), (.file ("/workspace/" ++ p), none), (.file (parentPath ("/workspace/" ++ p)), none), (.fileState ("/workspace/" ++ p), none)],
        [(.artifact p, []), (.file ("/workspace/" ++ p), [.artifact p]), (.file (parentPath ("/workspace/" ++ p)), [.file ("/workspace/" ++ p)]), (.fileState ("/workspace/" ++ p), [.file ("/workspace/" ++ p)])],
        [(.artifact p, 1), (.file ("/workspace/" ++ p), 2), (.file (parentPath ("/workspace/" ++ p)), 0), (.fileState ("/workspace/" ++ p), 0)],
        [.artifact p, .file ("/workspace/" ++ p), .file (parentPath ("/workspace/" ++ p)), .fileState ("/workspace/" ++ p)],
        [.fileState ("/workspace/" ++ p)]⟩ : SkyState SkyKey String) (SkyKey.file (parentPath ("/workspace/" ++ p))) = false := by
    simp [isDone, dictGet, h1, h2]
  have st3 : processKey typeName demoFns (SkyKey.file (parentPath ("/workspace/" ++ p))) (⟨[(.artifact p, none), (.file ("/workspace/" ++ p), none), (.file (parentPath ("/workspace/" ++ p)), none), (.fileState ("/workspace/" ++ p), none)],
        [(.artifact p, []), (.file ("/workspace/" ++ p), [.artifact p]), (.file (parentPath ("/workspace/" ++ p)), [.file ("/workspace/" ++ p)]), (.fileState ("/workspace/" ++ p), [.file ("/workspace/" ++ p)])],
        [(.artifact p, 1), (.file ("/workspace/" ++ p), 2), (.file (parentPath ("/workspace/" ++ p)), 0), (.fileState ("/workspace/" ++ p), 0)],
        [.artifact p, .file ("/workspace/" ++ p), .file (parentPath ("/workspace/" ++ p)), .fileState ("/workspace/" ++ p)],
        [.fileState ("/workspace/" ++ p)]⟩ : SkyState SkyKey String) =
      .ok (⟨[(.artifact p, none), (.file ("/workspace/" ++ p), none), (.file (parentPath ("/workspace/" ++ p)), none), (.fileState ("/workspace/" ++ p), none), (.fileState (parentPath ("/workspace/" ++ p)), none)],
        [(.artifact p, []), (.file ("/workspace/" ++ p), [.artifact p]), (.file (parentPath ("/workspace/" ++ p)), [.file ("/workspace/" ++ p)]), (.fileState ("/workspace/" ++ p), [.file ("/workspace/" ++ p)]), (.fileState (parentPath ("/workspace/" ++ p)), [.file (parentPath ("/workspace/" ++ p))])],
        [(.artifact p, 1), (.file ("/workspace/" ++ p), 2), (.file (parentPath ("/workspace/" ++ p)), 1), (.fileState ("/workspace/" ++ p), 0), (.fileState (parentPath ("/workspace/" ++ p)), 0)],
        [.artifact p, .file ("/workspace/" ++ p), .file (parentPath ("/workspace/" ++ p)), .fileState ("/workspace/" ++ p), .fileState (parentPath ("/workspace/" ++ p))],
        [.fileState ("/workspace/" ++ p), .fileState (parentPath ("/workspace/" ++ p))]⟩ : SkyState SkyKey String) [.invoked (.file (parentPath ("/workspace/" ++ p))), .postponed (.file (parentPath ("/workspace/" ++ p))) [.fileState (parentPath ("/workspace/" ++ p))]] := by
    rw [processKey_none_eq hd3 hfF hrc3]
    simp [dictSet, h1, h2]
  have hrc4 : runCompute (SkyKey.fileState ("/workspace/" ++ p)) (fileStateCompute (SkyKey.fileState ("/workspace/" ++ p))) (⟨[(.artifact p, none), (.file ("/workspace/" ++ p), none), (.file (parentPath ("/workspace/" ++ p)), none), (.fileState ("/workspace/" ++ p), none), (.fileState (parentPath ("/workspace/" ++ p)), none)],
        [(.artifact p, []), (.file ("/workspace/" ++ p), [.artifact p]), (.file (parentPath ("/workspace/" ++ p)), [.file ("/workspace/" ++ p)]), (.fileState ("/workspace/" ++ p), [.file ("/workspace/" ++ p)]), (.fileState (parentPath ("/workspace/" ++ p)), [.file (parentPath ("/workspace/" ++ p))])],
        [(.artifact p, 1), (.file ("/workspace/" ++ p), 2), (.file (parentPath ("/workspace/" ++ p)), 1), (.fileState ("/workspace/" ++ p), 0), (.fileState (parentPath ("/workspace/" ++ p)), 0)],
        [.artifact p, .file ("/workspace/" ++ p), .file (parentPath ("/workspace/" ++ p)), .fileState ("/workspace/" ++ p), .fileState (parentPath ("/workspace/" ++ p))],
        [.fileState (parentPath ("/workspace/" ++ p))]⟩ : SkyState SkyKey String) ⟨false, []⟩ =
      (some ("content(" ++ ("/workspace/" ++ p) ++ ")"), (⟨[(.artifact p, none), (.file ("/workspace/" ++ p), none), (.file (parentPath ("/workspace/" ++ p)), none), (.fileState ("/workspace/" ++ p), none), (.fileState (parentPath ("/workspace/" ++ p)), none)],
        [(.artifact p, []), (.file ("/workspace/" ++ p), [.artifact p]), (.file (parentPath ("/workspace/" ++ p)), [.file ("/workspace/" ++ p)]), (.fileState ("/workspace/" ++ p), [.file ("/workspace/" ++ p)]), (.fileState (parentPath ("/workspace/" ++ p)), [.file (parentPath ("/workspace/" ++ p))])],
        [(.artifact p, 1), (.file ("/workspace/" ++ p), 2), (.file (parentPath ("/workspace/" ++ p)), 1), (.fileState ("/workspace/" ++ p), 0), (.fileState (parentPath ("/workspace/" ++ p)), 0)],
        [.artifact p, .file ("/workspace/" ++ p), .file (parentPath ("/workspace/" ++ p)), .fileState ("/workspace/" ++ p), .fileState (parentPath ("/workspace/" ++ p))],
        [.fileState (parentPath ("/workspace/" ++ p))]⟩ : SkyState SkyKey String), ⟨false, []⟩) := rfl
  have hd4 : isDone (⟨[(.artifact p, none), (.file ("/workspace/" ++ p), none), (.file (parentPath ("/workspace/" ++ p)), none), (.fileState ("/workspace/" ++ p), none), (.fileState (parentPath ("/workspace/" ++ p)), none)],
        [(.artifact p, []), (.file ("/workspace/" ++ p), [.artifact p]), (.file (parentPath ("/workspace/" ++ p)), [.file ("/workspace/" ++ p)]), (.fileState ("/workspace/" ++ p), [.file ("/workspace/" ++ p)]), (.fileState (parentPath ("/workspace/" ++ p)), [.file (parentPath ("/workspace/" ++ p))])],
        [(.artifact p, 1), (.file ("/workspace/" ++ p), 2), (.file (parentPath ("/workspace/" ++ p)), 1), (.fileState ("/workspace/" ++ p), 0), (.fileState (parentPath ("/workspace/" ++ p)), 0)],
        [.artifact p, .file ("/workspace/" ++ p), .file (parentPath ("/workspace/" ++ p)), .fileState ("/workspace/" ++ p), .fileState (parentPath ("/workspace/" ++ p))],
        [.fileState (parentPath ("/workspace/" ++ p))]⟩ : SkyState SkyKey String) (SkyKey.fileState ("/workspace/" ++ p)) = false := by
    simp [isDone, dictGet, h1, h2]
  have st4 : processKey typeName demoFns (SkyKey.fileState ("/workspace/" ++ p)) (⟨[(.artifact p, none), (.file ("/workspace/" ++ p), none), (.file (parentPath ("/workspace/" ++ p)), none), (.fileState ("/workspace/" ++ p), none), (.fileState (parentPath ("/workspace/" ++ p)), none)],
        [(.artifact p, []), (.file ("/workspace/" ++ p), [.artifact p]), (.file (parentPath ("/workspace/" ++ p)), [.file ("/workspace/" ++ p)]), (.fileState ("/workspace/" ++ p), [.file ("/workspace/" ++ p)]), (.fileState (parentPath ("/workspace/" ++ p)), [.file (parentPath ("/workspace/" ++ p))])],
        [(.artifact p, 1), (.file ("/workspace/" ++ p), 2), (.file (parentPath ("/workspace/" ++ p)), 1), (.fileState ("/workspace/" ++ p), 0), (.fileState (parentPath ("/workspace/" ++ p)), 0)],
        [.artifact p, .file ("/workspace/" ++ p), .file (parentPath ("/workspace/" ++ p)), .fileState ("/workspace/" ++ p), .fileState (parentPath ("/workspace/" ++ p))],
        [.fileState (parentPath ("/workspace/" ++ p))]⟩ : SkyState SkyKey String) =
      .ok (⟨[(.artifact p, none), (.file ("/workspace/" ++ p), none), (.file (parentPath ("/workspace/" ++ p)), none), (.fileState ("/workspace/" ++ p), some ("content(" ++ ("/workspace/" ++ p) ++ ")")), (.fileState (parentPath ("/workspace/" ++ p)), none)],
        [(.artifact p, []), (.file ("/workspace/" ++ p), [.artifact p]), (.file (parentPath ("/workspace/" ++ p)), [.file ("/workspace/" ++ p)]), (.fileState ("/workspace/" ++ p), [.file ("/workspace/" ++ p)]), (.fileState (parentPath ("/workspace/" ++ p)), [.file (parentPath ("/workspace/" ++ p))])],
        [(.artifact p, 1), (.file ("/workspace/" ++ p), 1), (.file (parentPath ("/workspace/" ++ p)), 1), (.fileState ("/workspace/" ++ p), 0), (.fileState (parentPath ("/workspace/" ++ p)), 0)],
        [.artifact p, .file ("/workspace/" ++ p), .file (parentPath ("/workspace/" ++ p)), .fileState (parentPath ("/workspace/" ++ p))],
        [.fileState (parentPath ("/workspace/" ++ p))]⟩ : SkyState SkyKey String) [.invoked (.fileState ("/workspace/" ++ p)), .completed (.fileState ("/workspace/" ++ p)) ("content(" ++ ("/workspace/" ++ p) ++ ")"), .signal (.file ("/workspace/" ++ p)) 1] := by
    rw [processKey_some_eq hd4 hfFS hrc4]
    simp [dictSet, dictGet, signalParents, reverseDepsOf, waitingOf, h1, h2]
  have hrc5 : runCompute (SkyKey.fileState (parentPath ("/workspace/" ++ p))) (fileStateCompute (SkyKey.fileState (parentPath ("/workspace/" ++ p)))) (⟨[(.artifact p, none), (.file ("/workspace/" ++ p), none), (.file (parentPath ("/workspace/" ++ p)), none), (.fileState ("/workspace/" ++ p), some ("content(" ++ ("/workspace/" ++ p) ++ ")")), (.fileState (parentPath ("/workspace/" ++ p)), none)],
        [(.artifact p, []), (.file ("/workspace/" ++ p), [.artifact p]), (.file (parentPath ("/workspace/" ++ p)), [.file ("/workspace/" ++ p)]), (.fileState ("/workspace/" ++ p), [.file ("/workspace/" ++ p)]), (.fileState (parentPath ("/workspace/" ++ p)), [.file (parentPath ("/workspace/" ++ p))])],
        [(.artifact p, 1), (.file ("/workspace/" ++ p), 1), (.file (parentPath ("/workspace/" ++ p)), 1), (.fileState ("/workspace/" ++ p), 0), (.fileState (parentPath ("/workspace/" ++ p)), 0)],
        [.artifact p, .file ("/workspace/" ++ p), .file (parentPath ("/workspace/" ++ p)), .fileState (parentPath ("/workspace/" ++ p))],
        []⟩ : SkyState SkyKey String) ⟨false, []⟩ =
      (some ("content(" ++ parentPath ("/workspace/" ++ p) ++ ")"), (⟨[(.artifact p, none), (.file ("/workspace/" ++ p), none), (.file (parentPath ("/workspace/" ++ p)), none), (.fileState ("/workspace/" ++ p), some ("content(" ++ ("/workspace/" ++ p) ++ ")")), (.fileState (parentPath ("/workspace/" ++ p)), none)],
        [(.artifact p, []), (.file ("/workspace/" ++ p), [.artifact p]), (.file (parentPath ("/workspace/" ++ p)), [.file ("/workspace/" ++ p)]), (.fileState ("/workspace/" ++ p), [.file ("/workspace/" ++ p)]), (.fileState (parentPath ("/workspace/" ++ p)), [.file (parentPath ("/workspace/" ++ p))])],
        [(.artifact p, 1), (.file ("/workspace/" ++ p), 1), (.file (parentPath ("/workspace/" ++ p)), 1), (.fileState ("/workspace/" ++ p), 0), (.fileState (parentPath ("/workspace/" ++ p)), 0)],
        [.artifact p, .file ("/workspace/" ++ p), .file (parentPath ("/workspace/" ++ p)), .fileState (parentPath ("/workspace/" ++ p))],
        []⟩ : SkyState SkyKey String), ⟨false, []⟩) := rfl
  have hd5 : isDone (⟨[(.artifact p, none), (.file ("/workspace/" ++ p), none), (.file (parentPath ("/workspace/" ++ p)), none), (.fileState ("/workspace/" ++ p), some ("content(" ++ ("/workspace/" ++ p) ++ ")")), (.fileState (parentPath ("/workspace/" ++ p)), none)],
        [(.artifact p, []), (.file ("/workspace/" ++ p), [.artifact p]), (.file (parentPath ("/workspace/" ++ p)), [.file ("/workspace/" ++ p)]), (.fileState ("/workspace/" ++ p), [.file ("/workspace/" ++ p)]), (.fileState (parentPath ("/workspace/" ++ p)), [.file (parentPath ("/workspace/" ++ p))])],
        [(.artifact p, 1), (.file ("/workspace/" ++ p), 1), (.file (parentPath ("/workspace/" ++ p)), 1), (.fileState ("/workspace/" ++ p), 0), (.fileState (parentPath ("/workspace/" ++ p)), 0)],
        [.artifact p, .file ("/workspace/" ++ p), .file (parentPath ("/workspace/" ++ p)), .fileState (parentPath ("/workspace/" ++ p))],
        []⟩ : SkyState SkyKey String) (SkyKey.fileState (parentPath ("/workspace/" ++ p))) = false := by
    simp [isDone, dictGet, h1, h2]
  have st5 : processKey typeName demoFns (SkyKey.fileState (parentPath ("/workspace/" ++ p))) (⟨[(.artifact p, none), (.file ("/workspace/" ++ p), none), (.file (parentPath ("/workspace/" ++ p)), none), (.fileState ("/workspace/" ++ p), some ("content(" ++ ("/workspace/" ++ p) ++ ")")), (.fileState (parentPath ("/workspace/" ++ p)), none)],
        [(.artifact p, []), (.file ("/workspace/" ++ p), [.artifact p]), (.file (parentPath ("/workspace/" ++ p)), [.file ("/workspace/" ++ p)]), (.fileState ("/workspace/" ++ p), [.file ("/workspace/" ++ p)]), (.fileState (parentPath ("/workspace/" ++ p)), [.file (parentPath ("/workspace/" ++ p))])],
        [(.artifact p, 1), (.file ("/workspace/" ++ p), 1), (.file (parentPath ("/workspace/" ++ p)), 1), (.fileState ("/workspace/" ++ p), 0), (.fileState (parentPath ("/workspace/" ++ p)), 0)],
        [.artifact p, .file ("/workspace/" ++ p), .file (parentPath ("/workspace/" ++ p)), .fileState (parentPath ("/workspace/" ++ p))],
        []⟩ : SkyState SkyKey String) =
      .ok (⟨[(.artifact p, none), (.file ("/workspace/" ++ p), none), (.file (parentPath ("/workspace/" ++ p)), none), (.fileState ("/workspace/" ++ p), some ("content(" ++ ("/workspace/" ++ p) ++ ")")), (.fileState (parentPath ("/workspace/" ++ p)), some ("content(" ++ parentPath ("/workspace/" ++ p) ++ ")"))],
        [(.artifact p, []), (.file ("/workspace/" ++ p), [.artifact p]), (.file (parentPath ("/workspace/" ++ p)), [.file ("/workspace/" ++ p)]), (.fileState ("/workspace/" ++ p), [.file ("/workspace/" ++ p)]), (.fileState (parentPath ("/workspace/" ++ p)), [.file (parentPath ("/workspace/" ++ p))])],
        [(.artifact p, 1), (.file ("/workspace/" ++ p), 1), (.file (parentPath ("/workspace/" ++ p)), 0), (.fileState ("/workspace/" ++ p), 0), (.fileState (parentPath ("/workspace/" ++ p)), 0)],
        [.artifact p, .file ("/workspace/" ++ p), .file (parentPath ("/workspace/" ++ p))],
        [.file (parentPath ("/workspace/" ++ p))]⟩ : SkyState SkyKey String) [.invoked (.fileState (parentPath ("/workspace/" ++ p))), .completed (.fileState (parentPath ("/workspace/" ++ p))) ("content(" ++ parentPath ("/workspace/" ++ p) ++ ")"), .signal (.file (parentPath ("/workspace/" ++ p))) 0, .reenqueue (.file (parentPath ("/workspace/" ++ p)))] := by
    rw [processKey_some_eq hd5 hfFS hrc5]
    simp [dictSet, dictGet, signalParents, reverseDepsOf, waitingOf, h1, h2]
  have hrc6 : runCompute (SkyKey.file (parentPath ("/workspace/" ++ p))) (fileCompute (SkyKey.file (parentPath ("/workspace/" ++ p)))) (⟨[(.artifact p, none), (.file ("/workspace/" ++ p), none), (.file (parentPath ("/workspace/" ++ p)), none), (.fileState ("/workspace/" ++ p), some ("content(" ++ ("/workspace/" ++ p) ++ ")")), (.fileState (parentPath ("/workspace/" ++ p)), some ("content(" ++ parentPath ("/workspace/" ++ p) ++ ")"))],
        [(.artifact p, []), (.file ("/workspace/" ++ p), [.artifact p]), (.file (parentPath ("/workspace/" ++ p)), [.file ("/workspace/" ++ p)]), (.fileState ("/workspace/" ++ p), [.file ("/workspace/" ++ p)]), (.fileState (parentPath ("/workspace/" ++ p)), [.file (parentPath ("/workspace/" ++ p))])],
        [(.artifact p, 1), (.file ("/workspace/" ++ p), 1), (.file (parentPath ("/workspace/" ++ p)), 0), (.fileState ("/workspace/" ++ p), 0), (.fileState (parentPath ("/workspace/" ++ p)), 0)],
        [.artifact p, .file ("/workspace/" ++ p), .file (parentPath ("/workspace/" ++ p))],
        []⟩ : SkyState SkyKey String) ⟨false, []⟩ =
      (some ("File[" ++ ("content(" ++ parentPath ("/workspace/" ++ p) ++ ")") ++ "]"), (⟨[(.artifact p, none), (.file ("/workspace/" ++ p), none), (.file (parentPath ("/workspace/" ++ p)), none), (.fileState ("/workspace/" ++ p), some ("content(" ++ ("/workspace/" ++ p) ++ ")")), (.fileState (parentPath ("/workspace/" ++ p)), some ("content(" ++ parentPath ("/workspace/" ++ p) ++ ")"))],
        [(.artifact p, []), (.file ("/workspace/" ++ p), [.artifact p]), (.file (parentPath ("/workspace/" ++ p)), [.file ("/workspace/" ++ p)]), (.fileState ("/workspace/" ++ p), [.file ("/workspace/" ++ p)]), (.fileState (parentPath ("/workspace/" ++ p)), [.file (parentPath ("/workspace/" ++ p))])],
        [(.artifact p, 1), (.file ("/workspace/" ++ p), 1), (.file (parentPath ("/workspace/" ++ p)), 0), (.fileState ("/workspace/" ++ p), 0), (.fileState (parentPath ("/workspace/" ++ p)), 0)],
        [.artifact p, .file ("/workspace/" ++ p), .file (parentPath ("/workspace/" ++ p))],
        []⟩ : SkyState SkyKey String), ⟨false, []⟩) := by
    rw [hfcpq, runCompute_getValue_eq, g5]
    dsimp only
    rw [runCompute_nodesMissing_eq]
    dsimp only
    rw [if_neg (by simp), runCompute_ret_eq]
    rfl
  have hd6 : isDone (⟨[(.artifact p, none), (.file ("/workspace/" ++ p), none), (.file (parentPath ("/workspace/" ++ p)), none), (.fileState ("/workspace/" ++ p), some ("content(" ++ ("/workspace/" ++ p) ++ ")")), (.fileState (parentPath ("/workspace/" ++ p)), some ("content(" ++ parentPath ("/workspace/" ++ p) ++ ")"))],
        [(.artifact p, []), (.file ("/workspace/" ++ p), [.artifact p]), (.file (parentPath ("/workspace/" ++ p)), [.file ("/workspace/" ++ p)]), (.fileState ("/workspace/" ++ p), [.file ("/workspace/" ++ p)]), (.fileState (parentPath ("/workspace/" ++ p)), [.file (parentPath ("/workspace/" ++ p))])],
        [(.artifact p, 1), (.file ("/workspace/" ++ p), 1), (.file (parentPath ("/workspace/" ++ p)), 0), (.fileState ("/workspace/" ++ p), 0), (.fileState (parentPath ("/workspace/" ++ p)), 0)],
        [.artifact p, .file ("/workspace/" ++ p), .file (parentPath ("/workspace/" ++ p))],
        []⟩ : SkyState SkyKey String) (SkyKey.file (parentPath ("/workspace/" ++ p))) = false := by
    simp [isDone, dictGet, h1, h2]
  have st6 : processKey typeName demoFns (SkyKey.file (parentPath ("/workspace/" ++ p))) (⟨[(.artifact p, none), (.file ("/workspace/" ++ p), none), (.file (parentPath ("/workspace/" ++ p)), none), (.fileState ("/workspace/" ++ p), some ("content(" ++ ("/workspace/" ++ p) ++ ")")), (.fileState (parentPath ("/workspace/" ++ p)), some ("content(" ++ parentPath ("/workspace/" ++ p) ++ ")"))],
        [(.artifact p, []), (.file ("/workspace/" ++ p), [.artifact p]), (.file (parentPath ("/workspace/" ++ p)), [.file ("/workspace/" ++ p)]), (.fileState ("/workspace/" ++ p), [.file ("/workspace/" ++ p)]), (.fileState (parentPath ("/workspace/" ++ p)), [.file (parentPath ("/workspace/" ++ p))])],
        [(.artifact p, 1), (.file ("/workspace/" ++ p), 1), (.file (parentPath ("/workspace/" ++ p)), 0), (.fileState ("/workspace/" ++ p), 0), (.fileState (parentPath ("/workspace/" ++ p)), 0)],
        [.artifact p, .file ("/workspace/" ++ p), .file (parentPath ("/workspace/" ++ p))],
        []⟩ : SkyState SkyKey String) =
      .ok (⟨[(.artifact p, none), (.file ("/workspace/" ++ p), none), (.file (parentPath ("/workspace/" ++ p)), some ("File[" ++ ("content(" ++ parentPath ("/workspace/" ++ p) ++ ")") ++ "]")), (.fileState ("/workspace/" ++ p), some ("content(" ++ ("/workspace/" ++ p) ++ ")")), (.fileState (parentPath ("/workspace/" ++ p)), some ("content(" ++ parentPath ("/workspace/" ++ p) ++ ")"))],
        [(.artifact p, []), (.file ("/workspace/" ++ p), [.artifact p]), (.file (parentPath ("/workspace/" ++ p)), [.file ("/workspace/" ++ p)]), (.fileState ("/workspace/" ++ p), [.file ("/workspace/" ++ p)]), (.fileState (parentPath ("/workspace/" ++ p)), [.file (parentPath ("/workspace/" ++ p))])],
        [(.artifact p, 1), (.file ("/workspace/" ++ p), 0), (.file (parentPath ("/workspace/" ++ p)), 0), (.fileState ("/workspace/" ++ p), 0), (.fileState (parentPath ("/workspace/" ++ p)), 0)],
        [.artifact p, .file ("/workspace/" ++ p)],
        [.file ("/workspace/" ++ p)]⟩ : SkyState SkyKey String) [.invoked (.file (parentPath ("/workspace/" ++ p))), .completed (.file (parentPath ("/workspace/" ++ p))) ("File[" ++ ("content(" ++ parentPath ("/workspace/" ++ p) ++ ")") ++ "]"), .signal (.file ("/workspace/" ++ p)) 0, .reenqueue (.file ("/workspace/" ++ p))] := by
    rw [processKey_some_eq hd6 hfF hrc6]
    simp [dictSet, dictGet, signalParents, reverseDepsOf, waitingOf, h1, h2]
  have hrc7 : runCompute (SkyKey.file ("/workspace/" ++ p)) (fileCompute (SkyKey.file ("/workspace/" ++ p))) (⟨[(.artifact p, none), (.file ("/workspace/" ++ p), none), (.file (parentPath ("/workspace/" ++ p)), some ("File[" ++ ("content(" ++ parentPath ("/workspace/" ++ p) ++ ")") ++ "]")), (.fileState ("/workspace/" ++ p), some ("content(" ++ ("/workspace/" ++ p) ++ ")")), (.fileState (parentPath ("/workspace/" ++ p)), some ("content(" ++ parentPath ("/workspace/" ++ p) ++ ")"))],
        [(.artifact p, []), (.file ("/workspace/" ++ p), [.artifact p]), (.file (parentPath ("/workspace/" ++ p)), [.file ("/workspace/" ++ p)]), (.fileState ("/workspace/" ++ p), [.file ("/workspace/" ++ p)]), (.fileState (parentPath ("/workspace/" ++ p)), [.file (parentPath ("/workspace/" ++ p))])],
        [(.artifact p, 1), (.file ("/workspace/" ++ p), 0), (.file (parentPath ("/workspace/" ++ p)), 0), (.fileState ("/workspace/" ++ p), 0), (.fileState (parentPath ("/workspace/" ++ p)), 0)],
        [.artifact p, .file ("/workspace/" ++ p)],
        []⟩ : SkyState SkyKey String) ⟨false, []⟩ =
      (some ("File[" ++ ("content(" ++ ("/workspace/" ++ p) ++ ")") ++ "]"), (⟨[(.artifact p, none), (.file ("/workspace/" ++ p), none), (.file (parentPath ("/workspace/" ++ p)), some ("File[" ++ ("content(" ++ parentPath ("/workspace/" ++ p) ++ ")") ++ "]")), (.fileState ("/workspace/" ++ p), some ("content(" ++ ("/workspace/" ++ p) ++ ")")), (.fileState (parentPath ("/workspace/" ++ p)), some ("content(" ++ parentPath ("/workspace/" ++ p) ++ ")"))],
        [(.artifact p, []), (.file ("/workspace/" ++ p), [.artifact p]), (.file (parentPath ("/workspace/" ++ p)), [.file ("/workspace/" ++ p)]), (.fileState ("/workspace/" ++ p), [.file ("/workspace/" ++ p)]), (.fileState (parentPath ("/workspace/" ++ p)), [.file (parentPath ("/workspace/" ++ p))])],
        [(.artifact p, 1), (.file ("/workspace/" ++ p), 0), (.file (parentPath ("/workspace/" ++ p)), 0), (.fileState ("/workspace/" ++ p), 0), (.fileState (parentPath ("/workspace/" ++ p)), 0)],
        [.artifact p, .file ("/workspace/" ++ p)],
        []⟩ : SkyState SkyKey String), ⟨false, []⟩) := by
    rw [hfcq, runCompute_getValue_eq, g6]
    dsimp only
    rw [runCompute_getValue_eq, g7]
    dsimp only
    rw [runCompute_nodesMissing_eq]
    dsimp only
    rw [if_neg (by simp), runCompute_ret_eq]
    rfl
  have hd7 : isDone (⟨[(.artifact p, none), (.file ("/workspace/" ++ p), none), (.file (parentPath ("/workspace/" ++ p)), some ("File[" ++ ("content(" ++ parentPath ("/workspace/" ++ p) ++ ")") ++ "]")), (.fileState ("/workspace/" ++ p), some ("content(" ++ ("/workspace/" ++ p) ++ ")")), (.fileState (parentPath ("/workspace/" ++ p)), some ("content(" ++ parentPath ("/workspace/" ++ p) ++ ")"))],
        [(.artifact p, []), (.file ("/workspace/" ++ p), [.artifact p]), (.file (parentPath ("/workspace/" ++ p)), [.file ("/workspace/" ++ p)]), (.fileState ("/workspace/" ++ p), [.file ("/workspace/" ++ p)]), (.fileState (parentPath ("/workspace/" ++ p)), [.file (parentPath ("/workspace/" ++ p))])],
        [(.artifact p, 1), (.file ("/workspace/" ++ p), 0), (.file (parentPath ("/workspace/" ++ p)), 0), (.fileState ("/workspace/" ++ p), 0), (.fileState (parentPath ("/workspace/" ++ p)), 0)],
        [.artifact p, .file ("/workspace/" ++ p)],
        []⟩ : SkyState SkyKey String) (SkyKey.file ("/workspace/" ++ p)) = false := by
    simp [isDone, dictGet, h1, h2]
  have st7 : processKey typeName demoFns (SkyKey.file ("/workspace/" ++ p)) (⟨[(.artifact p, none), (.file ("/workspace/" ++ p), none), (.file (parentPath ("/workspace/" ++ p)), some ("File[" ++ ("content(" ++ parentPath ("/workspace/" ++ p) ++ ")") ++ "]")), (.fileState ("/workspace/" ++ p), some ("content(" ++ ("/workspace/" ++ p) ++ ")")), (.fileState (parentPath ("/workspace/" ++ p)), some ("content(" ++ parentPath ("/workspace/" ++ p) ++ ")"))],
        [(.artifact p, []), (.file ("/workspace/" ++ p), [.artifact p]), (.file (parentPath ("/workspace/" ++ p)), [.file ("/workspace/" ++ p)]), (.fileState ("/workspace/" ++ p), [.file ("/workspace/" ++ p)]), (.fileState (parentPath ("/workspace/" ++ p)), [.file (parentPath ("/workspace/" ++ p))])],
        [(.artifact p, 1), (.file ("/workspace/" ++ p), 0), (.file (parentPath ("/workspace/" ++ p)), 0), (.fileState ("/workspace/" ++ p), 0), (.fileState (parentPath ("/workspace/" ++ p)), 0)],
        [.artifact p, .file ("/workspace/" ++ p)],
        []⟩ : SkyState SkyKey String) =
      .ok (⟨[(.artifact p, none), (.file ("/workspace/" ++ p), some ("File[" ++ ("content(" ++ ("/workspace/" ++ p) ++ ")") ++ "]")), (.file (parentPath ("/workspace/" ++ p)), some ("File[" ++ ("content(" ++ parentPath ("/workspace/" ++ p) ++ ")") ++ "]")), (.fileState ("/workspace/" ++ p), some ("content(" ++ ("/workspace/" ++ p) ++ ")")), (.fileState (parentPath ("/workspace/" ++ p)), some ("content(" ++ parentPath ("/workspace/" ++ p) ++ ")"))],
        [(.artifact p, []), (.file ("/workspace/" ++ p), [.artifact p]), (.file (parentPath ("/workspace/" ++ p)), [.file ("/workspace/" ++ p)]), (.fileState ("/workspace/" ++ p), [.file ("/workspace/" ++ p)]), (.fileState (parentPath ("/workspace/" ++ p)), [.file (parentPath ("/workspace/" ++ p))])],
        [(.artifact p, 0), (.file ("/workspace/" ++ p), 0), (.file (parentPath ("/workspace/" ++ p)), 0), (.fileState ("/workspace/" ++ p), 0), (.fileState (parentPath ("/workspace/" ++ p)), 0)],
        [.artifact p],
        [.artifact p]⟩ : SkyState SkyKey String) [.invoked (.file ("/workspace/" ++ p)), .completed (.file ("/workspace/" ++ p)) ("File[" ++ ("content(" ++ ("/workspace/" ++ p) ++ ")") ++ "]"), .signal (.artifact p) 0, .reenqueue (.artifact p)] := by
    rw [processKey_some_eq hd7 hfF hrc7]
    simp [dictSet, dictGet, signalParents, reverseDepsOf, waitingOf, h1, h2]
  have hrc8 : runCompute (SkyKey.artifact p) (artifactCompute (SkyKey.artifact p)) (⟨[(.artifact p, none), (.file ("/workspace/" ++ p), some ("File[" ++ ("content(" ++ ("/workspace/" ++ p) ++ ")") ++ "]")), (.file (parentPath ("/workspace/" ++ p)), some ("File[" ++ ("content(" ++ parentPath ("/workspace/" ++ p) ++ ")") ++ "]")), (.fileState ("/workspace/" ++ p), some ("content(" ++ ("/workspace/" ++ p) ++ ")")), (.fileState (parentPath ("/workspace/" ++ p)), some ("content(" ++ parentPath ("/workspace/" ++ p) ++ ")"))],
        [(.artifact p, []), (.file ("/workspace/" ++ p), [.artifact p]), (.file (parentPath ("/workspace/" ++ p)), [.file ("/workspace/" ++ p)]), (.fileState ("/workspace/" ++ p), [.file ("/workspace/" ++ p)]), (.fileState (parentPath ("/workspace/" ++ p)), [.file (parentPath ("/workspace/" ++ p))])],
        [(.artifact p, 0), (.file ("/workspace/" ++ p), 0), (.file (parentPath ("/workspace/" ++ p)), 0), (.fileState ("/workspace/" ++ p), 0), (.fileState (parentPath ("/workspace/" ++ p)), 0)],
        [.artifact p],
        []⟩ : SkyState SkyKey String) ⟨false, []⟩ =
      (some ("Artifact(" ++ ("File[" ++ ("content(" ++ ("/workspace/" ++ p) ++ ")") ++ "]") ++ ")"), (⟨[(.artifact p, none), (.file ("/workspace/" ++ p), some ("File[" ++ ("content(" ++ ("/workspace/" ++ p) ++ ")") ++ "]")), (.file (parentPath ("/workspace/" ++ p)), some ("File[" ++ ("content(" ++ parentPath ("/workspace/" ++ p) ++ ")") ++ "]")), (.fileState ("/workspace/" ++ p), some ("content(" ++ ("/workspace/" ++ p) ++ ")")), (.fileState (parentPath ("/workspace/" ++ p)), some ("content(" ++ parentPath ("/workspace/" ++ p) ++ ")"))],
        [(.artifact p, []), (.file ("/workspace/" ++ p), [.artifact p]), (.file (parentPath ("/workspace/" ++ p)), [.file ("/workspace/" ++ p)]), (.fileState ("/workspace/" ++ p), [.file ("/workspace/" ++ p)]), (.fileState (parentPath ("/workspace/" ++ p)), [.file (parentPath ("/workspace/" ++ p))])],
        [(.artifact p, 0), (.file ("/workspace/" ++ p), 0), (.file (parentPath ("/workspace/" ++ p)), 0), (.fileState ("/workspace/" ++ p), 0), (.fileState (parentPath ("/workspace/" ++ p)), 0)],
        [.artifact p],
        []⟩ : SkyState SkyKey String), ⟨false, []⟩) := by
    rw [hac, runCompute_getValue_eq, g8]
    dsimp only
    rw [runCompute_nodesMissing_eq]
    dsimp only
    rw [if_neg (by simp), runCompute_ret_eq]
    rfl
  have hd8 : isDone (⟨[(.artifact p, none), (.file ("/workspace/" ++ p), some ("File[" ++ ("content(" ++ ("/workspace/" ++ p) ++ ")") ++ "]")), (.file (parentPath ("/workspace/" ++ p)), some ("File[" ++ ("content(" ++ parentPath ("/workspace/" ++ p) ++ ")") ++ "]")), (.fileState ("/workspace/" ++ p), some ("content(" ++ ("/workspace/" ++ p) ++ ")")), (.fileState (parentPath ("/workspace/" ++ p)), some ("content(" ++ parentPath ("/workspace/" ++ p) ++ ")"))],
        [(.artifact p, []), (.file ("/workspace/" ++ p), [.artifact p]), (.file (parentPath ("/workspace/" ++ p)), [.file ("/workspace/" ++ p)]), (.fileState ("/workspace/" ++ p), [.file ("/workspace/" ++ p)]), (.fileState (parentPath ("/workspace/" ++ p)), [.file (parentPath ("/workspace/" ++ p))])],
        [(.artifact p, 0), (.file ("/workspace/" ++ p), 0), (.file (parentPath ("/workspace/" ++ p)), 0), (.fileState ("/workspace/" ++ p), 0), (.fileState (parentPath ("/workspace/" ++ p)), 0)],
        [.artifact p],
        []⟩ : SkyState SkyKey String) (SkyKey.artifact p) = false := by
    simp [isDone, dictGet, h1, h2]
  have st8 : processKey typeName demoFns (SkyKey.artifact p) (⟨[(.artifact p, none), (.file ("/workspace/" ++ p), some ("File[" ++ ("content(" ++ ("/workspace/" ++ p) ++ ")") ++ "]")), (.file (parentPath ("/workspace/" ++ p)), some ("File[" ++ ("content(" ++ parentPath ("/workspace/" ++ p) ++ ")") ++ "]")), (.fileState ("/workspace/" ++ p), some ("content(" ++ ("/workspace/" ++ p) ++ ")")), (.fileState (parentPath ("/workspace/" ++ p)), some ("content(" ++ parentPath ("/workspace/" ++ p) ++ ")"))],
        [(.artifact p, []), (.file ("/workspace/" ++ p), [.artifact p]), (.file (parentPath ("/workspace/" ++ p)), [.file ("/workspace/" ++ p)]), (.fileState ("/workspace/" ++ p), [.file ("/workspace/" ++ p)]), (.fileState (parentPath ("/workspace/" ++ p)), [.file (parentPath ("/workspace/" ++ p))])],
        [(.artifact p, 0), (.file ("/workspace/" ++ p), 0), (.file (parentPath ("/workspace/" ++ p)), 0), (.fileState ("/workspace/" ++ p), 0), (.fileState (parentPath ("/workspace/" ++ p)), 0)],
        [.artifact p],
        []⟩ : SkyState SkyKey String) =
      .ok (⟨[(.artifact p, some ("Artifact(" ++ ("File[" ++ ("content(" ++ ("/workspace/" ++ p) ++ ")") ++ "]") ++ ")")), (.file ("/workspace/" ++ p), some ("File[" ++ ("content(" ++ ("/workspace/" ++ p) ++ ")") ++ "]")), (.file (parentPath ("/workspace/" ++ p)), some ("File[" ++ ("content(" ++ parentPath ("/workspace/" ++ p) ++ ")") ++ "]")), (.fileState ("/workspace/" ++ p), some ("content(" ++ ("/workspace/" ++ p) ++ ")")), (.fileState (parentPath ("/workspace/" ++ p)), some ("content(" ++ parentPath ("/workspace/" ++ p) ++ ")"))],
        [(.artifact p, []), (.file ("/workspace/" ++ p), [.artifact p]), (.file (parentPath ("/workspace/" ++ p)), [.file ("/workspace/" ++ p)]), (.fileState ("/workspace/" ++ p), [.file ("/workspace/" ++ p)]), (.fileState (parentPath ("/workspace/" ++ p)), [.file (parentPath ("/workspace/" ++ p))])],
        [(.artifact p, 0), (.file ("/workspace/" ++ p), 0), (.file (parentPath ("/workspace/" ++ p)), 0), (.fileState ("/workspace/" ++ p), 0), (.fileState (parentPath ("/workspace/" ++ p)), 0)],
        [],
        []⟩ : SkyState SkyKey String) [.invoked (.artifact p), .completed (.artifact p) ("Artifact(" ++ ("File[" ++ ("content(" ++ ("/workspace/" ++ p) ++ ")") ++ "]") ++ ")")] := by
    rw [processKey_some_eq hd8 hfA hrc8]
    simp [dictSet, dictGet, signalParents, reverseDepsOf, waitingOf, h1, h2]
  have he0 : evaluate typeName demoFns 20 (SkyKey.artifact p) =
      run typeName demoFns (19 + 1) (⟨[(.artifact p, none)],
        [(.artifact p, [])],
        [(.artifact p, 0)],
        [.artifact p],
        [.artifact p]⟩ : SkyState SkyKey String) (SkyKey.artifact p) := by
    simp [evaluate, initState, getOrCreate, dictGet, dictSet]
  have hfin : run typeName demoFns 12 (⟨[(.artifact p, some ("Artifact(" ++ ("File[" ++ ("content(" ++ ("/workspace/" ++ p) ++ ")") ++ "]") ++ ")")), (.file ("/workspace/" ++ p), some ("File[" ++ ("content(" ++ ("/workspace/" ++ p) ++ ")") ++ "]")), (.file (parentPath ("/workspace/" ++ p)), some ("File[" ++ ("content(" ++ parentPath ("/workspace/" ++ p) ++ ")") ++ "]")), (.fileState ("/workspace/" ++ p), some ("content(" ++ ("/workspace/" ++ p) ++ ")")), (.fileState (parentPath ("/workspace/" ++ p)), some ("content(" ++ parentPath ("/workspace/" ++ p) ++ ")"))],
        [(.artifact p, []), (.file ("/workspace/" ++ p), [.artifact p]), (.file (parentPath ("/workspace/" ++ p)), [.file ("/workspace/" ++ p)]), (.fileState ("/workspace/" ++ p), [.file ("/workspace/" ++ p)]), (.fileState (parentPath ("/workspace/" ++ p)), [.file (parentPath ("/workspace/" ++ p))])],
        [(.artifact p, 0), (.file ("/workspace/" ++ p), 0), (.file (parentPath ("/workspace/" ++ p)), 0), (.fileState ("/workspace/" ++ p), 0), (.fileState (parentPath ("/workspace/" ++ p)), 0)],
        [],
        []⟩ : SkyState SkyKey String) (SkyKey.artifact p) =
      .halt (⟨[(.artifact p, some ("Artifact(" ++ ("File[" ++ ("content(" ++ ("/workspace/" ++ p) ++ ")") ++ "]") ++ ")")), (.file ("/workspace/" ++ p), some ("File[" ++ ("content(" ++ ("/workspace/" ++ p) ++ ")") ++ "]")), (.file (parentPath ("/workspace/" ++ p)), some ("File[" ++ ("content(" ++ parentPath ("/workspace/" ++ p) ++ ")") ++ "]")), (.fileState ("/workspace/" ++ p), some ("content(" ++ ("/workspace/" ++ p) ++ ")")), (.fileState (parentPath ("/workspace/" ++ p)), some ("content(" ++ parentPath ("/workspace/" ++ p) ++ ")"))],
        [(.artifact p, []), (.file ("/workspace/" ++ p), [.artifact p]), (.file (parentPath ("/workspace/" ++ p)), [.file ("/workspace/" ++ p)]), (.fileState ("/workspace/" ++ p), [.file ("/workspace/" ++ p)]), (.fileState (parentPath ("/workspace/" ++ p)), [.file (parentPath ("/workspace/" ++ p))])],
        [(.artifact p, 0), (.file ("/workspace/" ++ p), 0), (.file (parentPath ("/workspace/" ++ p)), 0), (.fileState ("/workspace/" ++ p), 0), (.fileState (parentPath ("/workspace/" ++ p)), 0)],
        [],
        []⟩ : SkyState SkyKey String) (valueOf (⟨[(.artifact p, some ("Artifact(" ++ ("File[" ++ ("content(" ++ ("/workspace/" ++ p) ++ ")") ++ "]") ++ ")")), (.file ("/workspace/" ++ p), some ("File[" ++ ("content(" ++ ("/workspace/" ++ p) ++ ")") ++ "]")), (.file (parentPath ("/workspace/" ++ p)), some ("File[" ++ ("content(" ++ parentPath ("/workspace/" ++ p) ++ ")") ++ "]")), (.fileState ("/workspace/" ++ p), some ("content(" ++ ("/workspace/" ++ p) ++ ")")), (.fileState (parentPath ("/workspace/" ++ p)), some ("content(" ++ parentPath ("/workspace/" ++ p) ++ ")"))],
        [(.artifact p, []), (.file ("/workspace/" ++ p), [.artifact p]), (.file (parentPath ("/workspace/" ++ p)), [.file ("/workspace/" ++ p)]), (.fileState ("/workspace/" ++ p), [.file ("/workspace/" ++ p)]), (.fileState (parentPath ("/workspace/" ++ p)), [.file (parentPath ("/workspace/" ++ p))])],
        [(.artifact p, 0), (.file ("/workspace/" ++ p), 0), (.file (parentPath ("/workspace/" ++ p)), 0), (.fileState ("/workspace/" ++ p), 0), (.fileState (parentPath ("/workspace/" ++ p)), 0)],
        [],
        []⟩ : SkyState SkyKey String) (SkyKey.artifact p)) [] := run_nil rfl
  rw [he0, run_cons, st1]
  dsimp only
  rw [show (19 : Nat) = 18 + 1 from rfl, run_cons, st2]
  dsimp only
  rw [show (18 : Nat) = 17 + 1 from rfl, run_cons, st3]
  dsimp only
  rw [show (17 : Nat) = 16 + 1 from rfl, run_cons, st4]
  dsimp only
  rw [show (16 : Nat) = 15 + 1 from rfl, run_cons, st5]
  dsimp only
  rw [show (15 : Nat) = 14 + 1 from rfl, run_cons, st6]
  dsimp only
  rw [show (14 : Nat) = 13 + 1 from rfl, run_cons, st7]
  dsimp only
  rw [show (13 : Nat) = 12 + 1 from rfl, run_cons, st8]
  dsimp only
  rw [hfin]
  refine ⟨rfl, rfl, by simp [isDone, dictGet, h1, h2, stateOf, withEvents], ?_, ?_⟩
  · simp [withEvents, stateOf, retOf, valueOf, dictGet, h1, h2]
  · simp [withEvents, retOf, valueOf, dictGet, h1, h2]

set_option maxRecDepth 10000 in
/-- Evaluation of an `ArtifactKey` root with the empty path, settled by
direct kernel computation (the path `"/workspace/" ++ ""` is a directory). -/
theorem evaluate_artifact_empty :
    isHalt (evaluate typeName demoFns 20 (SkyKey.artifact "")) = true ∧
    (stateOf (evaluate typeName demoFns 20 (SkyKey.artifact ""))).queue = [] ∧
    isDone (stateOf (evaluate typeName demoFns 20 (SkyKey.artifact ""))) (SkyKey.artifact "") = true ∧
    retOf (evaluate typeName demoFns 20 (SkyKey.artifact "")) =
      valueOf (stateOf (evaluate typeName demoFns 20 (SkyKey.artifact ""))) (SkyKey.artifact "") ∧
    retOf (evaluate typeName demoFns 20 (SkyKey.artifact "")) =
      some ("Artifact(" ++ ("File[" ++ ("content(" ++ ("/workspace/" ++ "") ++ ")") ++ "]") ++ ")") := by
  refine ⟨by decide, by decide, by decide, by decide, by decide⟩

set_option maxHeartbeats 4000000 in
/-- Evaluation of the collector root (any payload `n`): fifteen loop
iterations through the full demo graph, root DONE, exact value returned. -/
theorem evaluate_nestedSet (n : Nat) :
    isHalt (evaluate typeName demoFns 20 (SkyKey.nestedSet n)) = true ∧
    (stateOf (evaluate typeName demoFns 20 (SkyKey.nestedSet n))).queue = [] ∧
    isDone (stateOf (evaluate typeName demoFns 20 (SkyKey.nestedSet n))) (SkyKey.nestedSet n) = true ∧
    retOf (evaluate typeName demoFns 20 (SkyKey.nestedSet n)) =
      valueOf (stateOf (evaluate typeName demoFns 20 (SkyKey.nestedSet n))) (SkyKey.nestedSet n) ∧
    retOf (evaluate typeName demoFns 20 (SkyKey.nestedSet n)) =
      some ("NestedSet\x7bArtifact(File[content(/workspace/hello.py)]), Artifact(File[content(/workspace/lib.py)])\x7d") := by
  simp [evaluate, run, processKey, runCompute, getOrCreate, dictGet, dictSet,
    getValue, isDone, valueOf, reverseDepsOf, waitingOf, signalParents, typeName, demoFns,
    nestedSetCompute, artifactCompute, fileCompute, fileStateCompute, pathOf, optStr,
    endsSlash, splitSlash, joinSlash, parentPath,
    keyKnown, withEvents, initState, stateOf, evsOf, isHalt, retOf]

end Skyframe

namespace Skyframe

variable {Key Value : Type} [DecidableEq Key]

theorem evaluate_eq_run_seed (kindOf : Key → String)
    (fns : String → Option (Key → FProg Key Value)) (fuel : Nat) (root : Key) :
    evaluate kindOf fns fuel root = run kindOf fns fuel (seedState root) root := rfl

theorem dictGet_isSome_iff {l : List (Key × α)} {k : Key} :
    (dictGet l k).isSome = true ↔ k ∈ l.map Prod.fst := by
  induction l with
  | nil => simp [dictGet]
  | cons p rest ih =>
      obtain ⟨k1, v1⟩ := p
      by_cases h : k = k1 <;> simp [dictGet, h, ih]

theorem keyKnown_iff_mem {s : SkyState Key Value} {d : Key} :
    keyKnown s d = true ↔ d ∈ nodeKeys s := by
  simp [keyKnown, nodeKeys, dictGet_isSome_iff]

theorem dictGet_of_mem_nodup {l : List (Key × α)} {k : Key} {v : α}
    (hnd : (l.map Prod.fst).Nodup) (h : (k, v) ∈ l) : dictGet l k = some v := by
  induction l with
  | nil => simp at h
  | cons p rest ih =>
      obtain ⟨k1, v1⟩ := p
      simp only [List.map_cons, List.nodup_cons] at hnd
      rcases List.mem_cons.mp h with h1 | h1
      · injection h1 with h1a h1b
        subst h1a; subst h1b
        simp [dictGet]
      · have hk : k ≠ k1 := by
          intro he
          subst he
          exact hnd.1 (List.mem_map.mpr ⟨(k, v), h1, rfl⟩)
        simp [dictGet, hk, ih hnd.2 h1]

theorem mem_dictSet {l : List (Key × α)} {k : Key} {v : α} {pr : Key × α}
    (h : pr ∈ dictSet l k v) : pr = (k, v) ∨ pr ∈ l := by
  induction l with
  | nil => simpa [dictSet] using h
  | cons p rest ih =>
      obtain ⟨k1, v1⟩ := p
      by_cases hk : k = k1
      · simp only [dictSet, if_pos hk] at h
        rcases List.mem_cons.mp h with h1 | h1
        · exact Or.inl h1
        · exact Or.inr (List.mem_cons_of_mem _ h1)
      · simp only [dictSet, if_neg hk] at h
        rcases List.mem_cons.mp h with h1 | h1
        · exact Or.inr (by simp [h1])
        · rcases ih h1 with h2 | h2
          · exact Or.inl h2
          · exact Or.inr (List.mem_cons_of_mem _ h2)

theorem dictSet_map_fst {l : List (Key × α)} {k : Key} (v : α)
    (h : k ∈ l.map Prod.fst) : (dictSet l k v).map Prod.fst = l.map Prod.fst := by
  induction l with
  | nil => simp at h
  | cons p rest ih =>
      obtain ⟨k1, v1⟩ := p
      by_cases hk : k = k1
      · simp [dictSet, hk]
      · simp only [List.map_cons, List.mem_cons] at h
        rcases h with h | h
        · exact absurd h hk
        · simp [dictSet, hk, ih h]

theorem filter_length_flip {L : List Key} (q q' : Key → Bool) (k : Key)
    (hnd : L.Nodup) (hk : k ∈ L) (hq : q k = true) (hq' : q' k = false)
    (hagree : ∀ d ∈ L, d ≠ k → q' d = q d) :
    (L.filter q').length + 1 = (L.filter q).length := by
  induction L with
  | nil => simp at hk
  | cons a rest ih =>
      simp only [List.nodup_cons] at hnd
      rcases List.mem_cons.mp hk with h1 | h1
      · subst h1
        have hrest : rest.filter q' = rest.filter q := by
          apply List.filter_congr
          intro d hd
          exact hagree d (List.mem_cons_of_mem _ hd) (fun he => hnd.1 (he ▸ hd))
        simp [List.filter_cons, hq, hq', hrest]
      · have ha : a ≠ k := fun he => hnd.1 (he ▸ h1)
        have hqa : q' a = q a := hagree a (List.mem_cons_self _ _) ha
        have := ih hnd.2 h1 (fun d hd hne => hagree d (List.mem_cons_of_mem _ hd) hne)
        cases hv : q a with
        | true => simp [List.filter_cons, hqa, hv]; omega
        | false => simp [List.filter_cons, hqa, hv]; omega

theorem unfinishedDeps_congr {s s' : SkyState Key Value}
    (hn : s'.nodes = s.nodes) (hr : s'.reverseDeps = s.reverseDeps) (p : Key) :
    unfinishedDeps s' p = unfinishedDeps s p := by
  simp [unfinishedDeps, recordedDeps, reverseDepsOf, isDone, hn, hr]

theorem mem_recordedDeps {s : SkyState Key Value} {p d : Key} :
    d ∈ recordedDeps s p ↔ d ∈ nodeKeys s ∧ p ∈ reverseDepsOf s d := by
  simp [recordedDeps, nodeKeys, List.mem_filter]

theorem unfinished_ne_zero {s : SkyState Key Value} {p d : Key}
    (hd : d ∈ recordedDeps s p) (hnd : isDone s d = false) :
    unfinishedDeps s p ≠ 0 := by
  have : d ∈ (recordedDeps s p).filter (fun d => !isDone s d) :=
    List.mem_filter.mpr ⟨hd, by simp [hnd]⟩
  simp only [unfinishedDeps]
  intro h
  rw [List.length_eq_zero] at h
  rw [h] at this
  simp at this

theorem unfinished_zero_done {s : SkyState Key Value} {p : Key}
    (h : unfinishedDeps s p = 0) {d : Key} (hd : d ∈ recordedDeps s p) :
    isDone s d = true := by
  by_contra hnd
  exact unfinished_ne_zero hd (by simpa using hnd) h

end Skyframe

namespace Skyframe

variable {Key Value : Type} [DecidableEq Key]

theorem inv_parts {s : SkyState Key Value} (h : inv s = true) :
    wf s = true ∧ (nodeKeys s).Nodup ∧ s.queue.Nodup ∧
    (∀ pr ∈ s.reverseDeps, pr.2.Nodup) ∧
    (∀ pv ∈ s.nodes, invKey s pv = true) := by
  simp only [inv, Bool.and_eq_true, decide_eq_true_eq, List.all_eq_true] at h
  obtain ⟨⟨⟨⟨h1, h2⟩, h3⟩, h4⟩, h5⟩ := h
  exact ⟨h1, h2, h3, h4, h5⟩

theorem inv_intro {s : SkyState Key Value}
    (h1 : wf s = true) (h2 : (nodeKeys s).Nodup) (h3 : s.queue.Nodup)
    (h4 : ∀ pr ∈ s.reverseDeps, pr.2.Nodup)
    (h5 : ∀ pv ∈ s.nodes, invKey s pv = true) : inv s = true := by
  simp only [inv, Bool.and_eq_true, decide_eq_true_eq, List.all_eq_true]
  exact ⟨⟨⟨⟨h1, h2⟩, h3⟩, h4⟩, h5⟩

theorem invKey_done_iff {s : SkyState Key Value} {p : Key} {v : Value} :
    invKey s (p, some v) = true ↔
      waitingOf s p = 0 ∧ unfinishedDeps s p = 0 := by
  simp [invKey]

theorem invKey_pending_iff {s : SkyState Key Value} {p : Key} :
    invKey s (p, none) = true ↔
      p ∈ s.inFlight ∧ waitingOf s p = (unfinishedDeps s p : Int) ∧
      (p ∈ s.queue → unfinishedDeps s p = 0) := by
  simp [invKey]
  tauto

theorem inv_done_facts {s : SkyState Key Value} {p : Key} {v : Value}
    (h : inv s = true) (hd : dictGet s.nodes p = some (some v)) :
    waitingOf s p = 0 ∧ unfinishedDeps s p = 0 :=
  invKey_done_iff.mp ((inv_parts h).2.2.2.2 _ (dictGet_some_mem hd))

theorem inv_pending_facts {s : SkyState Key Value} {p : Key}
    (h : inv s = true) (hp : dictGet s.nodes p = some none) :
    p ∈ s.inFlight ∧ waitingOf s p = (unfinishedDeps s p : Int) ∧
    (p ∈ s.queue → unfinishedDeps s p = 0) :=
  invKey_pending_iff.mp ((inv_parts h).2.2.2.2 _ (dictGet_some_mem hp))

theorem inv_rev_nodup {s : SkyState Key Value} (h : inv s = true) (d : Key) :
    (reverseDepsOf s d).Nodup := by
  unfold reverseDepsOf
  cases hg : dictGet s.reverseDeps d with
  | none => simp
  | some l =>
      simpa using (inv_parts h).2.2.2.1 _ (dictGet_some_mem hg)

theorem inv_pop {s : SkyState Key Value} {k : Key} {rest : List Key}
    (h : inv s = true) (hq : s.queue = k :: rest) :
    inv { s with queue := rest } = true := by
  obtain ⟨h1, h2, h3, h4, h5⟩ := inv_parts h
  refine inv_intro (wf_pop h1 hq).1 h2 ?_ h4 ?_
  · rw [hq] at h3
    exact h3.of_cons
  · intro pv hpv
    have := h5 pv hpv
    cases pv with
    | mk p v =>
        cases v with
        | some w =>
            rw [invKey_done_iff] at this ⊢
            have hw : waitingOf { s with queue := rest } p = waitingOf s p := rfl
            have hu : unfinishedDeps { s with queue := rest } p = unfinishedDeps s p :=
              unfinishedDeps_congr rfl rfl p
            rw [hw, hu]
            exact this
        | none =>
            rw [invKey_pending_iff] at this ⊢
            have hu : unfinishedDeps { s with queue := rest } p = unfinishedDeps s p :=
              unfinishedDeps_congr rfl rfl p
            rw [hu]
            refine ⟨this.1, this.2.1, ?_⟩
            intro hmem
            exact this.2.2 (by rw [hq]; exact List.mem_cons_of_mem _ hmem)

theorem StepRel.refl (cur : Key) (s : SkyState Key Value) : StepRel cur s s :=
  ⟨fun _ _ h => h, fun _ => rfl, fun _ => rfl, fun _ _ => rfl⟩

theorem StepRel.trans {cur : Key} {s t u : SkyState Key Value}
    (h1 : StepRel cur s t) (h2 : StepRel cur t u) : StepRel cur s u :=
  ⟨fun p v h => h2.1 p v (h1.1 p v h),
   fun p => (h2.2.1 p).trans (h1.2.1 p),
   fun d => (h2.2.2.1 d).trans (h1.2.2.1 d),
   fun p hp => (h2.2.2.2 p hp).trans (h1.2.2.2 p hp)⟩

theorem runCompute_pure (cur : Key) (prog : FProg Key Value) :
    ∀ (s : SkyState Key Value) (e : EnvData Key) r s' e',
    runCompute cur prog s e = (r, s', e') → e'.missing = false →
    s' = s ∧ e' = e := by
  induction prog with
  | ret r0 =>
      intro s e r s' e' h hm
      simp only [runCompute] at h
      injection h with h1 h2
      injection h2 with h2a h2b
      exact ⟨h2a.symm, h2b.symm⟩
  | nodesMissing k ih =>
      intro s e r s' e' h hm
      simp only [runCompute] at h
      exact ih e.missing s e r s' e' h hm
  | getValue dep k ih =>
      intro s e r s' e' h hm
      rw [runCompute_getValue_eq] at h
      rcases hg : getValue cur dep s e with ⟨v1, s1, e1⟩
      rw [hg] at h
      dsimp only at h
      obtain ⟨hs1, he1⟩ := ih v1 s1 e1 r s' e' h hm
      have hm1 : e1.missing = false := by rw [← he1]; exact hm
      subst hs1
      subst he1
      unfold getValue at hg
      by_cases hd : isDone (getOrCreate s dep) dep = true
      · rw [if_pos hd] at hg
        have hkn : (dictGet s.nodes dep).isSome = true := by
          by_contra hk
          have hoc : getOrCreate s dep =
              { s with nodes := s.nodes ++ [(dep, none)],
                       reverseDeps := dictSet s.reverseDeps dep [],
                       waitingOn := dictSet s.waitingOn dep 0 } := by
            unfold getOrCreate
            rw [if_neg hk]
          rw [hoc] at hd
          unfold isDone at hd
          rw [dictGet_append_right (by simpa using hk), dictGet_single] at hd
          simp at hd
        have hoc : getOrCreate s dep = s := by
          unfold getOrCreate
          rw [if_pos hkn]
        rw [hoc] at hg
        injection hg with hg1 hg2
        injection hg2 with hg2a hg2b
        exact ⟨hg2a.symm, hg2b.symm⟩
      · rw [if_neg hd] at hg
        by_cases hsn : cur ∈ reverseDepsOf (getOrCreate s dep) dep
        · rw [if_pos hsn] at hg
          injection hg with hg1 hg2
          injection hg2 with hg2a hg2b
          rw [← hg2b] at hm1
          simp at hm1
        · rw [if_neg hsn] at hg
          by_cases hf : dep ∈ ({ getOrCreate s dep with reverseDeps := dictSet (getOrCreate s dep).reverseDeps dep (reverseDepsOf (getOrCreate s dep) dep ++ [cur]) } : SkyState Key Value).inFlight
          · rw [if_pos hf] at hg
            injection hg with hg1 hg2
            injection hg2 with hg2a hg2b
            rw [← hg2b] at hm1
            simp at hm1
          · rw [if_neg hf] at hg
            injection hg with hg1 hg2
            injection hg2 with hg2a hg2b
            rw [← hg2b] at hm1
            simp at hm1

end Skyframe

namespace Skyframe

variable {Key Value : Type} [DecidableEq Key]

theorem wf_inFlight_mem {s : SkyState Key Value} {k : Key}
    (hwf : wf s = true) (h : k ∈ s.inFlight) : keyKnown s k = true := by
  simp [wf, List.all_eq_true] at hwf
  exact hwf.1.1.2 k h

theorem dictGet_append_single_ne {l : List (Key × α)} {dep p : Key} {x : α} {v : α}
    (hne : p ≠ dep) (h : dictGet (l ++ [(dep, x)]) p = some v) :
    dictGet l p = some v := by
  cases hg : dictGet l p with
  | some w =>
      rw [dictGet_append_left hg] at h
      injection h with h1
      rw [h1]
  | none =>
      rw [dictGet_append_right hg, dictGet_single] at h
      rw [if_neg hne] at h
      simp at h

theorem recordedDeps_addEdge (s : SkyState Key Value) (dep cur p : Key) (hp : p ≠ cur) :
    recordedDeps
      { s with reverseDeps := dictSet s.reverseDeps dep (reverseDepsOf s dep ++ [cur]) } p =
    recordedDeps s p := by
  unfold recordedDeps
  apply List.filter_congr
  intro d _
  rw [show reverseDepsOf
        { s with reverseDeps := dictSet s.reverseDeps dep (reverseDepsOf s dep ++ [cur]) } d =
      if d = dep then reverseDepsOf s dep ++ [cur] else reverseDepsOf s d from
      reverseDepsOf_set s dep _ d]
  by_cases hdd : d = dep
  · rw [if_pos hdd, hdd, decide_eq_decide]
    simp [hp]
  · rw [if_neg hdd]

theorem unfinishedDeps_addEdge (s : SkyState Key Value) (dep cur p : Key) (hp : p ≠ cur) :
    unfinishedDeps
      { s with reverseDeps := dictSet s.reverseDeps dep (reverseDepsOf s dep ++ [cur]) } p =
    unfinishedDeps s p := by
  unfold unfinishedDeps
  rw [recordedDeps_addEdge s dep cur p hp]
  apply congrArg
  apply List.filter_congr
  intro d _
  rfl

theorem recordedDeps_unknown {s : SkyState Key Value} {dep : Key}
    (hwf : wf s = true) (hk : keyKnown s dep = false) (p : Key) :
    dep ∉ recordedDeps s p ∧ recordedDeps s dep = [] := by
  constructor
  · intro hmem
    rw [mem_recordedDeps] at hmem
    have hkk := keyKnown_iff_mem.mpr hmem.1
    rw [hk] at hkk
    simp at hkk
  · rw [List.eq_nil_iff_forall_not_mem]
    intro d hmem
    rw [mem_recordedDeps] at hmem
    have := (wf_rev_parent hwf hmem.2).1
    rw [hk] at this
    simp at this

end Skyframe

namespace Skyframe

variable {Key Value : Type} [DecidableEq Key]

theorem isDone_fresh {s : SkyState Key Value} {dep : Key}
    (hn : dictGet s.nodes dep = none) (rv : List (Key × List Key))
    (wv : List (Key × Int)) (fl q : List Key) (d : Key) :
    isDone ({ nodes := s.nodes ++ [(dep, none)], reverseDeps := rv,
              waitingOn := wv, inFlight := fl, queue := q } : SkyState Key Value) d =
    isDone s d := by
  unfold isDone
  by_cases hd : d = dep
  · subst hd
    rw [dictGet_append_right hn, dictGet_single, if_pos rfl, hn]
  · cases hg : dictGet s.nodes d with
    | some w => rw [dictGet_append_left hg]
    | none =>
        rw [dictGet_append_right hg, dictGet_single, if_neg hd]

theorem reverseDepsOf_fresh {s : SkyState Key Value} {dep : Key} (cur : Key)
    (hwf : wf s = true) (hk : keyKnown s dep = false)
    (nv : List (Key × Option Value)) (wv : List (Key × Int)) (fl q : List Key) (d : Key) :
    reverseDepsOf ({ nodes := nv, reverseDeps := dictSet s.reverseDeps dep [cur],
                     waitingOn := wv, inFlight := fl, queue := q } : SkyState Key Value) d =
    if d = dep then [cur] else reverseDepsOf s d := by
  show (dictGet (dictSet s.reverseDeps dep [cur]) d).getD [] = _
  rw [dictGet_dictSet]
  split <;> rfl

end Skyframe

namespace Skyframe

variable {Key Value : Type} [DecidableEq Key]

theorem getValue_midInv (cur dep : Key) (s : SkyState Key Value) (e : EnvData Key)
    (h : MidInv cur s e) :
    MidInv cur (getValue cur dep s e).2.1 (getValue cur dep s e).2.2 ∧
    StepRel cur s (getValue cur dep s e).2.1 := by
  obtain ⟨hwf, hndk, hndq, hndr, hcur, hcf, hcq, hper, hnde, hiff⟩ := h
  have hkcur : keyKnown s cur = true := by simp [keyKnown, hcur]
  have hdcur : dep = cur → dictGet s.nodes dep = some none := fun hd => hd ▸ hcur
  by_cases hk : keyKnown s dep = true
  · -- the dependency has a node already
    have hsome : (dictGet s.nodes dep).isSome = true := by simpa [keyKnown] using hk
    cases hw : dictGet s.nodes dep with
    | none => rw [hw] at hsome; simp at hsome
    | some w =>
      cases w with
      | some v =>
          have hdone : isDone s dep = true := by simp [isDone, hw]
          rw [getValue_done_eq cur dep s e hdone]
          exact ⟨⟨hwf, hndk, hndq, hndr, hcur, hcf, hcq, hper, hnde, hiff⟩,
            StepRel.refl cur s⟩
      | none =>
          have hdone : isDone s dep = false := by simp [isDone, hw]
          by_cases hseen : cur ∈ reverseDepsOf s dep
          · rw [getValue_seen_eq cur dep s e hk hdone hseen]
            exact ⟨⟨hwf, hndk, hndq, hndr, hcur, hcf, hcq, hper, hnde, hiff⟩,
              StepRel.refl cur s⟩
          · -- pending, unseen: the dep is necessarily in flight
            have hdf : dep ∈ s.inFlight := by
              by_cases hdc : dep = cur
              · exact hdc ▸ hcf
              · exact (invKey_pending_iff.mp (hper dep none hdc hw)).1
            rw [getValue_pending_inflight cur dep s e hk hdone hseen hdf]
            set s' : SkyState Key Value :=
              { s with reverseDeps := dictSet s.reverseDeps dep (reverseDepsOf s dep ++ [cur]) }
              with hs'
            have hrdnd : (reverseDepsOf s dep).Nodup := by
              unfold reverseDepsOf
              cases hg : dictGet s.reverseDeps dep with
              | none => simp
              | some l => simpa using hndr _ (dictGet_some_mem hg)
            have hrev' : ∀ d, reverseDepsOf s' d =
                if d = dep then reverseDepsOf s dep ++ [cur] else reverseDepsOf s d :=
              fun d => reverseDepsOf_set s dep _ d
            have hunfp : ∀ p, p ≠ cur → unfinishedDeps s' p = unfinishedDeps s p := by
              intro p hp
              rw [hs']
              exact unfinishedDeps_addEdge s dep cur p hp
            have hstep : StepRel cur s s' := by
              refine ⟨fun p v hp => hp, fun p => rfl, fun d => rfl, ?_⟩
              intro p hp
              exact hunfp p hp
            refine ⟨⟨wf_addEdge hwf hk hkcur, hndk, hndq, ?_, hcur, hcf, hcq, ?_, ?_, ?_⟩, hstep⟩
            · intro pr hpr
              rcases mem_dictSet hpr with h1 | h1
              · rw [h1]
                simp only [List.nodup_append, List.nodup_cons, List.nodup_nil]
                exact ⟨hrdnd, by simp, by simpa using hseen⟩
              · exact hndr pr h1
            · intro p v hpne hpv
              have hold := hper p v hpne hpv
              cases v with
              | some w =>
                  rw [invKey_done_iff] at hold ⊢
                  rw [show waitingOf s' p = waitingOf s p from rfl, hunfp p hpne]
                  exact hold
              | none =>
                  rw [invKey_pending_iff] at hold ⊢
                  rw [hunfp p hpne]
                  exact hold
            · simp only [List.nodup_append, List.nodup_cons, List.nodup_nil]
              refine ⟨hnde, by simp, ?_⟩
              intro d hd hd2
              simp at hd2
              rw [hd2] at hd
              exact hseen ((hiff dep).mp hd).2.1
            · intro d
              simp only [List.mem_append, List.mem_singleton]
              rw [hiff d, hrev' d,
                show nodeKeys s' = nodeKeys s from rfl,
                show isDone s' d = isDone s d from rfl]
              by_cases hdd : d = dep
              · rw [if_pos hdd, hdd]
                have hmem : dep ∈ nodeKeys s := keyKnown_iff_mem.mp hk
                simp [hmem, isDone, hw, List.mem_append]
              · rw [if_neg hdd]
                simp [hdd]
  · -- fresh dependency: create, record the edge, enqueue
    have hkf : keyKnown s dep = false := by simpa using hk
    have hn : dictGet s.nodes dep = none := by
      cases hg : dictGet s.nodes dep with
      | none => rfl
      | some w => rw [keyKnown, hg] at hkf; simp at hkf
    have hnm : dep ∉ nodeKeys s := fun hmem => by
      rw [keyKnown_iff_mem.symm] at hmem
      rw [hkf] at hmem
      simp at hmem
    have hnf : dep ∉ s.inFlight := fun hmem => by
      have := wf_inFlight_mem hwf hmem
      rw [hkf] at this
      simp at this
    have hnq : dep ∉ s.queue := fun hmem => by
      have := wf_queue_mem hwf hmem
      rw [hkf] at this
      simp at this
    have hdc : dep ≠ cur := fun hd => by rw [hd, hcur] at hn; simp at hn
    rw [getValue_fresh_enqueue cur dep s e hkf hnf]
    set s' : SkyState Key Value :=
      { s with nodes := s.nodes ++ [(dep, none)],
               reverseDeps := dictSet s.reverseDeps dep [cur],
               waitingOn := dictSet s.waitingOn dep 0,
               inFlight := s.inFlight ++ [dep],
               queue := s.queue ++ [dep] } with hs'
    have hnodes' : ∀ p v, dictGet s.nodes p = some v → dictGet s'.nodes p = some v :=
      fun p v hp => dictGet_append_left hp
    have hdep' : dictGet s'.nodes dep = some none := by
      show dictGet (s.nodes ++ [(dep, none)]) dep = some none
      rw [dictGet_append_right hn, dictGet_single, if_pos rfl]
    have hisdone : ∀ d, isDone s' d = isDone s d := fun d => isDone_fresh hn _ _ _ _ d
    have hrev' : ∀ d, reverseDepsOf s' d = if d = dep then [cur] else reverseDepsOf s d :=
      fun d => reverseDepsOf_fresh cur hwf hkf _ _ _ _ d
    have hnk' : nodeKeys s' = nodeKeys s ++ [dep] := by
      show (s.nodes ++ [(dep, none)]).map Prod.fst = _
      simp [nodeKeys]
    have hwait' : ∀ p, waitingOf s' p = waitingOf s p := by
      intro p
      show (dictGet (dictSet s.waitingOn dep 0) p).getD 0 = (dictGet s.waitingOn p).getD 0
      rw [dictGet_dictSet]
      by_cases hpd : p = dep
      · rw [if_pos hpd, hpd, wf_waiting_none hwf hkf]
        rfl
      · rw [if_neg hpd]
    have hrd' : ∀ p, p ≠ cur → recordedDeps s' p = recordedDeps s p := by
      intro p hp
      unfold recordedDeps
      show ((s.nodes ++ [(dep, none)]).map Prod.fst).filter _ = _
      rw [List.map_append]
      rw [List.filter_append]
      have h2 : (([(dep, none)] : List (Key × Option Value)).map Prod.fst).filter
          (fun d => decide (p ∈ reverseDepsOf s' d)) = [] := by
        simp only [List.map_cons, List.map_nil, List.filter_cons, List.filter_nil]
        rw [hrev' dep]
        simp [hp]
      rw [h2, List.append_nil]
      apply List.filter_congr
      intro d hd
      have hdd : d ≠ dep := fun he => hnm (he ▸ hd)
      rw [hrev' d, if_neg hdd]
    have hunf' : ∀ p, p ≠ cur → unfinishedDeps s' p = unfinishedDeps s p := by
      intro p hp
      unfold unfinishedDeps
      rw [hrd' p hp]
      apply congrArg
      apply List.filter_congr
      intro d _
      rw [hisdone d]
    have hwf' : wf s' = true := by
      have h0 := wf_getOrCreate hwf dep
      have hoc : getOrCreate s dep =
          { s with nodes := s.nodes ++ [(dep, none)],
                   reverseDeps := dictSet s.reverseDeps dep [],
                   waitingOn := dictSet s.waitingOn dep 0 } := by
        unfold getOrCreate
        rw [if_neg (by simpa [keyKnown] using hkf)]
      rw [hoc] at h0
      have hk1 : keyKnown
          { s with nodes := s.nodes ++ [(dep, none)],
                   reverseDeps := dictSet s.reverseDeps dep [],
                   waitingOn := dictSet s.waitingOn dep 0 } dep = true := by
        simp [keyKnown]
        rw [dictGet_append_right hn, dictGet_single, if_pos rfl]
        simp
      have hk2 : keyKnown
          { s with nodes := s.nodes ++ [(dep, none)],
                   reverseDeps := dictSet s.reverseDeps dep [],
                   waitingOn := dictSet s.waitingOn dep 0 } cur = true := by
        simp [keyKnown] at hkcur ⊢
        cases hg : dictGet s.nodes cur with
        | none => rw [hg] at hkcur; simp at hkcur
        | some w => rw [dictGet_append_left hg]; simp
      have h1 := wf_addEdge h0 hk1 hk2
      have hrde : reverseDepsOf
          { s with nodes := s.nodes ++ [(dep, none)],
                   reverseDeps := dictSet s.reverseDeps dep [],
                   waitingOn := dictSet s.waitingOn dep 0 } dep = [] := by
        show (dictGet (dictSet s.reverseDeps dep []) dep).getD [] = []
        rw [dictGet_dictSet, if_pos rfl]
        rfl
      rw [hrde] at h1
      simp only [dictSet_dictSet, List.nil_append] at h1
      have h2 := wf_enqueue h1 (by
        show keyKnown _ dep = true
        simp only [keyKnown]
        show (dictGet (s.nodes ++ [(dep, none)]) dep).isSome = true
        rw [dictGet_append_right hn, dictGet_single, if_pos rfl]
        simp)
      exact h2
    have hstep : StepRel cur s s' := by
      refine ⟨hnodes', hwait', hisdone, hunf'⟩
    refine ⟨⟨hwf', ?_, ?_, ?_, hnodes' cur none hcur, List.mem_append_left _ hcf, ?_, ?_, ?_, ?_⟩,
      hstep⟩
    · rw [hnk']
      simp only [List.nodup_append, List.nodup_cons, List.nodup_nil]
      exact ⟨hndk, by simp, by simpa using hnm⟩
    · show (s.queue ++ [dep]).Nodup
      simp only [List.nodup_append, List.nodup_cons, List.nodup_nil]
      exact ⟨hndq, by simp, by simpa using hnq⟩
    · intro pr hpr
      rcases mem_dictSet hpr with h1 | h1
      · rw [h1]; simp
      · exact hndr pr h1
    · show cur ∉ s.queue ++ [dep]
      simp only [List.mem_append, List.mem_singleton]
      rintro (h1 | h1)
      · exact hcq h1
      · exact hdc h1.symm
    · intro p v hpne hpv
      by_cases hpd : p = dep
      · subst hpd
        rw [hdep'] at hpv
        injection hpv with hpv
        subst hpv
        rw [invKey_pending_iff]
        have hw0 : waitingOf s p = 0 := by
          show (dictGet s.waitingOn p).getD 0 = 0
          rw [wf_waiting_none hwf hkf]
          rfl
        have hu0 : unfinishedDeps s p = 0 := by
          unfold unfinishedDeps
          rw [(recordedDeps_unknown hwf hkf p).2]
          rfl
        refine ⟨List.mem_append_right _ (by simp), ?_, fun _ => ?_⟩
        · rw [hwait' p, hw0, hunf' p hpne, hu0]
          rfl
        · rw [hunf' p hpne]
          exact hu0
      · have hpv0 : dictGet s.nodes p = some v :=
          dictGet_append_single_ne hpd hpv
        have hold := hper p v hpne hpv0
        cases v with
        | some w =>
            rw [invKey_done_iff] at hold ⊢
            rw [hwait' p, hunf' p hpne]
            exact hold
        | none =>
            rw [invKey_pending_iff] at hold ⊢
            rw [hwait' p, hunf' p hpne]
            refine ⟨List.mem_append_left _ hold.1, hold.2.1, ?_⟩
            intro hmem
            rcases List.mem_append.mp hmem with h1 | h1
            · exact hold.2.2 h1
            · simp at h1
              exact absurd h1 hpd
    · simp only [List.nodup_append, List.nodup_cons, List.nodup_nil]
      refine ⟨hnde, by simp, ?_⟩
      intro d hd hd2
      simp at hd2
      rw [hd2] at hd
      exact hnm ((hiff dep).mp hd).1
    · intro d
      simp only [List.mem_append, List.mem_singleton]
      rw [hiff d, hnk', hrev' d, hisdone d]
      by_cases hdd : d = dep
      · subst hdd
        rw [if_pos rfl]
        simp [isDone, hn, hnm]
      · rw [if_neg hdd]
        simp [hdd]

end Skyframe

namespace Skyframe

variable {Key Value : Type} [DecidableEq Key]

theorem runCompute_midInv (cur : Key) (prog : FProg Key Value) :
    ∀ (s : SkyState Key Value) (e : EnvData Key), MidInv cur s e →
    MidInv cur (runCompute cur prog s e).2.1 (runCompute cur prog s e).2.2 ∧
    StepRel cur s (runCompute cur prog s e).2.1 := by
  induction prog with
  | ret r =>
      intro s e h
      exact ⟨h, StepRel.refl cur s⟩
  | nodesMissing k ih =>
      intro s e h
      exact ih e.missing s e h
  | getValue dep k ih =>
      intro s e h
      rw [runCompute_getValue_eq]
      have hmi := getValue_midInv cur dep s e h
      rcases hg : getValue cur dep s e with ⟨v1, s1, e1⟩
      rw [hg] at hmi
      dsimp only at hmi ⊢
      obtain ⟨h1, h2⟩ := hmi
      obtain ⟨h3, h4⟩ := ih v1 s1 e1 h1
      exact ⟨h3, StepRel.trans h2 h4⟩

theorem signalParents_cons_zero (p : Key) (rest : List Key) (u : SkyState Key Value)
    (hw : waitingOf u p - 1 = 0) :
    signalParents (p :: rest) u =
      ((signalParents rest
          { u with waitingOn := dictSet u.waitingOn p (waitingOf u p - 1),
                   queue := u.queue ++ [p] }).1,
       [Event.signal p (waitingOf u p - 1), Event.reenqueue p] ++
       (signalParents rest
          { u with waitingOn := dictSet u.waitingOn p (waitingOf u p - 1),
                   queue := u.queue ++ [p] }).2) := by
  rw [show signalParents (p :: rest) u =
      (match signalParents rest
          (if waitingOf u p - 1 = 0 then
            { u with waitingOn := dictSet u.waitingOn p (waitingOf u p - 1),
                     queue := u.queue ++ [p] }
          else { u with waitingOn := dictSet u.waitingOn p (waitingOf u p - 1) }) with
       | (s3, evs') =>
          (s3, (if waitingOf u p - 1 = 0 then
                  [Event.signal p (waitingOf u p - 1), Event.reenqueue p]
                else [Event.signal p (waitingOf u p - 1)]) ++ evs')) from rfl,
    if_pos hw, if_pos hw]

theorem signalParents_cons_pos (p : Key) (rest : List Key) (u : SkyState Key Value)
    (hw : ¬ (waitingOf u p - 1 = 0)) :
    signalParents (p :: rest) u =
      ((signalParents rest
          { u with waitingOn := dictSet u.waitingOn p (waitingOf u p - 1) }).1,
       [Event.signal p (waitingOf u p - 1)] ++
       (signalParents rest
          { u with waitingOn := dictSet u.waitingOn p (waitingOf u p - 1) }).2) := by
  rw [show signalParents (p :: rest) u =
      (match signalParents rest
          (if waitingOf u p - 1 = 0 then
            { u with waitingOn := dictSet u.waitingOn p (waitingOf u p - 1),
                     queue := u.queue ++ [p] }
          else { u with waitingOn := dictSet u.waitingOn p (waitingOf u p - 1) }) with
       | (s3, evs') =>
          (s3, (if waitingOf u p - 1 = 0 then
                  [Event.signal p (waitingOf u p - 1), Event.reenqueue p]
                else [Event.signal p (waitingOf u p - 1)]) ++ evs')) from rfl,
    if_neg hw, if_neg hw]

theorem signalParents_inv : ∀ (P : List Key) (u : SkyState Key Value),
    wf u = true → (nodeKeys u).Nodup → u.queue.Nodup →
    (∀ pr ∈ u.reverseDeps, pr.2.Nodup) →
    P.Nodup →
    (∀ p ∈ P, dictGet u.nodes p = some none ∧ p ∈ u.inFlight ∧ p ∉ u.queue ∧
        waitingOf u p = (unfinishedDeps u p : Int) + 1) →
    (∀ p v, dictGet u.nodes p = some v → p ∉ P → invKey u (p, v) = true) →
    inv (signalParents P u).1 = true ∧
    (∀ p, Event.reenqueue p ∈ (signalParents P u).2 ↔
        (p ∈ P ∧ unfinishedDeps u p = 0)) := by
  intro P
  induction P with
  | nil =>
      intro u hwf hndk hndq hndr _ _ hper
      constructor
      · refine inv_intro hwf hndk hndq hndr ?_
        intro pv hpv
        obtain ⟨p, v⟩ := pv
        exact hper p v (dictGet_of_mem_nodup hndk hpv) (by simp)
      · intro p
        simp [signalParents]
  | cons p rest ih =>
      intro u hwf hndk hndq hndr hPnd hP hper
      obtain ⟨hpn, hpf, hpq, hpw⟩ := hP p (List.mem_cons_self p rest)
      have hpk : keyKnown u p = true := by simp [keyKnown, hpn]
      simp only [List.nodup_cons] at hPnd
      have hwept : waitingOf u p - 1 = (unfinishedDeps u p : Int) := by
        rw [hpw]; ring
      by_cases hw : waitingOf u p - 1 = 0
      · -- the signaled parent became ready: re-enqueue it
        have hu0 : unfinishedDeps u p = 0 := by
          rw [hwept] at hw
          exact_mod_cast hw
        rw [signalParents_cons_zero p rest u hw]
        set u2 : SkyState Key Value :=
          { u with waitingOn := dictSet u.waitingOn p (waitingOf u p - 1),
                   queue := u.queue ++ [p] } with hu2
        have hnodes2 : u2.nodes = u.nodes := rfl
        have hrev2 : u2.reverseDeps = u.reverseDeps := rfl
        have hunf2 : ∀ q, unfinishedDeps u2 q = unfinishedDeps u q :=
          fun q => unfinishedDeps_congr hnodes2 hrev2 q
        have hwait2 : ∀ q, q ≠ p → waitingOf u2 q = waitingOf u q := by
          intro q hq
          show (dictGet (dictSet u.waitingOn p _) q).getD 0 = _
          rw [dictGet_dictSet, if_neg hq]
          rfl
        have hwait2p : waitingOf u2 p = waitingOf u p - 1 := by
          show (dictGet (dictSet u.waitingOn p _) p).getD 0 = _
          rw [dictGet_dictSet, if_pos rfl]
          rfl
        have hwf2 : wf u2 = true := wf_queueAppend (wf_setWaiting hwf hpk) hpk
        have hih := ih u2 hwf2 hndk (by
            show (u.queue ++ [p]).Nodup
            simp only [List.nodup_append, List.nodup_cons, List.nodup_nil]
            exact ⟨hndq, by simp, by simpa using hpq⟩)
          hndr hPnd.2 (by
            intro q hq
            obtain ⟨hq1, hq2, hq3, hq4⟩ := hP q (List.mem_cons_of_mem _ hq)
            have hqp : q ≠ p := fun he => hPnd.1 (he ▸ hq)
            refine ⟨hq1, hq2, ?_, ?_⟩
            · show q ∉ u.queue ++ [p]
              simp only [List.mem_append, List.mem_singleton]
              rintro (h1 | h1)
              · exact hq3 h1
              · exact hqp h1
            · rw [hwait2 q hqp, hunf2 q]
              exact hq4)
          (by
            intro q v hqv hqrest
            by_cases hqp : q = p
            · subst hqp
              rw [hpn] at hqv
              injection hqv with hqv
              subst hqv
              rw [invKey_pending_iff]
              refine ⟨hpf, ?_, fun _ => ?_⟩
              · rw [hwait2p, hwept, hunf2 q]
              · rw [hunf2 q]
                exact hu0
            · have hold := hper q v hqv (by
                simp only [List.mem_cons]
                rintro (h1 | h1)
                · exact hqp h1
                · exact hqrest h1)
              cases v with
              | some w =>
                  rw [invKey_done_iff] at hold ⊢
                  rw [hwait2 q hqp, hunf2 q]
                  exact hold
              | none =>
                  rw [invKey_pending_iff] at hold ⊢
                  rw [hwait2 q hqp, hunf2 q]
                  refine ⟨hold.1, hold.2.1, ?_⟩
                  intro hmem
                  rcases List.mem_append.mp hmem with h1 | h1
                  · exact hold.2.2 h1
                  · simp at h1
                    exact absurd h1 hqp)
        refine ⟨hih.1, ?_⟩
        intro q
        simp only [List.mem_append, List.mem_cons, List.mem_singleton]
        rw [hih.2 q, hunf2 q]
        by_cases hqp : q = p
        · subst hqp
          simp [hu0, hPnd.1]
        · simp [hqp, Event.reenqueue.injEq]
      · -- the signaled parent still waits on other dependencies
        have hu0 : unfinishedDeps u p ≠ 0 := by
          intro h0
          rw [hwept, h0] at hw
          simp at hw
        rw [signalParents_cons_pos p rest u hw]
        set u2 : SkyState Key Value :=
          { u with waitingOn := dictSet u.waitingOn p (waitingOf u p - 1) } with hu2
        have hnodes2 : u2.nodes = u.nodes := rfl
        have hrev2 : u2.reverseDeps = u.reverseDeps := rfl
        have hunf2 : ∀ q, unfinishedDeps u2 q = unfinishedDeps u q :=
          fun q => unfinishedDeps_congr hnodes2 hrev2 q
        have hwait2 : ∀ q, q ≠ p → waitingOf u2 q = waitingOf u q := by
          intro q hq
          show (dictGet (dictSet u.waitingOn p _) q).getD 0 = _
          rw [dictGet_dictSet, if_neg hq]
          rfl
        have hwait2p : waitingOf u2 p = waitingOf u p - 1 := by
          show (dictGet (dictSet u.waitingOn p _) p).getD 0 = _
          rw [dictGet_dictSet, if_pos rfl]
          rfl
        have hwf2 : wf u2 = true := wf_setWaiting hwf hpk
        have hih := ih u2 hwf2 hndk hndq hndr hPnd.2 (by
            intro q hq
            obtain ⟨hq1, hq2, hq3, hq4⟩ := hP q (List.mem_cons_of_mem _ hq)
            have hqp : q ≠ p := fun he => hPnd.1 (he ▸ hq)
            refine ⟨hq1, hq2, hq3, ?_⟩
            rw [hwait2 q hqp, hunf2 q]
            exact hq4)
          (by
            intro q v hqv hqrest
            by_cases hqp : q = p
            · subst hqp
              rw [hpn] at hqv
              injection hqv with hqv
              subst hqv
              rw [invKey_pending_iff]
              refine ⟨hpf, ?_, fun hmem => ?_⟩
              · rw [hwait2p, hwept, hunf2 q]
              · exact absurd hmem hpq
            · have hold := hper q v hqv (by
                simp only [List.mem_cons]
                rintro (h1 | h1)
                · exact hqp h1
                · exact hqrest h1)
              cases v with
              | some w =>
                  rw [invKey_done_iff] at hold ⊢
                  rw [hwait2 q hqp, hunf2 q]
                  exact hold
              | none =>
                  rw [invKey_pending_iff] at hold ⊢
                  rw [hwait2 q hqp, hunf2 q]
                  exact hold)
        refine ⟨hih.1, ?_⟩
        intro q
        simp only [List.mem_append, List.mem_cons, List.mem_singleton]
        rw [hih.2 q, hunf2 q]
        by_cases hqp : q = p
        · subst hqp
          simp [hu0, hPnd.1]
        · simp [hqp, Event.reenqueue.injEq]

end Skyframe

namespace Skyframe

variable {Key Value : Type} [DecidableEq Key]

theorem stateOf_withEvents (evs : List (Event Key Value)) (r : RunOut Key Value) :
    stateOf (withEvents evs r) = stateOf r := by
  cases r <;> rfl

theorem recordedDeps_markDone {t : SkyState Key Value} {k : Key} (v : Value)
    (hk : k ∈ nodeKeys t) (p : Key) :
    recordedDeps
      { t with nodes := dictSet t.nodes k (some v),
               inFlight := t.inFlight.erase k } p = recordedDeps t p := by
  unfold recordedDeps
  show ((dictSet t.nodes k (some v)).map Prod.fst).filter _ = _
  rw [dictSet_map_fst (some v) hk]
  apply List.filter_congr
  intro d _
  rfl

theorem isDone_markDone {t : SkyState Key Value} {k : Key} (v : Value) (d : Key) :
    isDone { t with nodes := dictSet t.nodes k (some v),
                    inFlight := t.inFlight.erase k } d =
    if d = k then true else isDone t d := by
  unfold isDone
  show (match dictGet (dictSet t.nodes k (some v)) d with
    | some (some _) => true | _ => false) = _
  rw [dictGet_dictSet]
  by_cases hdk : d = k
  · rw [if_pos hdk, if_pos hdk]
  · rw [if_neg hdk, if_neg hdk]

theorem unfinished_markDone {t : SkyState Key Value} {k : Key} (v : Value)
    (hndk : (nodeKeys t).Nodup) (hk : k ∈ nodeKeys t) (hd : isDone t k = false) (p : Key) :
    (p ∈ reverseDepsOf t k →
      unfinishedDeps
        { t with nodes := dictSet t.nodes k (some v),
                 inFlight := t.inFlight.erase k } p + 1 = unfinishedDeps t p) ∧
    (p ∉ reverseDepsOf t k →
      unfinishedDeps
        { t with nodes := dictSet t.nodes k (some v),
                 inFlight := t.inFlight.erase k } p = unfinishedDeps t p) := by
  have hLnd : (recordedDeps t p).Nodup := List.Nodup.filter _ hndk
  constructor
  · intro hmem
    have hkL : k ∈ recordedDeps t p := mem_recordedDeps.mpr ⟨hk, hmem⟩
    unfold unfinishedDeps
    rw [recordedDeps_markDone v hk p]
    refine filter_length_flip _ _ k hLnd hkL (by simp [hd]) ?_ ?_
    · rw [isDone_markDone v k, if_pos rfl]
      simp
    · intro d _ hdk
      rw [isDone_markDone v d, if_neg hdk]
  · intro hmem
    unfold unfinishedDeps
    rw [recordedDeps_markDone v hk p]
    apply congrArg
    apply List.filter_congr
    intro d hdL
    have hdk : d ≠ k := by
      intro he
      subst he
      exact hmem (mem_recordedDeps.mp hdL).2
    rw [isDone_markDone v d, if_neg hdk]

theorem processKey_readiness {kindOf : Key → String}
    {fns : String → Option (Key → FProg Key Value)} (hcomp : Compliant fns)
    {s : SkyState Key Value} {k : Key} {rest : List Key}
    {s' : SkyState Key Value} {evs : List (Event Key Value)}
    (hinv : inv s = true) (hq : s.queue = k :: rest)
    (hok : processKey kindOf fns k { s with queue := rest } = .ok s' evs) :
    inv s' = true ∧
    (∀ p, Event.reenqueue p ∈ evs ↔
        (unfinishedDeps s p ≠ 0 ∧ unfinishedDeps s' p = 0)) := by
  set t : SkyState Key Value := { s with queue := rest } with ht
  have hinvt : inv t = true := inv_pop hinv hq
  obtain ⟨hwft, hndkt, hndqt, hndrt, hpert⟩ := inv_parts hinvt
  have hunfts : ∀ p, unfinishedDeps t p = unfinishedDeps s p := by
    intro p
    rw [ht]
    exact unfinishedDeps_congr rfl rfl p
  have hkmemq : k ∈ s.queue := by rw [hq]; exact List.mem_cons_self k rest
  have hkk : keyKnown s k = true := wf_queue_mem (inv_parts hinv).1 hkmemq
  have hknr : k ∉ rest := by
    have := (inv_parts hinv).2.2.1
    rw [hq] at this
    exact (List.nodup_cons.mp this).1
  by_cases hd : isDone t k = true
  · rw [processKey_done hd] at hok
    injection hok with h1 h2
    subst h1
    subst h2
    refine ⟨hinvt, ?_⟩
    intro p
    simp only [List.mem_singleton]
    constructor
    · intro h1
      simp at h1
    · rintro ⟨h1, h2⟩
      rw [hunfts p] at h2
      exact absurd h2 h1
  · have hdf : isDone t k = false := by simpa using hd
    have hkent : dictGet t.nodes k = some none := by
      have hks : (dictGet t.nodes k).isSome = true := by
        show (dictGet s.nodes k).isSome = true
        simpa [keyKnown] using hkk
      cases hg : dictGet t.nodes k with
      | none => rw [hg] at hks; simp at hks
      | some w =>
          cases w with
          | none => rfl
          | some v =>
              rw [show isDone t k = true from by simp [isDone, hg]] at hdf
              simp at hdf
    have hkents : dictGet s.nodes k = some none := hkent
    have hu0k : unfinishedDeps t k = 0 := by
      rw [hunfts k]
      exact (inv_pending_facts hinv hkents).2.2 hkmemq
    have hw0k : waitingOf t k = 0 := by
      show waitingOf s k = 0
      have := (inv_pending_facts hinv hkents).2.1
      rw [(inv_pending_facts hinv hkents).2.2 hkmemq] at this
      simpa using this
    cases hf : fns (kindOf k) with
    | none =>
        have : processKey kindOf fns k t = .fault k [Event.invoked k] := by
          unfold processKey
          rw [if_neg (by simp [hdf])]
          simp only [hf]
        rw [this] at hok
        simp at hok
    | some f =>
        have hmid0 : MidInv k t ⟨false, []⟩ := by
          refine ⟨hwft, hndkt, hndqt, hndrt, hkent, ?_, ?_, ?_, by simp, ?_⟩
          · exact (inv_pending_facts hinvt hkent).1
          · show k ∉ rest
            exact hknr
          · intro p v hpk hpv
            exact hpert (p, v) (dictGet_some_mem hpv)
          · intro d
            simp only [List.not_mem_nil, false_iff]
            rintro ⟨hd1, hd2, hd3⟩
            exact unfinished_ne_zero (mem_recordedDeps.mpr ⟨hd1, hd2⟩) hd3 hu0k
        rcases hrun : runCompute k (f k) t { missing := false, newDeps := [] } with ⟨r, s2, e2⟩
        have hmidrun := runCompute_midInv k (f k) t ⟨false, []⟩ hmid0
        rw [hrun] at hmidrun
        dsimp only at hmidrun
        obtain ⟨hmid, hstep⟩ := hmidrun
        obtain ⟨hwf2, hndk2, hndq2, hndr2, hkent2, hkf2, hkq2, hper2, hnde2, hiff2⟩ := hmid
        cases r with
        | none =>
            rw [processKey_none_eq hdf hf hrun] at hok
            injection hok with h1 h2
            subst h1
            subst h2
            have hulen : unfinishedDeps s2 k = e2.newDeps.length := by
              have hrdnd2 : (recordedDeps s2 k).Nodup := by
                unfold recordedDeps
                exact hndk2.filter _
              have hLnd : ((recordedDeps s2 k).filter (fun d => !isDone s2 d)).Nodup :=
                hrdnd2.filter _
              have hperm : List.Perm
                  ((recordedDeps s2 k).filter (fun d => !isDone s2 d)) e2.newDeps := by
                rw [List.perm_ext_iff_of_nodup hLnd hnde2]
                intro d
                rw [List.mem_filter, mem_recordedDeps, hiff2 d]
                simp [and_assoc]
              exact hperm.length_eq
            set s3 : SkyState Key Value :=
              { s2 with waitingOn := dictSet s2.waitingOn k (Int.ofNat e2.newDeps.length) }
              with hs3
            have hunf3 : ∀ p, unfinishedDeps s3 p = unfinishedDeps s2 p := by
              intro p
              rw [hs3]
              exact unfinishedDeps_congr rfl rfl p
            have hwait3 : ∀ p, p ≠ k → waitingOf s3 p = waitingOf s2 p := by
              intro p hp
              show (dictGet (dictSet s2.waitingOn k _) p).getD 0 = _
              rw [dictGet_dictSet, if_neg hp]
              rfl
            have hwait3k : waitingOf s3 k = Int.ofNat e2.newDeps.length := by
              show (dictGet (dictSet s2.waitingOn k _) k).getD 0 = _
              rw [dictGet_dictSet, if_pos rfl]
              rfl
            constructor
            · refine inv_intro ?_ hndk2 hndq2 hndr2 ?_
              · exact wf_setWaiting hwf2 (by simp [keyKnown, hkent2])
              · intro pv hpv
                obtain ⟨p, v⟩ := pv
                have hpv' : dictGet s2.nodes p = some v :=
                  dictGet_of_mem_nodup hndk2 hpv
                by_cases hpk : p = k
                · subst hpk
                  rw [hkent2] at hpv'
                  injection hpv' with hv
                  subst hv
                  rw [invKey_pending_iff]
                  refine ⟨hkf2, ?_, fun hmem => absurd hmem hkq2⟩
                  rw [hwait3k, hunf3 p, hulen]
                  rfl
                · have hold := hper2 p v hpk hpv'
                  cases v with
                  | some w =>
                      rw [invKey_done_iff] at hold ⊢
                      rw [hwait3 p hpk, hunf3 p]
                      exact hold
                  | none =>
                      rw [invKey_pending_iff] at hold ⊢
                      rw [hwait3 p hpk, hunf3 p]
                      exact hold
            · intro p
              constructor
              · intro hmem
                simp at hmem
              · rintro ⟨h1, h2⟩
                rw [hunf3 p] at h2
                by_cases hpk : p = k
                · subst hpk
                  rw [hunfts p] at hu0k
                  exact absurd hu0k h1
                · rw [hstep.2.2.2 p hpk, hunfts p] at h2
                  exact absurd h2 h1
        | some v =>
            have hmf : e2.missing = false := hcomp (kindOf k) f hf k t v s2 e2 hrun
            obtain ⟨hs2t, he2⟩ := runCompute_pure k (f k) t ⟨false, []⟩ (some v) s2 e2 hrun hmf
            subst hs2t
            rw [processKey_some_eq hdf hf hrun] at hok
            set s2m : SkyState Key Value :=
              { t with nodes := dictSet t.nodes k (some v),
                       inFlight := t.inFlight.erase k } with hs2m
            have hkmem : k ∈ nodeKeys t := keyKnown_iff_mem.mp (by simp [keyKnown, hkent])
            have hP : reverseDepsOf s2m k = reverseDepsOf t k := rfl
            have hknP : k ∉ reverseDepsOf t k := by
              intro hmem
              exact unfinished_ne_zero (mem_recordedDeps.mpr ⟨hkmem, hmem⟩) hdf hu0k
            have hmark := fun p => unfinished_markDone v hndkt hkmem hdf p
            have hnk2m : nodeKeys s2m = nodeKeys t := by
              show (dictSet t.nodes k (some v)).map Prod.fst = _
              rw [dictSet_map_fst (some v) hkmem]
              rfl
            have hparents : ∀ p ∈ reverseDepsOf t k,
                dictGet s2m.nodes p = some none ∧ p ∈ s2m.inFlight ∧ p ∉ s2m.queue ∧
                waitingOf s2m p = (unfinishedDeps s2m p : Int) + 1 := by
              intro p hmem
              have hpne : p ≠ k := fun he => hknP (he ▸ hmem)
              have hpk : keyKnown t p = true := (wf_rev_parent hwft hmem).1
              have hpks : (dictGet t.nodes p).isSome = true := by simpa [keyKnown] using hpk
              have hrecp : k ∈ recordedDeps t p := mem_recordedDeps.mpr ⟨hkmem, hmem⟩
              have hunfp : unfinishedDeps t p ≠ 0 := unfinished_ne_zero hrecp hdf
              have hpent : dictGet t.nodes p = some none := by
                cases hg : dictGet t.nodes p with
                | none => rw [hg] at hpks; simp at hpks
                | some w =>
                    cases w with
                    | none => rfl
                    | some val =>
                        have := (invKey_done_iff.mp (hpert (p, some val) (dictGet_some_mem hg))).2
                        exact absurd this hunfp
              have hpfacts := invKey_pending_iff.mp (hpert (p, none) (dictGet_some_mem hpent))
              have hpq : p ∉ t.queue := fun hmemq => hunfp (hpfacts.2.2 hmemq)
              refine ⟨?_, ?_, hpq, ?_⟩
              · show dictGet (dictSet t.nodes k (some v)) p = some none
                rw [dictGet_dictSet, if_neg hpne]
                exact hpent
              · exact List.mem_erase_of_ne hpne |>.mpr hpfacts.1
              · have h1 : waitingOf s2m p = waitingOf t p := rfl
                have h2 := (hmark p).1 hmem
                rw [h1, hpfacts.2.1, ← h2]
                push_cast
                ring
            have hPnd : (reverseDepsOf t k).Nodup := inv_rev_nodup hinvt k
            have hother : ∀ p v', dictGet s2m.nodes p = some v' →
                p ∉ reverseDepsOf t k → invKey s2m (p, v') = true := by
              intro p v' hpv hpP
              have hwait : waitingOf s2m p = waitingOf t p := rfl
              have hunfe : unfinishedDeps s2m p = unfinishedDeps t p := (hmark p).2 hpP
              by_cases hpk : p = k
              · subst hpk
                rw [show dictGet s2m.nodes p = some (some v) from by
                  show dictGet (dictSet t.nodes p (some v)) p = some (some v)
                  rw [dictGet_dictSet, if_pos rfl]] at hpv
                injection hpv with hpv
                subst hpv
                rw [invKey_done_iff, hwait, hunfe]
                exact ⟨hw0k, hu0k⟩
              · have hpvt : dictGet t.nodes p = some v' := by
                  rw [show dictGet s2m.nodes p = dictGet t.nodes p from by
                    show dictGet (dictSet t.nodes k (some v)) p = _
                    rw [dictGet_dictSet, if_neg hpk]] at hpv
                  exact hpv
                have hold := hpert (p, v') (dictGet_some_mem hpvt)
                cases v' with
                | some w =>
                    rw [invKey_done_iff] at hold ⊢
                    rw [hwait, hunfe]
                    exact hold
                | none =>
                    rw [invKey_pending_iff] at hold ⊢
                    rw [hwait, hunfe]
                    refine ⟨?_, hold.2.1, hold.2.2⟩
                    exact (List.mem_erase_of_ne hpk).mpr hold.1
            have hsp := signalParents_inv (reverseDepsOf t k) s2m
              (wf_markDone hwft) (by rw [hnk2m]; exact hndkt) hndqt hndrt hPnd
              hparents hother
            have hspec := signalParents_spec (reverseDepsOf t k) s2m
            have hunfsp : ∀ p,
                unfinishedDeps (signalParents (reverseDepsOf t k) s2m).1 p =
                unfinishedDeps s2m p :=
              fun p => unfinishedDeps_congr hspec.1 hspec.2.1 p
            rw [show reverseDepsOf s2m k = reverseDepsOf t k from rfl] at hok
            injection hok with h1 h2
            subst h1
            subst h2
            refine ⟨hsp.1, ?_⟩
            intro p
            simp only [List.mem_append, List.mem_cons, List.mem_singleton]
            rw [hsp.2 p]
            constructor
            · rintro (h1 | h1)
              · simp at h1
              · obtain ⟨hmem, hz⟩ := h1
                have := (hmark p).1 hmem
                constructor
                · rw [← hunfts p, ← this, hz]
                  simp
                · rw [hunfsp p]
                  exact hz
            · rintro ⟨h1, h2⟩
              rw [hunfsp p] at h2
              by_cases hmem : p ∈ reverseDepsOf t k
              · exact Or.inr ⟨hmem, h2⟩
              · rw [(hmark p).2 hmem, hunfts p] at h2
                exact absurd h2 h1

end Skyframe

namespace Skyframe

variable {Key Value : Type} [DecidableEq Key]

theorem inv_seedState (root : Key) :
    inv (seedState root : SkyState Key Value) = true := by
  simp [inv, seedState, initState, getOrCreate, dictGet, wf, keyKnown, nodeKeys,
    invKey, waitingOf, unfinishedDeps, recordedDeps, reverseDepsOf, isDone, dictSet]

theorem run_inv {kindOf : Key → String} {fns : String → Option (Key → FProg Key Value)}
    (hcomp : Compliant fns) :
    ∀ (fuel : Nat) (s : SkyState Key Value) (last : Key), inv s = true →
    inv (stateOf (run kindOf fns fuel s last)) = true := by
  intro fuel
  induction fuel with
  | zero =>
      intro s last h
      cases hq : s.queue with
      | nil => rw [run_nil hq]; exact h
      | cons k rest => rw [run_zero hq]; exact h
  | succ f ihf =>
      intro s last h
      cases hq : s.queue with
      | nil => rw [run_nil hq]; exact h
      | cons k rest =>
          cases hpk : processKey kindOf fns k { s with queue := rest } with
          | ok s2 evs =>
              rw [run_cons_ok hq hpk, stateOf_withEvents]
              exact ihf s2 k (processKey_readiness hcomp h hq hpk).1
          | fault k2 evs =>
              rw [run_cons_fault hq hpk]
              exact inv_pop h hq

theorem fileStateCompute_compliant (k : SkyKey) (s : SkyState SkyKey String)
    (v : String) (s' : SkyState SkyKey String) (e' : EnvData SkyKey)
    (h : runCompute k (fileStateCompute k) s { missing := false, newDeps := [] } =
      (some v, s', e')) : e'.missing = false := by
  simp only [fileStateCompute, runCompute] at h
  injection h with h1 h2
  injection h2 with h2a h2b
  rw [← h2b]

theorem restProg_compliant (k : SkyKey) :
    ∀ (s : SkyState SkyKey String) (e : EnvData SkyKey) (v : String)
      (s' : SkyState SkyKey String) (e' : EnvData SkyKey),
    runCompute k
      (FProg.getValue (SkyKey.fileState (pathOf k)) fun state =>
        FProg.nodesMissing fun m =>
          if m then FProg.ret none
          else FProg.ret (some ("File[" ++ optStr state ++ "]"))) s e =
      (some v, s', e') → e'.missing = false := by
  intro s e v s' e' h
  rw [runCompute_getValue_eq] at h
  rcases hg : getValue k (SkyKey.fileState (pathOf k)) s e with ⟨v1, s1, e1⟩
  rw [hg] at h
  try dsimp only at h
  rw [runCompute_nodesMissing_eq] at h
  try dsimp only at h
  cases hm : e1.missing with
  | true =>
      rw [hm, if_pos rfl, runCompute_ret_eq] at h
      injection h with h1 h2
      simp at h1
  | false =>
      rw [hm, if_neg (by simp), runCompute_ret_eq] at h
      injection h with h1 h2
      injection h2 with h2a h2b
      rw [← h2b]
      exact hm

theorem fileCompute_compliant (k : SkyKey) (s : SkyState SkyKey String)
    (v : String) (s' : SkyState SkyKey String) (e' : EnvData SkyKey)
    (h : runCompute k (fileCompute k) s { missing := false, newDeps := [] } =
      (some v, s', e')) : e'.missing = false := by
  unfold fileCompute at h
  by_cases he : endsSlash (pathOf k) = true
  · rw [if_pos he] at h
    exact restProg_compliant k s _ v s' e' h
  · rw [if_neg he] at h
    rw [runCompute_getValue_eq] at h
    rcases hg : getValue k (SkyKey.file (parentPath (pathOf k))) s
        { missing := false, newDeps := [] } with ⟨v1, s1, e1⟩
    rw [hg] at h
    try dsimp only at h
    exact restProg_compliant k s1 e1 v s' e' h

theorem artifactCompute_compliant (k : SkyKey) (s : SkyState SkyKey String)
    (v : String) (s' : SkyState SkyKey String) (e' : EnvData SkyKey)
    (h : runCompute k (artifactCompute k) s { missing := false, newDeps := [] } =
      (some v, s', e')) : e'.missing = false := by
  unfold artifactCompute at h
  rw [runCompute_getValue_eq] at h
  rcases hg : getValue k (SkyKey.file ("/workspace/" ++ pathOf k)) s
      { missing := false, newDeps := [] } with ⟨v1, s1, e1⟩
  rw [hg] at h
  try dsimp only at h
  rw [runCompute_nodesMissing_eq] at h
  try dsimp only at h
  cases hm : e1.missing with
  | true =>
      rw [hm, if_pos rfl, runCompute_ret_eq] at h
      injection h with h1 h2
      simp at h1
  | false =>
      rw [hm, if_neg (by simp), runCompute_ret_eq] at h
      injection h with h1 h2
      injection h2 with h2a h2b
      rw [← h2b]
      exact hm

theorem nestedSetCompute_compliant (k : SkyKey) (s : SkyState SkyKey String)
    (v : String) (s' : SkyState SkyKey String) (e' : EnvData SkyKey)
    (h : runCompute k (nestedSetCompute k) s { missing := false, newDeps := [] } =
      (some v, s', e')) : e'.missing = false := by
  unfold nestedSetCompute at h
  rw [runCompute_getValue_eq] at h
  rcases hg : getValue k (SkyKey.artifact "hello.py") s
      { missing := false, newDeps := [] } with ⟨v1, s1, e1⟩
  rw [hg] at h
  try dsimp only at h
  rw [runCompute_getValue_eq] at h
  rcases hg2 : getValue k (SkyKey.artifact "lib.py") s1 e1 with ⟨v2, s2, e2⟩
  rw [hg2] at h
  try dsimp only at h
  rw [runCompute_nodesMissing_eq] at h
  try dsimp only at h
  cases hm : e2.missing with
  | true =>
      rw [hm, if_pos rfl, runCompute_ret_eq] at h
      injection h with h1 h2
      simp at h1
  | false =>
      rw [hm, if_neg (by simp), runCompute_ret_eq] at h
      injection h with h1 h2
      injection h2 with h2a h2b
      rw [← h2b]
      exact hm

theorem compliant_demoFns : Compliant demoFns := by
  intro kind f hf k s v s' e' hrun
  simp only [demoFns] at hf
  by_cases h1 : kind = "FileStateKey"
  · rw [if_pos h1] at hf
    injection hf with hf
    subst hf
    exact fileStateCompute_compliant k s v s' e' hrun
  · rw [if_neg h1] at hf
    by_cases h2 : kind = "FileKey"
    · rw [if_pos h2] at hf
      injection hf with hf
      subst hf
      exact fileCompute_compliant k s v s' e' hrun
    · rw [if_neg h2] at hf
      by_cases h3 : kind = "ArtifactKey"
      · rw [if_pos h3] at hf
        injection hf with hf
        subst hf
        exact artifactCompute_compliant k s v s' e' hrun
      · rw [if_neg h3] at hf
        by_cases h4 : kind = "ArtifactNestedSetKey"
        · rw [if_pos h4] at hf
          injection hf with hf
          subst hf
          exact nestedSetCompute_compliant k s v s' e' hrun
        · rw [if_neg h4] at hf
          simp at hf

end Skyframe

namespace Skyframe

variable {Key Value : Type} [DecidableEq Key]

theorem isDone_congr {s s' : SkyState Key Value} (hn : s'.nodes = s.nodes) (d : Key) :
    isDone s' d = isDone s d := by
  unfold isDone
  rw [hn]

theorem getValue_nodes (cur dep : Key) (s : SkyState Key Value) (e : EnvData Key) :
    ((getValue cur dep s e).2.1).nodes = (getOrCreate s dep).nodes := by
  unfold getValue
  dsimp only
  split
  · rfl
  split
  · rfl
  split
  · rfl
  · rfl

theorem runCompute_isDone (cur : Key) (prog : FProg Key Value) :
    ∀ (s : SkyState Key Value) (e : EnvData Key) (d : Key),
    isDone ((runCompute cur prog s e).2.1) d = isDone s d := by
  induction prog with
  | ret r => intro s e d; rfl
  | nodesMissing k ih => intro s e d; exact ih e.missing s e d
  | getValue dep k ih =>
      intro s e d
      rw [runCompute_getValue_eq]
      rcases hg : getValue cur dep s e with ⟨v1, s1, e1⟩
      have hn : s1.nodes = (getOrCreate s dep).nodes := by
        have hgn := getValue_nodes cur dep s e
        rw [hg] at hgn
        exact hgn
      dsimp only
      rw [ih v1 s1 e1 d, isDone_congr hn d, isDone_getOrCreate s dep d]

end Skyframe

namespace Skyframe

variable {Key Value : Type} [DecidableEq Key]

/-- C1: for every root key of this program, evaluation with the registered
function table (whose dependency graphs are finite and acyclic, and whose
functions obey the compute contract) terminates normally with the work
queue drained, the root node DONE, and the root key's own finished value
returned — not the value of any other key. -/
theorem evaluate_total_demo (root : SkyKey) :
    isHalt (evaluate typeName demoFns 20 root) = true ∧
    (stateOf (evaluate typeName demoFns 20 root)).queue = [] ∧
    isDone (stateOf (evaluate typeName demoFns 20 root)) root = true ∧
    retOf (evaluate typeName demoFns 20 root) =
      valueOf (stateOf (evaluate typeName demoFns 20 root)) root := by
  cases root with
  | fileState p =>
      obtain ⟨h1, h2, h3, h4, _⟩ := evaluate_fileState p
      exact ⟨h1, h2, h3, h4⟩
  | file p =>
      by_cases he : endsSlash p = true
      · obtain ⟨h1, h2, h3, h4, _⟩ := evaluate_file_slash p he
        exact ⟨h1, h2, h3, h4⟩
      · obtain ⟨h1, h2, h3, h4, _⟩ := evaluate_file_noslash p (by simpa using he)
        exact ⟨h1, h2, h3, h4⟩
  | artifact p =>
      by_cases hp : p = ""
      · subst hp
        obtain ⟨h1, h2, h3, h4, _⟩ := evaluate_artifact_empty
        exact ⟨h1, h2, h3, h4⟩
      · by_cases he : endsSlash p = true
        · obtain ⟨h1, h2, h3, h4, _⟩ := evaluate_artifact_slash p he
          exact ⟨h1, h2, h3, h4⟩
        · obtain ⟨h1, h2, h3, h4, _⟩ := evaluate_artifact_noslash p (by simpa using he) hp
          exact ⟨h1, h2, h3, h4⟩
  | nestedSet n =>
      obtain ⟨h1, h2, h3, h4, _⟩ := evaluate_nestedSet n
      exact ⟨h1, h2, h3, h4⟩

/-- C2 (counterexample): a first-seen request for an already-DONE dependency
does NOT record the reverse-dependency edge — lines 39-41 return before the
edge-recording block of lines 43-51 is reached.  Here `FILE:a` requests the
DONE node `FILE_STATE:a` for the first time, gets its value, and the
dependency's reverse-dependency set stays empty. -/
theorem getValue_done_records_no_edge_cex :
    getValue (SkyKey.file "a") (SkyKey.fileState "a")
      (⟨[(.fileState "a", some "v")], [(.fileState "a", [])],
        [(.fileState "a", 0)], [], []⟩ : SkyState SkyKey String)
      ⟨false, []⟩ =
      (some "v",
       ⟨[(.fileState "a", some "v")], [(.fileState "a", [])],
        [(.fileState "a", 0)], [], []⟩,
       ⟨false, []⟩) ∧
    SkyKey.file "a" ∉ reverseDepsOf
      ((getValue (SkyKey.file "a") (SkyKey.fileState "a")
        (⟨[(.fileState "a", some "v")], [(.fileState "a", [])],
          [(.fileState "a", 0)], [], []⟩ : SkyState SkyKey String)
        ⟨false, []⟩).2.1) (SkyKey.fileState "a") := by
  constructor
  · decide
  · decide

/-- C2 (amended): a request for an already-DONE dependency returns that
node's value and is a complete no-op on the graph and the environment: no
edge is recorded (not even the first time), nothing is enqueued, and the
`missing`/`_new_deps` bookkeeping is untouched (lines 39-41). -/
theorem getValue_done_amended (cur dep : Key) (s : SkyState Key Value) (e : EnvData Key)
    (hd : isDone s dep = true) :
    getValue cur dep s e = (valueOf s dep, s, e) :=
  getValue_done_eq cur dep s e hd

theorem getValue_done_amended_witness :
    isDone (⟨[(.fileState "a", some "v")], [(.fileState "a", [])],
        [(.fileState "a", 0)], [], []⟩ : SkyState SkyKey String)
      (SkyKey.fileState "a") = true ∧
    getValue (SkyKey.file "a") (SkyKey.fileState "a")
      (⟨[(.fileState "a", some "v")], [(.fileState "a", [])],
        [(.fileState "a", 0)], [], []⟩ : SkyState SkyKey String) ⟨false, []⟩ =
      (valueOf (⟨[(.fileState "a", some "v")], [(.fileState "a", [])],
        [(.fileState "a", 0)], [], []⟩ : SkyState SkyKey String) (SkyKey.fileState "a"),
       ⟨[(.fileState "a", some "v")], [(.fileState "a", [])],
        [(.fileState "a", 0)], [], []⟩,
       ⟨false, []⟩) :=
  ⟨by decide, getValue_done_amended _ _ _ _ (by decide)⟩

/-- C4: memoization.  Dequeuing a DONE key is a safe no-op that does not
invoke `compute` (a cache-hit trace entry only); across any run, DONE
values are never reassigned and DONE keys are never recomputed or
re-completed; every key completes successfully at most once; and every
requester of a DONE dependency observes exactly the stored value. -/
theorem memoization (kindOf : Key → String)
    (fns : String → Option (Key → FProg Key Value)) :
    (∀ (k : Key) (s : SkyState Key Value), isDone s k = true →
        processKey kindOf fns k s = .ok s [Event.cached k]) ∧
    (∀ (fuel : Nat) (s : SkyState Key Value) (last : Key), wf s = true →
        (∀ d v, dictGet s.nodes d = some (some v) →
            dictGet (stateOf (run kindOf fns fuel s last)).nodes d = some (some v)) ∧
        (∀ d, isDone s d = true →
            completedCount (evsOf (run kindOf fns fuel s last)) d = 0 ∧
            invokedCount (evsOf (run kindOf fns fuel s last)) d = 0) ∧
        (∀ d, completedCount (evsOf (run kindOf fns fuel s last)) d ≤ 1)) ∧
    (∀ (cur dep : Key) (s : SkyState Key Value) (e : EnvData Key), isDone s dep = true →
        (getValue cur dep s e).1 = valueOf s dep) := by
  refine ⟨fun k s hd => processKey_done hd, ?_, ?_⟩
  · intro fuel s last hwf
    obtain ⟨_, h2, _, h4, h5, _⟩ := run_spec fuel s last hwf
    exact ⟨h2, h4, h5⟩
  · intro cur dep s e hd
    rw [getValue_done_eq cur dep s e hd]

theorem memoization_witness :
    isDone (⟨[(.fileState "a", some "v")], [(.fileState "a", [])],
        [(.fileState "a", 0)], [], []⟩ : SkyState SkyKey String)
      (SkyKey.fileState "a") = true ∧
    processKey typeName demoFns (SkyKey.fileState "a")
      (⟨[(.fileState "a", some "v")], [(.fileState "a", [])],
        [(.fileState "a", 0)], [], []⟩ : SkyState SkyKey String) =
      .ok (⟨[(.fileState "a", some "v")], [(.fileState "a", [])],
        [(.fileState "a", 0)], [], []⟩ : SkyState SkyKey String)
        [Event.cached (SkyKey.fileState "a")] :=
  ⟨by decide, (memoization typeName demoFns).1 _ _ (by decide)⟩

/-- C5: monotonicity.  Over any run segment, every node's recorded
`reverse_deps` set only gains elements (the final set is the initial set
with a suffix appended), and consequently every recorded direct-dependency
edge persists: the accumulated direct-dependency set never loses members,
including across restarts. -/
theorem deps_monotone (kindOf : Key → String)
    (fns : String → Option (Key → FProg Key Value))
    (fuel : Nat) (s : SkyState Key Value) (last : Key) (hwf : wf s = true) :
    (∀ d, ∃ t, reverseDepsOf (stateOf (run kindOf fns fuel s last)) d =
        reverseDepsOf s d ++ t) ∧
    (∀ p d, d ∈ recordedDeps s p →
        d ∈ recordedDeps (stateOf (run kindOf fns fuel s last)) p) := by
  obtain ⟨_, _, h3, _, _, h6⟩ := run_spec fuel s last hwf
  refine ⟨h3, ?_⟩
  intro p d hd
  rw [mem_recordedDeps] at hd ⊢
  obtain ⟨hd1, hd2⟩ := hd
  constructor
  · rw [← keyKnown_iff_mem] at hd1 ⊢
    exact h6 d hd1
  · obtain ⟨t, ht⟩ := h3 d
    rw [ht]
    exact List.mem_append_left _ hd2

theorem deps_monotone_witness :
    wf (⟨[(.file "a", none), (.fileState "a", none)],
        [(.file "a", []), (.fileState "a", [.file "a"])],
        [(.file "a", 1), (.fileState "a", 0)],
        [.file "a", .fileState "a"], [.fileState "a"]⟩ : SkyState SkyKey String) = true ∧
    SkyKey.fileState "a" ∈ recordedDeps
      (stateOf (run typeName demoFns 3
        (⟨[(.file "a", none), (.fileState "a", none)],
          [(.file "a", []), (.fileState "a", [.file "a"])],
          [(.file "a", 1), (.fileState "a", 0)],
          [.file "a", .fileState "a"], [.fileState "a"]⟩ : SkyState SkyKey String)
        (SkyKey.file "a"))) (SkyKey.file "a") :=
  ⟨by decide,
   (deps_monotone typeName demoFns 3 _ (SkyKey.file "a") (by decide)).2
     (SkyKey.file "a") (SkyKey.fileState "a") (by decide)⟩

/-- C6: the demo evaluation.  Evaluating the nested-set root with the four
registered functions yields exactly the nested-set value over
`hello.py` and `lib.py`, and each of the six distinct `FileState`/`File`
nodes completes successfully exactly once. -/
theorem demo_run_value :
    retOf (evaluate typeName demoFns 20 (SkyKey.nestedSet 2)) =
      some ("NestedSet\x7bArtifact(File[content(/workspace/hello.py)]), Artifact(File[content(/workspace/lib.py)])\x7d") ∧
    completedCount (evsOf (evaluate typeName demoFns 20 (SkyKey.nestedSet 2)))
      (SkyKey.fileState "/workspace/hello.py") = 1 ∧
    completedCount (evsOf (evaluate typeName demoFns 20 (SkyKey.nestedSet 2)))
      (SkyKey.fileState "/workspace/lib.py") = 1 ∧
    completedCount (evsOf (evaluate typeName demoFns 20 (SkyKey.nestedSet 2)))
      (SkyKey.fileState "/workspace/") = 1 ∧
    completedCount (evsOf (evaluate typeName demoFns 20 (SkyKey.nestedSet 2)))
      (SkyKey.file "/workspace/hello.py") = 1 ∧
    completedCount (evsOf (evaluate typeName demoFns 20 (SkyKey.nestedSet 2)))
      (SkyKey.file "/workspace/lib.py") = 1 ∧
    completedCount (evsOf (evaluate typeName demoFns 20 (SkyKey.nestedSet 2)))
      (SkyKey.file "/workspace/") = 1 := by
  refine ⟨by decide, by decide, by decide, by decide, by decide, by decide, by decide⟩

end Skyframe

namespace Skyframe

variable {Key Value : Type} [DecidableEq Key]

/-- C3: readiness is exact and measured live.  The readiness invariant
`inv` — whose core is that every pending node's `waiting_on` counter equals
its current number of unfinished recorded direct dependencies — holds for
the seeded state of every `evaluate` call, is preserved by the whole loop
and by every `ok` iteration, and under it an iteration re-enqueues a node
`p` exactly when the iteration moves `p`'s live count of unfinished
recorded direct dependencies from nonzero to zero, i.e. exactly when the
last currently-recorded unfinished dependency completes — never before,
never missed, and judged against the current dependency set, not a
snapshot. -/
theorem readiness_exact (kindOf : Key → String)
    (fns : String → Option (Key → FProg Key Value)) (hcomp : Compliant fns) :
    (∀ root : Key, inv (seedState root : SkyState Key Value) = true) ∧
    (∀ (fuel : Nat) (s : SkyState Key Value) (last : Key), inv s = true →
        inv (stateOf (run kindOf fns fuel s last)) = true) ∧
    (∀ (s : SkyState Key Value) (k : Key) (rest : List Key)
        (s' : SkyState Key Value) (evs : List (Event Key Value)),
        inv s = true → s.queue = k :: rest →
        processKey kindOf fns k { s with queue := rest } = .ok s' evs →
        inv s' = true ∧
        (∀ p, Event.reenqueue p ∈ evs ↔
            (unfinishedDeps s p ≠ 0 ∧ unfinishedDeps s' p = 0))) :=
  ⟨inv_seedState, run_inv hcomp,
   fun _ _ _ _ _ hi hq hok => processKey_readiness hcomp hi hq hok⟩

theorem readiness_exact_witness :
    inv (seedState (SkyKey.fileState "a") : SkyState SkyKey String) = true ∧
    inv (⟨[(.fileState "a", some "v")], [(.fileState "a", [])],
        [(.fileState "a", 0)], [], []⟩ : SkyState SkyKey String) = true ∧
    (Event.reenqueue (SkyKey.file "b") ∈
        ([Event.cached (SkyKey.fileState "a")] : List (Event SkyKey String)) ↔
      (unfinishedDeps (⟨[(.fileState "a", some "v")], [(.fileState "a", [])],
          [(.fileState "a", 0)], [], [.fileState "a"]⟩ : SkyState SkyKey String)
          (SkyKey.file "b") ≠ 0 ∧
       unfinishedDeps (⟨[(.fileState "a", some "v")], [(.fileState "a", [])],
          [(.fileState "a", 0)], [], []⟩ : SkyState SkyKey String)
          (SkyKey.file "b") = 0)) := by
  have h := readiness_exact typeName demoFns compliant_demoFns
  refine ⟨h.1 (SkyKey.fileState "a"), ?_⟩
  have h2 := h.2.2
    (⟨[(.fileState "a", some "v")], [(.fileState "a", [])],
      [(.fileState "a", 0)], [], [.fileState "a"]⟩ : SkyState SkyKey String)
    (SkyKey.fileState "a") []
    (⟨[(.fileState "a", some "v")], [(.fileState "a", [])],
      [(.fileState "a", 0)], [], []⟩ : SkyState SkyKey String)
    [Event.cached (SkyKey.fileState "a")]
    (by decide) rfl rfl
  exact ⟨h2.1, h2.2 (SkyKey.file "b")⟩

theorem getValue_fresh_inflight (cur dep : Key) (s : SkyState Key Value) (e : EnvData Key)
    (hk : keyKnown s dep = false) (hf : dep ∈ s.inFlight) :
    getValue cur dep s e =
      (none,
       { s with nodes := s.nodes ++ [(dep, none)],
                reverseDeps := dictSet s.reverseDeps dep [cur],
                waitingOn := dictSet s.waitingOn dep 0 },
       { missing := true, newDeps := e.newDeps ++ [dep] }) := by
  have hk' : ¬ (dictGet s.nodes dep).isSome = true := by simpa [keyKnown] using hk
  have hoc : getOrCreate s dep =
      { s with nodes := s.nodes ++ [(dep, none)],
               reverseDeps := dictSet s.reverseDeps dep [],
               waitingOn := dictSet s.waitingOn dep 0 } := by
    unfold getOrCreate
    rw [if_neg hk']
  have hn : dictGet s.nodes dep = none := by
    cases hg : dictGet s.nodes dep with
    | none => rfl
    | some w => rw [hg] at hk'; simp at hk'
  have hd : isDone (getOrCreate s dep) dep = false := by
    rw [hoc]
    show (match dictGet (s.nodes ++ [(dep, none)]) dep with
      | some (some _) => true | _ => false) = false
    rw [dictGet_append_right (by simpa using hk'), dictGet_single]
    simp
  have hrv : reverseDepsOf (getOrCreate s dep) dep = [] := by
    rw [hoc]
    show (dictGet (dictSet s.reverseDeps dep []) dep).getD [] = []
    rw [dictGet_dictSet]
    simp
  rw [hoc] at hd hrv
  unfold getValue
  simp [hoc, hd, hrv, hf, dictSet_dictSet]

/-- C7: within one `Environment` instance, a repeated `get_value` request
for the same dependency after a first one is a complete no-op on the graph
and on the dependency bookkeeping: the state and the environment data are
exactly those after the first call, so no duplicate edge is recorded, the
dependency is not enqueued again, and `_new_deps` gains nothing. -/
theorem getValue_idempotent (cur dep : Key) (s : SkyState Key Value) (e : EnvData Key) :
    getValue cur dep (getValue cur dep s e).2.1 (getValue cur dep s e).2.2 =
      ((getValue cur dep (getValue cur dep s e).2.1 (getValue cur dep s e).2.2).1,
       (getValue cur dep s e).2.1, (getValue cur dep s e).2.2) ∧
    reverseDepsOf
      ((getValue cur dep (getValue cur dep s e).2.1 (getValue cur dep s e).2.2).2.1) dep =
      reverseDepsOf ((getValue cur dep s e).2.1) dep ∧
    ((getValue cur dep (getValue cur dep s e).2.1 (getValue cur dep s e).2.2).2.1).queue =
      ((getValue cur dep s e).2.1).queue ∧
    ((getValue cur dep (getValue cur dep s e).2.1 (getValue cur dep s e).2.2).2.2).newDeps =
      ((getValue cur dep s e).2.2).newDeps := by
  have hmain : getValue cur dep (getValue cur dep s e).2.1 (getValue cur dep s e).2.2 =
      ((getValue cur dep (getValue cur dep s e).2.1 (getValue cur dep s e).2.2).1,
       (getValue cur dep s e).2.1, (getValue cur dep s e).2.2) := by
    by_cases hk : (dictGet s.nodes dep).isSome = true
    · cases hw : dictGet s.nodes dep with
      | none => rw [hw] at hk; simp at hk
      | some w =>
        cases w with
        | some v =>
            have hd : isDone s dep = true := by simp [isDone, hw]
            rw [getValue_done_eq cur dep s e hd]
            dsimp only
            rw [getValue_done_eq cur dep s _ hd]
        | none =>
            have hd : isDone s dep = false := by simp [isDone, hw]
            have hkk : keyKnown s dep = true := by simp [keyKnown, hw]
            by_cases hseen : cur ∈ reverseDepsOf s dep
            · rw [getValue_seen_eq cur dep s e hkk hd hseen]
              dsimp only
              rw [getValue_seen_eq cur dep s _ hkk hd hseen]
            · by_cases hfl : dep ∈ s.inFlight
              · rw [getValue_pending_inflight cur dep s e hkk hd hseen hfl]
                dsimp only
                rw [getValue_seen_eq cur dep _ _ (by simpa [keyKnown] using hkk)
                  (by simpa [isDone] using hd)
                  (by rw [reverseDepsOf_set]; simp)]
              · rw [getValue_pending_enqueue cur dep s e hkk hd hseen hfl]
                dsimp only
                rw [getValue_seen_eq cur dep _ _ (by simpa [keyKnown] using hkk)
                  (by simpa [isDone] using hd)
                  (by
                    show cur ∈ (dictGet (dictSet s.reverseDeps dep
                      (reverseDepsOf s dep ++ [cur])) dep).getD []
                    rw [dictGet_dictSet, if_pos rfl]
                    simp)]
    · have hkf : keyKnown s dep = false := by simpa [keyKnown] using hk
      have hn : dictGet s.nodes dep = none := by
        cases hg : dictGet s.nodes dep with
        | none => rfl
        | some w => rw [hg] at hk; simp at hk
      have hkk1 : ∀ (rv : List (Key × List Key)) (wv : List (Key × Int)) (fl q : List Key),
          keyKnown
            (⟨s.nodes ++ [(dep, none)], rv, wv, fl, q⟩ : SkyState Key Value) dep = true := by
        intro rv wv fl q
        simp only [keyKnown]
        show (dictGet (s.nodes ++ [(dep, none)]) dep).isSome = true
        rw [dictGet_append_right hn, dictGet_single, if_pos rfl]
        rfl
      have hd1 : ∀ (rv : List (Key × List Key)) (wv : List (Key × Int)) (fl q : List Key),
          isDone
            (⟨s.nodes ++ [(dep, none)], rv, wv, fl, q⟩ : SkyState Key Value) dep = false := by
        intro rv wv fl q
        show (match dictGet (s.nodes ++ [(dep, none)]) dep with
          | some (some _) => true | _ => false) = false
        rw [dictGet_append_right hn, dictGet_single, if_pos rfl]
      have hm1 : ∀ (nv : List (Key × Option Value)) (wv : List (Key × Int)) (fl q : List Key),
          cur ∈ reverseDepsOf
            (⟨nv, dictSet s.reverseDeps dep [cur], wv, fl, q⟩ : SkyState Key Value) dep := by
        intro nv wv fl q
        show cur ∈ (dictGet (dictSet s.reverseDeps dep [cur]) dep).getD []
        rw [dictGet_dictSet, if_pos rfl]
        simp
      by_cases hfl : dep ∈ s.inFlight
      · rw [getValue_fresh_inflight cur dep s e hkf hfl]
        dsimp only
        rw [getValue_seen_eq cur dep _ _ (hkk1 _ _ _ _) (hd1 _ _ _ _) (hm1 _ _ _ _)]
      · rw [getValue_fresh_enqueue cur dep s e hkf hfl]
        dsimp only
        rw [getValue_seen_eq cur dep _ _ (hkk1 _ _ _ _) (hd1 _ _ _ _) (hm1 _ _ _ _)]
  exact ⟨hmain, by rw [hmain], by rw [hmain], by rw [hmain]⟩

/-- C8: a `None` result means notFinished, never a finished value.
Done-ness is exactly "the stored value is not `None`"; a pending or absent
node's readable value is `None`; and an iteration whose `compute` returns
`None` leaves the node un-DONE, signals no parent, re-enqueues nothing,
and records no completion — so a `None` can never be memoized or surfaced
as a DONE result. -/
theorem none_not_finished (kindOf : Key → String)
    (fns : String → Option (Key → FProg Key Value)) :
    (∀ (s : SkyState Key Value) (k : Key),
        isDone s k = true ↔ ∃ v, dictGet s.nodes k = some (some v)) ∧
    (∀ (s : SkyState Key Value) (k : Key), isDone s k = false → valueOf s k = none) ∧
    (∀ (k : Key) (s s' : SkyState Key Value) (evs : List (Event Key Value))
        (f : Key → FProg Key Value),
        isDone s k = false → fns (kindOf k) = some f →
        (runCompute k (f k) s { missing := false, newDeps := [] }).1 = none →
        processKey kindOf fns k s = .ok s' evs →
        isDone s' k = false ∧ completedCount evs k = 0 ∧
        (∀ p w, Event.signal p w ∉ evs) ∧ (∀ p, Event.reenqueue p ∉ evs)) := by
  refine ⟨?_, ?_, ?_⟩
  · intro s k
    unfold isDone
    cases hg : dictGet s.nodes k with
    | none => simp
    | some w =>
        cases w with
        | none => simp
        | some v => simp
  · intro s k hd
    unfold isDone at hd
    unfold valueOf
    cases hg : dictGet s.nodes k with
    | none => rfl
    | some w =>
        cases w with
        | none => rfl
        | some v => rw [hg] at hd; simp at hd
  · intro k s s' evs f hd hf hr hok
    rcases hrun : runCompute k (f k) s { missing := false, newDeps := [] } with ⟨r, s2, e2⟩
    rw [hrun] at hr
    dsimp only at hr
    subst hr
    rw [processKey_none_eq hd hf hrun] at hok
    injection hok with h1 h2
    subst h1
    subst h2
    refine ⟨?_, by simp [completedCount], ?_, ?_⟩
    · have h3 : isDone { s2 with
          waitingOn := dictSet s2.waitingOn k (Int.ofNat e2.newDeps.length) } k =
          isDone s2 k := isDone_congr rfl k
      have h4 := runCompute_isDone k (f k) s { missing := false, newDeps := [] } k
      rw [hrun] at h4
      dsimp only at h4
      rw [h3, h4]
      exact hd
    · intro p w
      simp
    · intro p
      simp

theorem none_not_finished_witness :
    isDone (⟨[(.file "a", none)], [(.file "a", [])], [(.file "a", 0)],
        [.file "a"], []⟩ : SkyState SkyKey String) (SkyKey.file "a") = false ∧
    isDone (⟨[(.file "a", none), (.file "/", none), (.fileState "a", none)],
        [(.file "a", []), (.file "/", [.file "a"]), (.fileState "a", [.file "a"])],
        [(.file "a", 2), (.file "/", 0), (.fileState "a", 0)],
        [.file "a", .file "/", .fileState "a"],
        [.file "/", .fileState "a"]⟩ : SkyState SkyKey String) (SkyKey.file "a") = false ∧
    completedCount
      ([Event.invoked (SkyKey.file "a"),
        Event.postponed (SkyKey.file "a") [SkyKey.file "/", SkyKey.fileState "a"]] :
        List (Event SkyKey String)) (SkyKey.file "a") = 0 := by
  have h := (none_not_finished typeName demoFns).2.2 (SkyKey.file "a")
    (⟨[(.file "a", none)], [(.file "a", [])], [(.file "a", 0)],
      [.file "a"], []⟩ : SkyState SkyKey String)
    (⟨[(.file "a", none), (.file "/", none), (.fileState "a", none)],
      [(.file "a", []), (.file "/", [.file "a"]), (.fileState "a", [.file "a"])],
      [(.file "a", 2), (.file "/", 0), (.fileState "a", 0)],
      [.file "a", .file "/", .fileState "a"],
      [.file "/", .fileState "a"]⟩ : SkyState SkyKey String)
    [Event.invoked (SkyKey.file "a"),
     Event.postponed (SkyKey.file "a") [SkyKey.file "/", SkyKey.fileState "a"]]
    fileCompute (by decide) rfl (by decide) rfl
  exact ⟨by decide, h.1, h.2.1⟩

/-- C9: an unregistered key kind is fatal and immediate.  If the dequeued
key's discriminant has no registered function, the loop aborts at once with
that fault: the trace of the step is the single invocation entry, no node
is marked DONE (the graph's nodes are untouched), no value is returned,
and no further queue entries are processed. -/
theorem unregistered_kind_fault (kindOf : Key → String)
    (fns : String → Option (Key → FProg Key Value)) (fuel : Nat)
    (s : SkyState Key Value) (last k : Key) (rest : List Key)
    (hq : s.queue = k :: rest) (hd : isDone s k = false)
    (hf : fns (kindOf k) = none) :
    run kindOf fns (fuel + 1) s last =
      .fault k { s with queue := rest } [Event.invoked k] ∧
    retOf (run kindOf fns (fuel + 1) s last) = none ∧
    (stateOf (run kindOf fns (fuel + 1) s last)).nodes = s.nodes ∧
    evsOf (run kindOf fns (fuel + 1) s last) = [Event.invoked k] := by
  have hd' : isDone { s with queue := rest } k = false := hd
  have hpk : processKey kindOf fns k { s with queue := rest } =
      .fault k [Event.invoked k] := by
    unfold processKey
    rw [if_neg (by simp [hd']), hf]
  rw [run_cons_fault hq hpk]
  exact ⟨rfl, rfl, rfl, rfl⟩

theorem unregistered_kind_fault_witness :
    run typeName (fun _ => (none : Option (SkyKey → FProg SkyKey String))) 1
      (⟨[(.file "a", none)], [(.file "a", [])], [(.file "a", 0)],
        [.file "a"], [.file "a"]⟩ : SkyState SkyKey String) (SkyKey.file "a") =
      .fault (SkyKey.file "a")
        (⟨[(.file "a", none)], [(.file "a", [])], [(.file "a", 0)],
          [.file "a"], []⟩ : SkyState SkyKey String)
        [Event.invoked (SkyKey.file "a")] :=
  (unregistered_kind_fault typeName (fun _ => none) 0 _ (SkyKey.file "a")
    (SkyKey.file "a") [] rfl (by decide) rfl).1

/-- C10: determinism.  `evaluate` is a pure function of the registration
table, the root and the fuel, and its halting outcome is independent of the
fuel: any two runs from fresh graphs with the same root and the same
functions that both drain their queues produce the same final state, the
same trace, and the same returned value. -/
theorem evaluate_deterministic (kindOf : Key → String)
    (fns : String → Option (Key → FProg Key Value)) (fuel1 fuel2 : Nat) (root : Key)
    (s1 s2 : SkyState Key Value) (r1 r2 : Option Value)
    (evs1 evs2 : List (Event Key Value))
    (h1 : evaluate kindOf fns fuel1 root = .halt s1 r1 evs1)
    (h2 : evaluate kindOf fns fuel2 root = .halt s2 r2 evs2) :
    r1 = r2 ∧ s1 = s2 ∧ evs1 = evs2 := by
  rw [evaluate_eq_run_seed] at h1 h2
  rcases Nat.le_total fuel1 fuel2 with hle | hle
  · have h3 := run_mono fuel1 fuel2 hle (seedState root) root s1 r1 evs1 h1
    rw [h3] at h2
    injection h2 with ha hb hc
    exact ⟨hb, ha, hc⟩
  · have h3 := run_mono fuel2 fuel1 hle (seedState root) root s2 r2 evs2 h2
    rw [h3] at h1
    injection h1 with ha hb hc
    exact ⟨hb.symm, ha.symm, hc.symm⟩

theorem evaluate_deterministic_witness :
    evaluate typeName demoFns 2 (SkyKey.fileState "a") =
      .halt (⟨[(.fileState "a", some ("content(" ++ "a" ++ ")"))],
          [(.fileState "a", [])], [(.fileState "a", 0)], [], []⟩ : SkyState SkyKey String)
        (some ("content(" ++ "a" ++ ")"))
        [Event.invoked (SkyKey.fileState "a"),
         Event.completed (SkyKey.fileState "a") ("content(" ++ "a" ++ ")")] ∧
    evaluate typeName demoFns 3 (SkyKey.fileState "a") =
      .halt (⟨[(.fileState "a", some ("content(" ++ "a" ++ ")"))],
          [(.fileState "a", [])], [(.fileState "a", 0)], [], []⟩ : SkyState SkyKey String)
        (some ("content(" ++ "a" ++ ")"))
        [Event.invoked (SkyKey.fileState "a"),
         Event.completed (SkyKey.fileState "a") ("content(" ++ "a" ++ ")")] ∧
    (some ("content(" ++ "a" ++ ")") : Option String) = some ("content(" ++ "a" ++ ")") := by
  have h1 : evaluate typeName demoFns 2 (SkyKey.fileState "a") =
      .halt (⟨[(.fileState "a", some ("content(" ++ "a" ++ ")"))],
          [(.fileState "a", [])], [(.fileState "a", 0)], [], []⟩ : SkyState SkyKey String)
        (some ("content(" ++ "a" ++ ")"))
        [Event.invoked (SkyKey.fileState "a"),
         Event.completed (SkyKey.fileState "a") ("content(" ++ "a" ++ ")")] := rfl
  have h2 : evaluate typeName demoFns 3 (SkyKey.fileState "a") =
      .halt (⟨[(.fileState "a", some ("content(" ++ "a" ++ ")"))],
          [(.fileState "a", [])], [(.fileState "a", 0)], [], []⟩ : SkyState SkyKey String)
        (some ("content(" ++ "a" ++ ")"))
        [Event.invoked (SkyKey.fileState "a"),
         Event.completed (SkyKey.fileState "a") ("content(" ++ "a" ++ ")")] := rfl
  exact ⟨h1, h2, (evaluate_deterministic typeName demoFns 2 3 (SkyKey.fileState "a")
    _ _ _ _ _ _ h1 h2).1⟩

end Skyframe
